import Mathlib

/-!
# Artifact store: artifact lifecycle, chunk append path and merge pipeline

A shallow embedding of `api/artifacthandler.go`, `api/buckethandler.go`,
`model/logchunk.go` and `client/testserver/testserver.go`.  Handlers that mutate their pointer arguments and call the
persistent store or the object store become functions that take the values and
the collaborator states and return the new ones.

The collaborators (`database.Database`, `s3.Bucket`, `render.Render`) and the
row types `model.Artifact` / `model.Bucket` are not part of the sources at hand;
they are modelled from the specification (sections 3, 4.1, 4.2 and 6) and marked
as such.
-/

namespace Artifacts

/-! ## Machine integers -/

/-- Two's-complement wrap of an integer into the `int64` range. -/
def wrap64 (x : Int) : Int := (x + 2 ^ 63) % 2 ^ 64 - 2 ^ 63

/-- Go `a + b` on `int64` operands. -/
def add64 (a b : Int) : Int := wrap64 (a + b)

/-- Membership in the `int64` range. -/
def inInt64 (x : Int) : Prop := -(2 ^ 63) ≤ x ∧ x < 2 ^ 63

instance (x : Int) : Decidable (inInt64 x) := by unfold inInt64; infer_instance

/-- Go `len(s)` for a string: the number of bytes of its UTF-8 encoding. -/
def len (s : String) : Int := (s.utf8ByteSize : Int)

/-! ## HTTP status codes (`net/http`) -/

def StatusOK : Nat := 200
def StatusBadRequest : Nat := 400
def StatusNotFound : Nat := 404
def StatusInternalServerError : Nat := 500

/-! ## Data model -/

/-- Modelled from the spec: `model.ArtifactState`, whose declaration is not in the
sources; section 3 lists exactly these seven states. -/
inductive ArtifactState where
  | WAITING_FOR_UPLOAD
  | UPLOADING
  | UPLOADED
  | APPENDING
  | APPEND_COMPLETE
  | CLOSED_WITHOUT_DATA
  | ERROR
  deriving DecidableEq, Repr

/-- Modelled from the spec: the rendering of an artifact state under the `%s` verb
(the state's name), the `String` method not being in the sources. -/
def ArtifactState.String : ArtifactState → String
  | .WAITING_FOR_UPLOAD => "WAITING_FOR_UPLOAD"
  | .UPLOADING => "UPLOADING"
  | .UPLOADED => "UPLOADED"
  | .APPENDING => "APPENDING"
  | .APPEND_COMPLETE => "APPEND_COMPLETE"
  | .CLOSED_WITHOUT_DATA => "CLOSED_WITHOUT_DATA"
  | .ERROR => "ERROR"

/-- Modelled from the spec: `model.BucketState` (section 3: `OPEN`, `CLOSED`). -/
inductive BucketState where
  | OPEN
  | CLOSED
  deriving DecidableEq, Repr

/-- Modelled from the spec: the rendering of a bucket state under `%s`. -/
def BucketState.String : BucketState → String
  | .OPEN => "OPEN"
  | .CLOSED => "CLOSED"

/-- Modelled from the spec: `model.Bucket` (section 3).  Timestamps are clock
readings. -/
structure Bucket where
  Id : String
  Owner : String
  DateCreated : Nat
  DateClosed : Nat
  State : BucketState
  deriving DecidableEq, Repr

/-- Modelled from the spec: `model.Artifact` (section 3).  `Id` and `Size` are
`int64`, `DeadlineMins` is `uint`. -/
structure Artifact where
  Id : Int
  BucketId : String
  Name : String
  Size : Int
  DeadlineMins : Nat
  DateCreated : Nat
  State : ArtifactState
  S3URL : String
  deriving DecidableEq, Repr

/-- Modelled from the spec: `Artifact.DefaultS3URL`, the object-store key, "a pure
function of the artifact (owning bucket id + artifact name + id)" (section 6). -/
def Artifact.DefaultS3URL (a : Artifact) : String :=
  "/" ++ a.BucketId ++ "/" ++ a.Name ++ "/" ++ toString a.Id

/-- The row type of `model/logchunk.go`. -/
structure LogChunk where
  Id : Int
  ArtifactId : Int
  ByteOffset : Int
  Size : Int
  Content : String
  ContentBytes : List (Fin 256)
  deriving DecidableEq, Repr

/-! ## Errors and formatting -/

/-- The two verbs used by the handlers, `%s` and `%d`, each replaced by the next
argument (already rendered as text), or by the missing-operand marker when the
arguments have run out; other characters are copied. -/
def sprintfAux : List Char → List String → List Char
  | '%' :: 's' :: rest, a :: args => a.data ++ sprintfAux rest args
  | '%' :: 'd' :: rest, a :: args => a.data ++ sprintfAux rest args
  | '%' :: 's' :: rest, [] => "%!s(MISSING)".data ++ sprintfAux rest []
  | '%' :: 'd' :: rest, [] => "%!d(MISSING)".data ++ sprintfAux rest []
  | c :: rest, args => c :: sprintfAux rest args
  | [], _ => []

/-- Go `fmt.Sprintf` restricted to the verbs the handlers use. -/
def Sprintf (format : String) (args : List String) : String :=
  String.mk (sprintfAux format.data args)

/-- Go `fmt.Errorf`: an `error` value is represented by its message. -/
def Errorf (format : String) (args : List String) : String :=
  Sprintf format args

/-- `HttpError` of `api/buckethandler.go`. -/
structure HttpError where
  errCode : Nat
  errStr : String
  deriving DecidableEq, Repr

/-- `HttpError.Error`. -/
def HttpError.Error (he : HttpError) : String := he.errStr

/-- `NewHttpError`: the format is expanded only when arguments are given. -/
def NewHttpError (code : Nat) (format : String) (args : List String) : HttpError :=
  if args.length > 0 then
    { errCode := code, errStr := Sprintf format args }
  else
    { errCode := code, errStr := format }

/-- `NewWrappedHttpError`. -/
def NewWrappedHttpError (code : Nat) (err : String) : HttpError :=
  { errCode := code, errStr := err }

/-- Modelled from the spec: `database.DatabaseError`; section 4.1 requires that
entity-not-found be distinguishable from other failures. -/
structure DatabaseError where
  msg : String
  notFound : Bool
  deriving DecidableEq, Repr

/-- `DatabaseError.EntityNotFound`. -/
def DatabaseError.EntityNotFound (e : DatabaseError) : Bool := e.notFound

/-- `DatabaseError.Error`. -/
def DatabaseError.Error (e : DatabaseError) : String := e.msg

/-! ## Persistent store -/

/-- Modelled from the spec: the persistent store behind `database.Database`
(section 4.1), as an in-memory row store.  `faults` is the schedule of injected
failures: every store call consumes its head, `some e` making that call fail with
`e`; an exhausted schedule means the call is served. -/
structure Database where
  buckets : List Bucket
  artifacts : List Artifact
  logChunks : List LogChunk
  faults : List (Option DatabaseError)
  deriving DecidableEq, Repr

namespace Database

/-- Consume the next entry of the failure schedule. -/
def nextFault (db : Database) : Option DatabaseError × Database :=
  match db.faults with
  | [] => (none, db)
  | f :: rest => (f, { db with faults := rest })

/-- A store-generated identifier: one more than every identifier in use. -/
def freshId (ids : List Int) : Int := ids.foldl max 0 + 1

/-- The rows after an update of the artifact keyed by `a.Id`. -/
def setArtifact (db : Database) (a : Artifact) : Database :=
  { db with artifacts := db.artifacts.map (fun r => if r.Id = a.Id then a else r) }

/-- A chunk row with its store-generated `Id`. -/
def stamp (db : Database) (c : LogChunk) : LogChunk :=
  { c with Id := freshId (db.logChunks.map (fun r => r.Id)) }

/-- The rows after the insertion of a chunk. -/
def addChunk (db : Database) (c : LogChunk) : Database :=
  { db with logChunks := db.logChunks ++ [db.stamp c] }

/-- An artifact row with its store-generated `Id`. -/
def stampArtifact (db : Database) (a : Artifact) : Artifact :=
  { a with Id := freshId (db.artifacts.map (fun r => r.Id)) }

/-- The rows after the insertion of an artifact. -/
def addArtifact (db : Database) (a : Artifact) : Database :=
  { db with artifacts := db.artifacts ++ [db.stampArtifact a] }

/-- Modelled from the spec: `GetBucket(id)`; a missing row is an entity-not-found
error. -/
def GetBucket (db : Database) (id : String) : Except DatabaseError Bucket × Database :=
  match db.nextFault with
  | (some e, db1) => (.error e, db1)
  | (none, db1) =>
    match db1.buckets.find? (fun b => b.Id = id) with
    | some b => (.ok b, db1)
    | none => (.error { msg := "Entity not found", notFound := true }, db1)

/-- Modelled from the spec: `InsertBucket(b)`. -/
def InsertBucket (db : Database) (b : Bucket) : Option DatabaseError × Database :=
  match db.nextFault with
  | (some e, db1) => (some e, db1)
  | (none, db1) => (none, { db1 with buckets := db1.buckets ++ [b] })

/-- Modelled from the spec: `UpdateBucket(b)`, the row being keyed by `Id`. -/
def UpdateBucket (db : Database) (b : Bucket) : Option DatabaseError × Database :=
  match db.nextFault with
  | (some e, db1) => (some e, db1)
  | (none, db1) =>
    (none, { db1 with buckets := db1.buckets.map (fun r => if r.Id = b.Id then b else r) })

/-- Modelled from the spec: `ListBuckets()`. -/
def ListBuckets (db : Database) : Except DatabaseError (List Bucket) × Database :=
  match db.nextFault with
  | (some e, db1) => (.error e, db1)
  | (none, db1) => (.ok db1.buckets, db1)

/-- Modelled from the spec: `GetArtifactByName(bucketId, name)`; a missing row is an
entity-not-found error. -/
def GetArtifactByName (db : Database) (bucketId name : String) :
    Except DatabaseError Artifact × Database :=
  match db.nextFault with
  | (some e, db1) => (.error e, db1)
  | (none, db1) =>
    match db1.artifacts.find? (fun a => a.BucketId = bucketId ∧ a.Name = name) with
    | some a => (.ok a, db1)
    | none => (.error { msg := "Entity not found", notFound := true }, db1)

/-- Modelled from the spec: `InsertArtifact(a)`; the store generates the `Id` and
writes it back into the row it was handed. -/
def InsertArtifact (db : Database) (a : Artifact) :
    Option DatabaseError × Artifact × Database :=
  match db.nextFault with
  | (some e, db1) => (some e, a, db1)
  | (none, db1) => (none, db1.stampArtifact a, db1.addArtifact a)

/-- Modelled from the spec: `UpdateArtifact(a)`, the row being keyed by `Id`. -/
def UpdateArtifact (db : Database) (a : Artifact) : Option DatabaseError × Database :=
  match db.nextFault with
  | (some e, db1) => (some e, db1)
  | (none, db1) => (none, db1.setArtifact a)

/-- Modelled from the spec: `ListArtifactsInBucket(bucketId)`. -/
def ListArtifactsInBucket (db : Database) (bucketId : String) :
    Except DatabaseError (List Artifact) × Database :=
  match db.nextFault with
  | (some e, db1) => (.error e, db1)
  | (none, db1) => (.ok (db1.artifacts.filter (fun a => a.BucketId = bucketId)), db1)

/-- Modelled from the spec: `InsertLogChunk(c)`; the store generates the `Id`. -/
def InsertLogChunk (db : Database) (c : LogChunk) :
    Option DatabaseError × LogChunk × Database :=
  match db.nextFault with
  | (some e, db1) => (some e, c, db1)
  | (none, db1) => (none, db1.stamp c, db1.addChunk c)

/-- The chunk rows of one artifact, "ordered by `ByteOffset` ascending". -/
def chunksOf (db : Database) (artifactId : Int) : List LogChunk :=
  (db.logChunks.filter (fun c => c.ArtifactId = artifactId)).insertionSort
    (fun c d => c.ByteOffset ≤ d.ByteOffset)

/-- Modelled from the spec: `ListLogChunksInArtifact(artifactId)`, "results ordered
by `ByteOffset` ascending". -/
def ListLogChunksInArtifact (db : Database) (artifactId : Int) :
    Except DatabaseError (List LogChunk) × Database :=
  match db.nextFault with
  | (some e, db1) => (.error e, db1)
  | (none, db1) => (.ok (db1.chunksOf artifactId), db1)

/-- The append cursor of one artifact: "the exclusive end offset of the
highest-offset chunk, or 0 if none". -/
def lastByteSeen (db : Database) (artifactId : Int) : Int :=
  match (db.chunksOf artifactId).getLast? with
  | none => 0
  | some c => add64 c.ByteOffset c.Size

/-- Modelled from the spec: `GetLastByteSeenForArtifact(artifactId)`. -/
def GetLastByteSeenForArtifact (db : Database) (artifactId : Int) :
    Except DatabaseError Int × Database :=
  match db.nextFault with
  | (some e, db1) => (.error e, db1)
  | (none, db1) => (.ok (db1.lastByteSeen artifactId), db1)

/-- Every scheduled entry of the failure schedule is a success: all store
operations are served. -/
def healthy (db : Database) : Prop := ∀ f ∈ db.faults, f = none

instance (db : Database) : Decidable db.healthy := by unfold healthy; infer_instance

/-- The store after one served call: one schedule entry consumed, rows as before. -/
def tick (db : Database) : Database := { db with faults := db.faults.tail }

/-- The persisted rows carrying a given artifact id. -/
def rowsOf (db : Database) (id : Int) : List Artifact :=
  db.artifacts.filter (fun r => r.Id = id)

end Database

/-! ## Chunk append path (`AppendLogChunk`) -/

/-- What `AppendLogChunk` leaves behind: the returned `*HttpError` (`none` for
`nil`), the artifact and chunk behind the two pointers, and the store. -/
structure AppendOutcome where
  err : Option HttpError
  artifact : Artifact
  logChunk : LogChunk
  db : Database
  deriving DecidableEq, Repr

/-- `AppendLogChunk` of `api/artifacthandler.go`. -/
def AppendLogChunk (db : Database) (artifact : Artifact) (logChunk : LogChunk) :
    AppendOutcome :=
  if artifact.State ≠ .APPENDING then
    { err := some (NewHttpError StatusBadRequest
        (Sprintf "Unexpected artifact state: %s" [artifact.State.String]) []),
      artifact := artifact, logChunk := logChunk, db := db }
  else if logChunk.Size ≤ 0 then
    { err := some (NewHttpError StatusBadRequest "Invalid chunk size %d"
        [toString logChunk.Size]),
      artifact := artifact, logChunk := logChunk, db := db }
  else if logChunk.Content = "" then
    { err := some (NewHttpError StatusBadRequest "Empty content string" []),
      artifact := artifact, logChunk := logChunk, db := db }
  else if len logChunk.Content ≠ logChunk.Size then
    { err := some (NewHttpError StatusBadRequest
        "Content length does not match indicated size" []),
      artifact := artifact, logChunk := logChunk, db := db }
  else
    match db.GetLastByteSeenForArtifact artifact.Id with
    | (.error e, db1) =>
      { err := some (NewHttpError StatusInternalServerError
          "Error while checking for previous byte range: %s" [e.Error]),
        artifact := artifact, logChunk := logChunk, db := db1 }
    | (.ok nextByteOffset, db1) =>
      if nextByteOffset ≠ logChunk.ByteOffset then
        { err := some (NewHttpError StatusBadRequest
            "Overlapping ranges detected, expected offset: %d, actual offset: %d"
            [toString nextByteOffset, toString logChunk.ByteOffset]),
          artifact := artifact, logChunk := logChunk, db := db1 }
      else
        let logChunk1 := { logChunk with ArtifactId := artifact.Id }
        if artifact.Size < add64 logChunk1.ByteOffset logChunk1.Size then
          let artifact1 := { artifact with Size := add64 logChunk1.ByteOffset logChunk1.Size }
          match db1.UpdateArtifact artifact1 with
          | (some e, db2) =>
            { err := some (NewHttpError StatusInternalServerError e.Error []),
              artifact := artifact1, logChunk := logChunk1, db := db2 }
          | (none, db2) =>
            match db2.InsertLogChunk logChunk1 with
            | (some e, logChunk2, db3) =>
              { err := some (NewHttpError StatusBadRequest "Error updating log chunk: %s"
                  [e.Error]),
                artifact := artifact1, logChunk := logChunk2, db := db3 }
            | (none, logChunk2, db3) =>
              { err := none, artifact := artifact1, logChunk := logChunk2, db := db3 }
        else
          match db1.InsertLogChunk logChunk1 with
          | (some e, logChunk2, db2) =>
            { err := some (NewHttpError StatusBadRequest "Error updating log chunk: %s"
                [e.Error]),
              artifact := artifact, logChunk := logChunk2, db := db2 }
          | (none, logChunk2, db2) =>
            { err := none, artifact := artifact, logChunk := logChunk2, db := db2 }

/-! ## Object store -/

/-- One `PutReader` call as the object store sees it: the key, the bytes its reader
delivers, the declared length, the content type and the ACL. -/
structure PutCall where
  path : String
  data : String
  length : Int
  contType : String
  perm : String
  deriving DecidableEq, Repr

/-- Modelled from the spec: an injected upstream failure of `PutReader`: the message
of the error, and the number of bytes the call had read from its reader when it
failed (`0` for a refused connection). -/
structure PutFault where
  msg : String
  taken : Int
  deriving DecidableEq, Repr

/-- Modelled from the spec: the object store behind `s3.Bucket` (section 4.2): the
stored objects by key, the log of `PutReader` calls, and a schedule of injected
upstream failures consumed one entry per call. -/
structure S3Bucket where
  objects : List (String × String)
  calls : List PutCall
  faults : List (Option PutFault)
  deriving DecidableEq, Repr

/-- The ACL constant `s3.PublicRead`. -/
def PublicRead : String := "public-read"

/-- Modelled from the spec: `PutReader(key, reader, length, contentType, acl)`, which
"reads exactly `length` bytes, fails otherwise"; an injected upstream failure makes
the call fail as well.  Every call is logged. -/
def S3Bucket.PutReader (b : S3Bucket) (path data : String) (length : Int)
    (contType perm : String) : Option String × S3Bucket :=
  let logged := b.calls ++ [{ path := path, data := data, length := length,
                              contType := contType, perm := perm }]
  match b.faults with
  | some e :: rest => (some e.msg, { b with calls := logged, faults := rest })
  | none :: rest =>
    if len data = length then
      (none, { objects := (path, data) :: b.objects.filter (fun o => o.1 ≠ path),
               calls := logged, faults := rest })
    else
      (some "unexpected EOF", { b with calls := logged, faults := rest })
  | [] =>
    if len data = length then
      (none, { objects := (path, data) :: b.objects.filter (fun o => o.1 ≠ path),
               calls := logged, faults := [] })
    else
      (some "unexpected EOF", { b with calls := logged })

/-- Modelled from the spec: the number of bytes the `PutReader` call to come reads
from its reader before it returns: `length` bytes ("reads exactly `length` bytes"),
or what an injected failure allows. -/
def S3Bucket.taken (b : S3Bucket) (length : Int) : Int :=
  match b.faults with
  | some e :: _ => e.taken
  | _ => length

/-- Modelled from the spec: `GetReader(key)`, the stored bytes of a key. -/
def S3Bucket.GetReader (b : S3Bucket) (path : String) : Except String String :=
  match b.objects.find? (fun o => o.1 = path) with
  | some o => .ok o.2
  | none => .error "The specified key does not exist."

/-! ## Merge pipeline and artifact close -/

/-- What `CloseArtifact`, `MergeLogChunks` and `PutArtifact` leave behind: the
returned `error` (`none` for `nil`), the artifact behind the pointer, the store and
the object store.  `blocked` marks a call that never returns: the producer loop of
`MergeLogChunks` waits in `w.Write` for a reader that has stopped reading, while the
consumer goroutine waits to send its result; `err` then holds that undelivered result
and the other fields the state in which the call is stuck. -/
structure CloseOutcome where
  err : Option String
  artifact : Artifact
  db : Database
  s3 : S3Bucket
  blocked : Bool := false
  deriving DecidableEq, Repr

/-- Modelled from the spec: the numeric value of a state under the `%d` verb; the
constants are not in the sources, the order of section 3 is used. -/
def ArtifactState.code : ArtifactState → Nat
  | .WAITING_FOR_UPLOAD => 1
  | .UPLOADING => 2
  | .UPLOADED => 3
  | .APPENDING => 4
  | .APPEND_COMPLETE => 5
  | .CLOSED_WITHOUT_DATA => 6
  | .ERROR => 7

/-- The bytes the producer loop of `MergeLogChunks` writes to the pipe: one
`w.Write([]byte(logChunk.Content))` per chunk, in list order. -/
def pipeWrites (logChunks : List LogChunk) : String :=
  logChunks.foldl (fun w logChunk => w ++ logChunk.Content) ""

/-- `MergeLogChunks` of `api/artifacthandler.go`.  The producer loop and the
consumer goroutine meet on an in-process pipe, on which a `w.Write` returns only
when its bytes have been read; the reader is closed, and both channels, only when
the goroutine returns, and its sends on the unbuffered channels wait for the
`select`.  So the caller reaches `w.Close()` and the `select` exactly when
`PutReader` reads every byte the loop writes (a write of no bytes is taken to
return at once); the `select` then receives the consumer's single result
(completion or error).  When `PutReader` stops reading earlier, the loop stays in
`w.Write` and the goroutine in its send: the call never returns (`blocked`). -/
def MergeLogChunks (artifact : Artifact) (db : Database) (s3bucket : S3Bucket) :
    CloseOutcome :=
  match artifact.State with
  | .APPEND_COMPLETE =>
    if artifact.Size = 0 then
      let artifact1 := { artifact with State := .CLOSED_WITHOUT_DATA, S3URL := "" }
      match db.UpdateArtifact artifact1 with
      | (e, db1) =>
        { err := e.map DatabaseError.Error, artifact := artifact1, db := db1, s3 := s3bucket }
    else
      let artifact1 := { artifact with State := .UPLOADING }
      match db.UpdateArtifact artifact1 with
      | (some e, db1) =>
        { err := some e.Error, artifact := artifact1, db := db1, s3 := s3bucket }
      | (none, db1) =>
        match db1.ListLogChunksInArtifact artifact1.Id with
        | (.error e, db2) =>
          { err := some e.Error, artifact := artifact1, db := db2, s3 := s3bucket }
        | (.ok logChunks, db2) =>
          let fileName := artifact1.DefaultS3URL
          match s3bucket.PutReader fileName (pipeWrites logChunks) artifact1.Size
              "binary/octet-stream" PublicRead with
          | (res, s3b) =>
          if s3bucket.taken artifact1.Size < len (pipeWrites logChunks) then
            { err := res.map (fun err => Errorf "Error uploading to S3: %s" [err]),
              artifact := artifact1, db := db2, s3 := s3b, blocked := true }
          else
          match res with
          | some err =>
            { err := some (Errorf "Error uploading to S3: %s" [err]),
              artifact := artifact1, db := db2, s3 := s3b }
          | none =>
            let artifact2 := { artifact1 with State := .UPLOADED, S3URL := fileName }
            match db2.UpdateArtifact artifact2 with
            | (some e, db3) =>
              { err := some e.Error, artifact := artifact2, db := db3, s3 := s3b }
            | (none, db3) =>
              { err := none, artifact := artifact2, db := db3, s3 := s3b }
  | .WAITING_FOR_UPLOAD | .ERROR | .APPENDING | .UPLOADED | .UPLOADING =>
    { err := some (Errorf
        "Artifact can only be merged when in APPEND_COMPLETE state, but state is %s"
        [artifact.State.String]),
      artifact := artifact, db := db, s3 := s3bucket }
  | .CLOSED_WITHOUT_DATA =>
    { err := some (Errorf "Illegal artifact state! State code is %d"
        [toString artifact.State.code]),
      artifact := artifact, db := db, s3 := s3bucket }

/-- `CloseArtifact` of `api/artifacthandler.go`. -/
def CloseArtifact (artifact : Artifact) (db : Database) (s3bucket : S3Bucket)
    (_failIfAlreadyClosed : Bool) : CloseOutcome :=
  match artifact.State with
  | .UPLOADED | .APPEND_COMPLETE =>
    { err := none, artifact := artifact, db := db, s3 := s3bucket }
  | .APPENDING =>
    let artifact1 := { artifact with State := .APPEND_COMPLETE }
    match db.UpdateArtifact artifact1 with
    | (some e, db1) =>
      { err := some e.Error, artifact := artifact1, db := db1, s3 := s3bucket }
    | (none, db1) => MergeLogChunks artifact1 db1 s3bucket
  | .WAITING_FOR_UPLOAD =>
    let artifact1 := { artifact with State := .CLOSED_WITHOUT_DATA }
    match db.UpdateArtifact artifact1 with
    | (some e, db1) =>
      { err := some e.Error, artifact := artifact1, db := db1, s3 := s3bucket }
    | (none, db1) =>
      { err := none, artifact := artifact1, db := db1, s3 := s3bucket }
  | .UPLOADING | .CLOSED_WITHOUT_DATA | .ERROR =>
    { err := some (Errorf "Unexpected artifact state: %s" [artifact.State.String]),
      artifact := artifact, db := db, s3 := s3bucket }

/-! ## PUT upload path -/

/-- The digits of a non-empty all-digit string as a number. -/
def parseDigits : List Char → Option Nat
  | [] => none
  | cs => if cs.all Char.isDigit then
      some (cs.foldl (fun n c => 10 * n + (c.toNat - '0'.toNat)) 0)
    else none

/-- Go `strconv.ParseInt(s, 10, 64)`: an optional sign, then at least one decimal
digit and nothing else, the value within the `int64` range; `none` for an error. -/
def ParseInt (s : String) : Option Int :=
  let signed : Bool × List Char :=
    match s.data with
    | '+' :: rest => (false, rest)
    | '-' :: rest => (true, rest)
    | cs => (false, cs)
  match parseDigits signed.2 with
  | none => none
  | some n =>
    if signed.1 then
      if n ≤ 2 ^ 63 then some (-(n : Int)) else none
    else
      if n < 2 ^ 63 then some (n : Int) else none

/-- `PutArtifactReq` of `api/artifacthandler.go`; `Body` is the byte stream of the
reader. -/
structure PutArtifactReq where
  ContentLength : String
  Body : String
  deriving DecidableEq, Repr

/-- `PutArtifact` of `api/artifacthandler.go`. -/
def PutArtifact (artifact : Artifact) (db : Database) (bucket : S3Bucket)
    (req : PutArtifactReq) : CloseOutcome :=
  if artifact.State ≠ .WAITING_FOR_UPLOAD then
    { err := some (Errorf "Expected artifact to be in state WAITING_FOR_UPLOAD: %s"
        [artifact.State.String]),
      artifact := artifact, db := db, s3 := bucket }
  else if req.ContentLength ≠ "" then
    match ParseInt req.ContentLength with
    | none =>
      { err := some (Errorf "Invalid Content-Length specified" []),
        artifact := artifact, db := db, s3 := bucket }
    | some fileSize =>
      if fileSize ≠ artifact.Size then
        { err := some (Errorf "Content length %d does not match expected file size %d"
            [toString fileSize, toString artifact.Size]),
          artifact := artifact, db := db, s3 := bucket }
      else
        let artifact1 := { artifact with State := .UPLOADING }
        match db.UpdateArtifact artifact1 with
        | (some e, db1) =>
          { err := some e.Error, artifact := artifact1, db := db1, s3 := bucket }
        | (none, db1) =>
          let fileName := artifact1.DefaultS3URL
          match bucket.PutReader fileName req.Body artifact1.Size
              "binary/octet-stream" PublicRead with
          | (some err, s3b) =>
            -- cleanupAndReturn: flip to ERROR, persist, hand the error back
            let artifact2 := { artifact1 with State := .ERROR }
            { err := some (Errorf "Error uploading to S3: %s" [err]),
              artifact := artifact2, db := (db1.UpdateArtifact artifact2).2, s3 := s3b }
          | (none, s3b) =>
            let artifact2 := { artifact1 with State := .UPLOADED, S3URL := fileName }
            match db1.UpdateArtifact artifact2 with
            | (some e, db2) =>
              { err := some e.Error, artifact := artifact2, db := db2, s3 := s3b }
            | (none, db2) =>
              { err := none, artifact := artifact2, db := db2, s3 := s3b }
  else
    { err := some (Errorf "Content-Length not specified" []),
      artifact := artifact, db := db, s3 := bucket }

/-! ## HTTP surface -/

/-- The JSON value handed to `render.Render.JSON`. -/
inductive Payload where
  | error (msg : String)
  | artifact (a : Artifact)
  | bucket (b : Bucket)
  | artifacts (l : List Artifact)
  | buckets (l : List Bucket)
  | empty
  deriving DecidableEq, Repr

/-- One rendered response: status code and JSON body. -/
structure Response where
  status : Nat
  body : Payload
  deriving DecidableEq, Repr

/-- Modelled from the spec: `render.Render`, as the log of the responses written
through it. -/
abbrev Render := List Response

/-- `r.JSON(status, v)`. -/
def Render.JSON (r : Render) (status : Nat) (v : Payload) : Render :=
  r ++ [{ status := status, body := v }]

/-- Modelled from the spec: `JsonErrorf`, which is not in the sources; it writes the
error envelope `{"error": "<message>"}` with the given status (section 6). -/
def JsonErrorf (r : Render) (status : Nat) (format : String) (args : List String) :
    Render :=
  r.JSON status (.error (Sprintf format args))

/-- The parts of `*http.Request` the handlers read: the headers and the body. -/
structure Request where
  Header : List (String × String)
  Body : String
  deriving DecidableEq, Repr

/-- `req.Header.Get(key)`: the first value of the key, or the empty string. -/
def Request.HeaderGet (req : Request) (key : String) : String :=
  match req.Header.find? (fun h => h.1 = key) with
  | some h => h.2
  | none => ""

/-- What a handler leaves behind: the responses written, the artifact behind the
pointer (`none` for `nil`), the store and the object store; `blocked` marks a
handler that never returns. -/
structure HandlerOutcome where
  r : Render
  artifact : Option Artifact
  db : Database
  s3 : S3Bucket
  blocked : Bool := false
  deriving DecidableEq, Repr

/-- `PostArtifact` of `api/artifacthandler.go`.  `decode` stands for
`json.NewDecoder(req.Body).Decode` into a `LogChunk` (`none` for a decoding
error). -/
def PostArtifact (decode : String → Option LogChunk) (r : Render) (req : Request)
    (db : Database) (s3bucket : S3Bucket) (artifact : Option Artifact) : HandlerOutcome :=
  match artifact with
  | none =>
    { r := JsonErrorf r StatusBadRequest "Error: no artifact specified" [],
      artifact := none, db := db, s3 := s3bucket }
  | some a =>
    match a.State with
    | .WAITING_FOR_UPLOAD =>
      let contentLengthStr := req.HeaderGet "Content-Length"
      match ParseInt contentLengthStr with
      | none =>
        { r := JsonErrorf r StatusBadRequest
            "Error: couldn't parse Content-Length as int64" [],
          artifact := some a, db := db, s3 := s3bucket }
      | some contentLength =>
        if contentLength ≠ a.Size then
          { r := JsonErrorf r StatusBadRequest
              "Error: Content-Length does not match artifact size" [],
            artifact := some a, db := db, s3 := s3bucket }
        else
          let out := PutArtifact a db s3bucket
            { ContentLength := contentLengthStr, Body := req.Body }
          match out.err with
          | some err =>
            { r := JsonErrorf r StatusInternalServerError err [],
              artifact := some out.artifact, db := out.db, s3 := out.s3 }
          | none =>
            { r := r.JSON StatusOK (.artifact out.artifact),
              artifact := some out.artifact, db := out.db, s3 := out.s3 }
    | .UPLOADING =>
      { r := JsonErrorf r StatusBadRequest "Error: artifact is currently being updated" [],
        artifact := some a, db := db, s3 := s3bucket }
    | .UPLOADED =>
      { r := JsonErrorf r StatusBadRequest "Error: artifact already uploaded" [],
        artifact := some a, db := db, s3 := s3bucket }
    | .APPENDING =>
      match decode req.Body with
      | none =>
        { r := JsonErrorf r StatusBadRequest "Error: could not decode JSON request" [],
          artifact := some a, db := db, s3 := s3bucket }
      | some logChunk =>
        let out := AppendLogChunk db a logChunk
        match out.err with
        | some err =>
          { r := r.JSON err.errCode (.error err.Error),
            artifact := some out.artifact, db := out.db, s3 := s3bucket }
        | none =>
          { r := r.JSON StatusOK (.artifact out.artifact),
            artifact := some out.artifact, db := out.db, s3 := s3bucket }
    | .APPEND_COMPLETE =>
      { r := JsonErrorf r StatusBadRequest
          "Error: artifact is closed for further appends" [],
        artifact := some a, db := db, s3 := s3bucket }
    | .CLOSED_WITHOUT_DATA | .ERROR =>
      -- no case of the switch matches: the handler returns without rendering
      { r := r, artifact := some a, db := db, s3 := s3bucket }

/-- `FinalizeArtifact` of `api/artifacthandler.go` (the unused `params` is left
out). -/
def FinalizeArtifact (r : Render) (db : Database) (s3bucket : S3Bucket)
    (artifact : Option Artifact) : HandlerOutcome :=
  match artifact with
  | none =>
    { r := JsonErrorf r StatusBadRequest "Error: no artifact specified" [],
      artifact := none, db := db, s3 := s3bucket }
  | some a =>
    let out := CloseArtifact a db s3bucket true
    if out.blocked then
      { r := r, artifact := some out.artifact, db := out.db, s3 := out.s3, blocked := true }
    else
    match out.err with
    | some err =>
      { r := r.JSON StatusBadRequest (.error (Sprintf "%s" [err])),
        artifact := some out.artifact, db := out.db, s3 := out.s3 }
    | none =>
      { r := r.JSON StatusOK .empty,
        artifact := some out.artifact, db := out.db, s3 := out.s3 }

/-! ## Artifact creation -/

/-- The default of `DeadlineMins`. -/
def DEFAULT_DEADLINE : Nat := 30

/-- `CreateArtifactReq` of `api/artifacthandler.go`. -/
structure CreateArtifactReq where
  Name : String
  Chunked : Bool
  Size : Int
  DeadlineMins : Nat
  deriving DecidableEq, Repr

/-- `CreateArtifact` of `api/artifacthandler.go`; `now` is the reading of
`time.Now()`.  The row starts as the zero value of `model.Artifact` and every path
that reaches the insert has assigned its `State`. -/
def CreateArtifact (now : Nat) (req : CreateArtifactReq) (bucket : Bucket)
    (db : Database) : Except String Artifact × Database :=
  if len req.Name = 0 then
    (.error (Errorf "Artifact Name not provided, state = %s" [bucket.State.String]), db)
  else if bucket.State ≠ .OPEN then
    (.error (Errorf "Bucket is already closed" []), db)
  else
    match db.GetArtifactByName bucket.Id req.Name with
    | (.ok _, db1) => (.error (Errorf "Artifact already exists" []), db1)
    | (.error _, db1) =>
      let deadline := if req.DeadlineMins = 0 then DEFAULT_DEADLINE else req.DeadlineMins
      if req.Chunked then
        let artifact : Artifact :=
          { Id := 0, BucketId := bucket.Id, Name := req.Name, Size := 0,
            DeadlineMins := deadline, DateCreated := now, State := .APPENDING, S3URL := "" }
        match db1.InsertArtifact artifact with
        | (some err, _, db2) => (.error (Errorf "Error inserting artifact %s" [err.Error]), db2)
        | (none, artifact1, db2) => (.ok artifact1, db2)
      else if req.Size = 0 then
        (.error (Errorf "Cannot create a new upload artifact without size." []), db1)
      else
        let artifact : Artifact :=
          { Id := 0, BucketId := bucket.Id, Name := req.Name, Size := req.Size,
            DeadlineMins := deadline, DateCreated := now, State := .WAITING_FOR_UPLOAD,
            S3URL := "" }
        match db1.InsertArtifact artifact with
        | (some err, _, db2) => (.error (Errorf "Error inserting artifact %s" [err.Error]), db2)
        | (none, artifact1, db2) => (.ok artifact1, db2)


/-! ## Scenario data

Concrete buckets, artifacts, chunks and stores of the scenarios of section 8, on
which the theorems below are instantiated. -/

/-- The open bucket `"B"` of owner `"alice"`. -/
def exBucket : Bucket :=
  { Id := "B", Owner := "alice", DateCreated := 0, DateClosed := 0, State := .OPEN }

/-- A store holding only the open bucket. -/
def exStoreEmpty : Database :=
  { buckets := [exBucket], artifacts := [], logChunks := [], faults := [] }

/-- An object store holding nothing, with no scheduled failure. -/
def exS3 : S3Bucket := { objects := [], calls := [], faults := [] }

/-- The chunked artifact `"log"` after its first chunk `"abc"`. -/
def exLog : Artifact :=
  { Id := 1, BucketId := "B", Name := "log", Size := 3, DeadlineMins := 30,
    DateCreated := 0, State := .APPENDING, S3URL := "" }

/-- The stored first chunk of `"log"`. -/
def exChunkAbc : LogChunk :=
  { Id := 1, ArtifactId := 1, ByteOffset := 0, Size := 3, Content := "abc",
    ContentBytes := [] }

/-- The store after the first chunk of `"log"` was accepted. -/
def exStoreAbc : Database :=
  { buckets := [exBucket], artifacts := [exLog], logChunks := [exChunkAbc], faults := [] }

/-- The out-of-order chunk of scenario S4. -/
def exChunkGap : LogChunk :=
  { Id := 0, ArtifactId := 0, ByteOffset := 5, Size := 1, Content := "x",
    ContentBytes := [] }

/-- The second chunk of scenario S3, as a client sends it. -/
def exChunkDe : LogChunk :=
  { Id := 0, ArtifactId := 0, ByteOffset := 3, Size := 2, Content := "de",
    ContentBytes := [] }

/-! ## Runs of appends and the contiguity predicate -/

/-- A run of `AppendLogChunk` calls, each on the artifact and the store that the
previous call left behind. -/
def appendAll (db : Database) (artifact : Artifact) : List LogChunk → Artifact × Database
  | [] => (artifact, db)
  | c :: cs =>
    appendAll (AppendLogChunk db artifact c).db (AppendLogChunk db artifact c).artifact cs

/-- Chunks laid end to end from `start`: the first one begins at `start` and each
next one begins where the previous one ends. -/
def gapFree : Int → List LogChunk → Prop
  | _, [] => True
  | start, c :: rest => c.ByteOffset = start ∧ gapFree (c.ByteOffset + c.Size) rest

/-- Deciding `gapFree`. -/
def gapFree.dec : (start : Int) → (l : List LogChunk) → Decidable (gapFree start l)
  | _, [] => isTrue trivial
  | start, c :: rest =>
    match decEq c.ByteOffset start, gapFree.dec (c.ByteOffset + c.Size) rest with
    | isTrue h1, isTrue h2 => isTrue ⟨h1, h2⟩
    | isFalse h1, _ => isFalse (fun h => h1 h.1)
    | _, isFalse h2 => isFalse (fun h => h2 h.2)

instance (start : Int) (l : List LogChunk) : Decidable (gapFree start l) :=
  gapFree.dec start l

/-- The sum of the `Size` fields of a list of chunks. -/
def totalSize (l : List LogChunk) : Int := (l.map (fun c => c.Size)).sum

/-- The number of content bytes a list of chunks carries. -/
def totalBytes (l : List LogChunk) : Int := (l.map (fun c => len c.Content)).sum

/-- The state of one chunked artifact between two appends: the store serves every
call, the artifact is `APPENDING` and is the one persisted row of its id, and its
chunk rows, in insertion order, lie end to end from offset 0 with positive sizes
that match their contents and add up to `Artifact.Size`. -/
structure AppendInv (a : Artifact) (db : Database) : Prop where
  healthy : db.healthy
  state : a.State = .APPENDING
  gap : gapFree 0 (db.logChunks.filter (fun c => c.ArtifactId = a.Id))
  pos : ∀ c ∈ db.logChunks.filter (fun c => c.ArtifactId = a.Id), 0 < c.Size
  lens : ∀ c ∈ db.logChunks.filter (fun c => c.ArtifactId = a.Id), len c.Content = c.Size
  size : a.Size = totalSize (db.logChunks.filter (fun c => c.ArtifactId = a.Id))
  row : db.rowsOf a.Id = [a]

/-- The creation request of the chunked artifact `"log"` (scenario S3). -/
def exCreateLog : CreateArtifactReq :=
  { Name := "log", Chunked := true, Size := 0, DeadlineMins := 0 }

/-- The artifact `"log"` as `CreateArtifact` returns it. -/
def exLogNew : Artifact :=
  { Id := 1, BucketId := "B", Name := "log", Size := 0, DeadlineMins := 30,
    DateCreated := 0, State := .APPENDING, S3URL := "" }

/-- The store right after the creation of `"log"`. -/
def exStoreNew : Database :=
  { buckets := [exBucket], artifacts := [exLogNew], logChunks := [], faults := [] }

/-- The first chunk of scenario S3, as a client sends it. -/
def exChunkAbcIn : LogChunk :=
  { Id := 0, ArtifactId := 0, ByteOffset := 0, Size := 3, Content := "abc",
    ContentBytes := [] }

/-- A run of appends: `"abc"`, the refused out-of-order chunk, then `"de"`. -/
def exRun : List LogChunk := [exChunkAbcIn, exChunkGap, exChunkDe]

/-- The artifact `"log"` after `"abc"` and `"de"`. -/
def exLogFull : Artifact :=
  { Id := 1, BucketId := "B", Name := "log", Size := 5, DeadlineMins := 30,
    DateCreated := 0, State := .APPENDING, S3URL := "" }

/-- The stored second chunk of `"log"`. -/
def exChunkDeStored : LogChunk :=
  { Id := 2, ArtifactId := 1, ByteOffset := 3, Size := 2, Content := "de",
    ContentBytes := [] }

/-- The store after both chunks of `"log"` were accepted; the rows are listed out of
offset order to exercise the ordering of the listing. -/
def exStoreFull : Database :=
  { buckets := [exBucket], artifacts := [exLogFull],
    logChunks := [exChunkDeStored, exChunkAbc], faults := [] }

/-- The artifact `"log"` closed for appends and not yet merged. -/
def exLogComplete : Artifact := { exLogFull with State := .APPEND_COMPLETE }

/-- The store holding `"log"` closed for appends, with both chunks. -/
def exStoreComplete : Database :=
  { buckets := [exBucket], artifacts := [exLogComplete],
    logChunks := [exChunkAbc, exChunkDeStored], faults := [] }

/-- An object store whose next call fails after it has read five bytes. -/
def exS3Down : S3Bucket :=
  { objects := [], calls := [], faults := [some { msg := "503", taken := 5 }] }

/-- An object store whose next call fails before it reads anything. -/
def exS3Refusing : S3Bucket :=
  { objects := [], calls := [], faults := [some { msg := "connection refused", taken := 0 }] }

/-- The artifact `"log"` after a successful merge. -/
def exLogUploaded : Artifact :=
  { exLogFull with State := .UPLOADED, S3URL := "/B/log/1" }

/-- The store holding the merged `"log"`. -/
def exStoreUploaded : Database :=
  { buckets := [exBucket], artifacts := [exLogUploaded],
    logChunks := [exChunkAbc, exChunkDeStored], faults := [] }

/-- An artifact whose PUT upload failed. -/
def exBinError : Artifact :=
  { Id := 2, BucketId := "B", Name := "a.bin", Size := 5, DeadlineMins := 30,
    DateCreated := 0, State := .ERROR, S3URL := "" }

/-- An artifact closed without data. -/
def exBinClosed : Artifact := { exBinError with State := .CLOSED_WITHOUT_DATA }

/-- A store holding the failed artifact. -/
def exStoreError : Database :=
  { buckets := [exBucket], artifacts := [exBinError], logChunks := [], faults := [] }

/-- A store holding the artifact closed without data. -/
def exStoreClosed : Database :=
  { buckets := [exBucket], artifacts := [exBinClosed], logChunks := [], faults := [] }

/-- A request with a five-byte body and its `Content-Length`. -/
def exRequest : Request := { Header := [("Content-Length", "5")], Body := "hello" }

/-- A decoder that refuses every body. -/
def exDecode : String → Option LogChunk := fun _ => none

/-! ## Artifact creation over HTTP -/

/-- What `HandleCreateArtifact` leaves behind: the responses written and the store. -/
structure CreateOutcome where
  r : Render
  db : Database
  deriving DecidableEq, Repr

/-- `HandleCreateArtifact` of `api/artifacthandler.go` (the unused `params` and the
`fmt.Printf` to standard output are left out).  `decode` stands for
`json.NewDecoder(req.Body).Decode(&createArtifactReq)`: the decoding error (`none`
for `nil`) and the contents of the request struct afterwards.  After a decoding
error the handler writes a 400 and, having no `return`, goes on. -/
def HandleCreateArtifact (decode : String → Option String × CreateArtifactReq)
    (now : Nat) (r : Render) (req : Request) (db : Database) (bucket : Option Bucket) :
    CreateOutcome :=
  match bucket with
  | none =>
    { r := JsonErrorf r StatusBadRequest "Error: no bucket specified" [], db := db }
  | some b =>
    let decoded := decode req.Body
    let r1 := match decoded.1 with
      | some err => JsonErrorf r StatusBadRequest "Error decoding json: %s" [err]
      | none => r
    match CreateArtifact now decoded.2 b db with
    | (.error err, db1) =>
      { r := JsonErrorf r1 StatusInternalServerError err [], db := db1 }
    | (.ok artifact, db1) =>
      { r := r1.JSON StatusOK (.artifact artifact), db := db1 }

/-- A run of `CreateArtifact` calls, each on the store the previous one left. -/
def createAll (db : Database) : List (Nat × CreateArtifactReq × Bucket) → Database
  | [] => db
  | call :: rest => createAll (CreateArtifact call.1 call.2.1 call.2.2 db).2 rest

/-- No two stored artifacts share `(BucketId, Name)`. -/
def uniqueNames (db : Database) : Prop :=
  db.artifacts.Pairwise (fun x y => ¬ (x.BucketId = y.BucketId ∧ x.Name = y.Name))

instance (db : Database) : Decidable (uniqueNames db) := by
  unfold uniqueNames; infer_instance

/-! ## Bucket lifecycle -/

/-- Modelled from the spec: `common.Clock`, the injected time source (section 2), as
the reading it gives. -/
structure Clock where
  reading : Nat
  deriving DecidableEq, Repr

/-- `clk.Now()`. -/
def Clock.Now (clk : Clock) : Nat := clk.reading

/-- `CreateBucket` of `api/buckethandler.go`. -/
def CreateBucket (db : Database) (clk : Clock) (bucketId owner : String) :
    Except HttpError Bucket × Database :=
  if bucketId = "" then
    (.error (NewHttpError StatusBadRequest "Bucket ID not provided" []), db)
  else if len owner = 0 then
    (.error (NewHttpError StatusBadRequest "Bucket Owner not provided" []), db)
  else
    match db.GetBucket bucketId with
    | (.error err, db1) =>
      if !err.EntityNotFound then
        (.error (NewWrappedHttpError StatusInternalServerError err.Error), db1)
      else
        let bucket : Bucket :=
          { Id := bucketId, Owner := owner, DateCreated := clk.Now, DateClosed := 0,
            State := .OPEN }
        match db1.InsertBucket bucket with
        | (some err2, db2) =>
          (.error (NewWrappedHttpError StatusBadRequest err2.Error), db2)
        | (none, db2) => (.ok bucket, db2)
    | (.ok _, db1) =>
      (.error (NewHttpError StatusBadRequest "Entity exists" []), db1)

/-- The loop of `CloseBucket` over the listed artifacts: each is closed, through a
copy, with `failIfAlreadyClosed = false`; the first error ends the loop, and so does
a close that never returns (last component `true`). -/
def closeArtifacts : List Artifact → Database → S3Bucket →
    Option String × Database × S3Bucket × Bool
  | [], db, s3 => (none, db, s3, false)
  | artifact :: rest, db, s3 =>
    if (CloseArtifact artifact db s3 false).blocked then
      ((CloseArtifact artifact db s3 false).err, (CloseArtifact artifact db s3 false).db,
        (CloseArtifact artifact db s3 false).s3, true)
    else
    match (CloseArtifact artifact db s3 false).err with
    | some err =>
      (some err, (CloseArtifact artifact db s3 false).db,
        (CloseArtifact artifact db s3 false).s3, false)
    | none =>
      closeArtifacts rest (CloseArtifact artifact db s3 false).db
        (CloseArtifact artifact db s3 false).s3

/-- What `CloseBucket` leaves behind: the returned `error` (`none` for `nil`), the
bucket behind the pointer, the store and the object store; `blocked` marks a call
that never returns, as in `CloseOutcome`. -/
structure BucketOutcome where
  err : Option String
  bucket : Bucket
  db : Database
  s3 : S3Bucket
  blocked : Bool := false
  deriving DecidableEq, Repr

/-- `CloseBucket` of `api/buckethandler.go` (the logging context `ctx` is left
out). -/
def CloseBucket (bucket : Bucket) (db : Database) (s3Bucket : S3Bucket) (clk : Clock) :
    BucketOutcome :=
  if bucket.State ≠ .OPEN then
    { err := some (Errorf "Bucket is already closed" []), bucket := bucket, db := db,
      s3 := s3Bucket }
  else
    let bucket1 := { bucket with State := .CLOSED, DateClosed := clk.Now }
    match db.UpdateBucket bucket1 with
    | (some err, db1) =>
      { err := some err.Error, bucket := bucket1, db := db1, s3 := s3Bucket }
    | (none, db1) =>
      match db1.ListArtifactsInBucket bucket1.Id with
      | (.error err, db2) =>
        { err := some err.Error, bucket := bucket1, db := db2, s3 := s3Bucket }
      | (.ok artifacts, db2) =>
        { err := (closeArtifacts artifacts db2 s3Bucket).1, bucket := bucket1,
          db := (closeArtifacts artifacts db2 s3Bucket).2.1,
          s3 := (closeArtifacts artifacts db2 s3Bucket).2.2.1,
          blocked := (closeArtifacts artifacts db2 s3Bucket).2.2.2 }

/-- The terminal artifact states of section 8: `UPLOADED`, `APPEND_COMPLETE`,
`CLOSED_WITHOUT_DATA` and `ERROR`. -/
def ArtifactState.terminal : ArtifactState → Bool
  | .UPLOADED => true
  | .APPEND_COMPLETE => true
  | .CLOSED_WITHOUT_DATA => true
  | .ERROR => true
  | .WAITING_FOR_UPLOAD => false
  | .UPLOADING => false
  | .APPENDING => false

/-- The fixed-size artifact `"a.bin"` of scenario S1, awaiting its upload. -/
def exBin : Artifact :=
  { Id := 2, BucketId := "B", Name := "a.bin", Size := 5, DeadlineMins := 30,
    DateCreated := 0, State := .WAITING_FOR_UPLOAD, S3URL := "" }

/-- A store holding `"a.bin"` awaiting its upload. -/
def exStoreBin : Database :=
  { buckets := [exBucket], artifacts := [exBin], logChunks := [], faults := [] }

/-- The request of scenario S2: a five-byte body announced as four bytes. -/
def exRequestShort : Request := { Header := [("Content-Length", "4")], Body := "hello" }

/-- The upload of scenario S1 as `PutArtifact` receives it. -/
def exPut : PutArtifactReq := { ContentLength := "5", Body := "hello" }

/-- The upload of scenario S2 as `PutArtifact` would receive it. -/
def exPutShort : PutArtifactReq := { ContentLength := "4", Body := "hello" }

/-- The creation request of the fixed-size artifact `"a.bin"` (scenarios S1, S8). -/
def exCreateBin : CreateArtifactReq :=
  { Name := "a.bin", Chunked := false, Size := 5, DeadlineMins := 0 }

/-- A creation request with a negative size. -/
def exCreateNegative : CreateArtifactReq :=
  { Name := "neg.bin", Chunked := false, Size := -1, DeadlineMins := 0 }

/-- The row that the request with the negative size produces. -/
def exBinNegative : Artifact :=
  { Id := 1, BucketId := "B", Name := "neg.bin", Size := -1, DeadlineMins := 30,
    DateCreated := 0, State := .WAITING_FOR_UPLOAD, S3URL := "" }

/-- A decoder that finds the creation request of `"a.bin"` in every body. -/
def exDecodeCreateBin : String → Option String × CreateArtifactReq :=
  fun _ => (none, exCreateBin)

/-- The row of `"a.bin"` as created in the empty store. -/
def exBinFirst : Artifact := { exBin with Id := 1 }

/-- The store after the first creation of `"a.bin"`. -/
def exStoreBinFirst : Database :=
  { buckets := [exBucket], artifacts := [exBinFirst], logChunks := [], faults := [] }

/-- The bucket `"B"` after its close. -/
def exBucketClosed : Bucket := { exBucket with State := .CLOSED, DateClosed := 42 }

/-- No two stored buckets share an `Id`. -/
def uniqueIds (db : Database) : Prop := (db.buckets.map (fun b => b.Id)).Nodup

instance (db : Database) : Decidable (uniqueIds db) := by
  unfold uniqueIds; infer_instance

/-- A run of `CreateBucket` calls, each on the store the previous one left. -/
def createBuckets (db : Database) : List (Clock × String × String) → Database
  | [] => db
  | call :: rest => createBuckets (CreateBucket db call.1 call.2.1 call.2.2).2 rest

/-- A clock reading. -/
def exClock : Clock := { reading := 42 }

/-- The chunked artifact of scenario S7, holding the one chunk `"z"`. -/
def exLogZ : Artifact :=
  { Id := 1, BucketId := "B", Name := "log", Size := 1, DeadlineMins := 30,
    DateCreated := 0, State := .APPENDING, S3URL := "" }

/-- The chunk `"z"` of scenario S7. -/
def exChunkZ : LogChunk :=
  { Id := 1, ArtifactId := 1, ByteOffset := 0, Size := 1, Content := "z",
    ContentBytes := [] }

/-- The store of scenario S7: bucket `"B"` with the appending `"log"` and the
never-uploaded `"a.bin"`. -/
def exStoreS7 : Database :=
  { buckets := [exBucket], artifacts := [exLogZ, exBin], logChunks := [exChunkZ],
    faults := [] }

/-- The rows after an update of the bucket keyed by `b.Id`. -/
def Database.setBucket (db : Database) (b : Bucket) : Database :=
  { db with buckets := db.buckets.map (fun r => if r.Id = b.Id then b else r) }

/-- A store whose bucket `"B"` holds `"a.bin"`, closed without data, and after it the
appending `"log"`. -/
def exStoreClosedThenLog : Database :=
  { buckets := [exBucket], artifacts := [exBinClosed, exLogZ], logChunks := [exChunkZ],
    faults := [] }

/-- A store whose bucket `"B"` holds the merged `"log"` and a second artifact closed
for appends. -/
def exStoreAllUploaded : Database :=
  { buckets := [exBucket],
    artifacts := [exLogUploaded, { exLogComplete with Id := 3, Name := "log2" }],
    logChunks := [exChunkAbc, exChunkDeStored], faults := [] }

/-! ## Test server of the client library (`client/testserver/testserver.go`) -/

/-- `request` of `testserver.go`: one expected request and its canned response. -/
structure request where
  method : String
  url : String
  responseCode : Int
  responseBytes : String
  shouldHang : Bool
  deriving DecidableEq, Repr

/-- `TestServer` of `testserver.go`, reduced to the expectation queue `reqChain`; the
test handle, the HTTP server, the condition variable and the mutex take no part in
the single-threaded use the type documents. -/
structure TestServer where
  reqChain : List request
  deriving DecidableEq, Repr

/-- `NewTestServer`: a server with no expectation. -/
def NewTestServer : TestServer := { reqChain := [] }

namespace TestServer

/-- `insertNextReq`: the expectation goes to the back of the queue. -/
def insertNextReq (ts : TestServer) (nextReq : request) : TestServer :=
  { ts with reqChain := ts.reqChain ++ [nextReq] }

/-- `ExpectAndRespond`. -/
def ExpectAndRespond (ts : TestServer) (method url : String) (responseCode : Int)
    (responseBytes : String) : TestServer :=
  ts.insertNextReq
    { method := method, url := url, responseCode := responseCode,
      responseBytes := responseBytes, shouldHang := false }

/-- `ExpectAndHang`; the response fields keep their zero values. -/
def ExpectAndHang (ts : TestServer) (method url : String) : TestServer :=
  ts.insertNextReq
    { method := method, url := url, responseCode := 0, responseBytes := "",
      shouldHang := true }

/-- `popNextReq`: the head of the queue with `ok = true`, or the zero request with
`ok = false` when the queue is empty. -/
def popNextReq (ts : TestServer) : request × Bool × TestServer :=
  match ts.reqChain with
  | nextReq :: rest => (nextReq, true, { ts with reqChain := rest })
  | [] =>
    ({ method := "", url := "", responseCode := 0, responseBytes := "",
       shouldHang := false }, false, ts)

/-- `CloseAndAssertExpectations`, as far as the queue goes: the message of the
`Fatalf` it raises when expectations are left, `none` when all were consumed. -/
def CloseAndAssertExpectations (ts : TestServer) : Option String :=
  match ts.reqChain with
  | next :: _ =>
    some (Sprintf "Some expected requests were never called, next one being %s %s"
      [next.method, next.url])
  | [] => none

end TestServer

/-- One registration: a call of `ExpectAndRespond` or of `ExpectAndHang` with its
arguments. -/
inductive Expectation where
  | respond (method url : String) (responseCode : Int) (responseBytes : String)
  | hang (method url : String)
  deriving DecidableEq, Repr

/-- Performing one registration on the server. -/
def TestServer.expect (ts : TestServer) : Expectation → TestServer
  | .respond method url responseCode responseBytes =>
    ts.ExpectAndRespond method url responseCode responseBytes
  | .hang method url => ts.ExpectAndHang method url

/-- Performing a sequence of registrations, in order. -/
def TestServer.expectAll (ts : TestServer) (es : List Expectation) : TestServer :=
  es.foldl TestServer.expect ts

/-- `k` successive `popNextReq` calls: the `(request, ok)` pairs they return, in
order, and the server afterwards. -/
def TestServer.popAll : Nat → TestServer → List (request × Bool) × TestServer
  | 0, ts => ([], ts)
  | k + 1, ts =>
    ((ts.popNextReq.1, ts.popNextReq.2.1) :: (popAll k ts.popNextReq.2.2).1,
      (popAll k ts.popNextReq.2.2).2)

/-- A pop result answers a registration: `ok` is true, the fields are the registered
ones, and `shouldHang` is true for `ExpectAndHang` and false for
`ExpectAndRespond`. -/
def asRegistered : Expectation → request × Bool → Prop
  | .respond method url responseCode responseBytes, popped =>
    popped.2 = true ∧ popped.1.method = method ∧ popped.1.url = url ∧
      popped.1.responseCode = responseCode ∧ popped.1.responseBytes = responseBytes ∧
      popped.1.shouldHang = false
  | .hang method url, popped =>
    popped.2 = true ∧ popped.1.method = method ∧ popped.1.url = url ∧
      popped.1.shouldHang = true

instance (e : Expectation) (popped : request × Bool) : Decidable (asRegistered e popped) := by
  cases e <;> unfold asRegistered <;> infer_instance

/-- The queue entry a registration makes. -/
def Expectation.entry : Expectation → request
  | .respond method url responseCode responseBytes =>
    { method := method, url := url, responseCode := responseCode,
      responseBytes := responseBytes, shouldHang := false }
  | .hang method url =>
    { method := method, url := url, responseCode := 0, responseBytes := "",
      shouldHang := true }

/-- Three registrations: a response, a hang, a response. -/
def exExpectations : List Expectation :=
  [.respond "GET" "/buckets" 200 "[]", .hang "POST" "/buckets",
   .respond "GET" "/buckets/B" 404 ""]

/-- A store failure that is not entity-not-found. -/
def exStoreDown : DatabaseError := { msg := "connection lost", notFound := false }

/-- The store right after the creation of `"log"`, about to serve two calls and fail
the third. -/
def exStoreFlaky : Database := { exStoreNew with faults := [none, none, some exStoreDown] }

/-- The store holding `"a.bin"` whose next call, the lookup by name, fails on a lost
connection. -/
def exStoreBinLookupDown : Database := { exStoreBin with faults := [some exStoreDown] }

/-- The artifact a second creation of `"a.bin"` inserts. -/
def exBinAgain : Artifact :=
  { Id := 3, BucketId := "B", Name := "a.bin", Size := 5, DeadlineMins := 30,
    DateCreated := 0, State := .WAITING_FOR_UPLOAD, S3URL := "" }

/-- The empty store of bucket `"B"`, about to serve four calls and fail the fifth: a
creation and the two first store calls of an append are served, the insert of the
chunk fails. -/
def exStoreEmptyFlaky : Database :=
  { exStoreEmpty with faults := [none, none, none, none, some exStoreDown] }

/-! # Theorems -/

/-! ## Store lemmas -/

namespace Database

@[simp] theorem tick_buckets (db : Database) : db.tick.buckets = db.buckets := rfl
@[simp] theorem tick_artifacts (db : Database) : db.tick.artifacts = db.artifacts := rfl
@[simp] theorem tick_logChunks (db : Database) : db.tick.logChunks = db.logChunks := rfl

theorem nextFault_snd (db : Database) : db.nextFault.2 = db.tick := by
  cases db with
  | mk b a l f => cases f <;> rfl

theorem nextFault_of_healthy {db : Database} (h : db.healthy) :
    db.nextFault = (none, db.tick) := by
  cases db with
  | mk b a l f =>
    cases f with
    | nil => rfl
    | cons x rest =>
      have hx : x = none := h x (by simp)
      subst hx; rfl

theorem tick_healthy {db : Database} (h : db.healthy) : db.tick.healthy := by
  intro f hf
  exact h f (List.mem_of_mem_tail hf)

@[simp] theorem tick_chunksOf (db : Database) (id : Int) :
    db.tick.chunksOf id = db.chunksOf id := rfl

@[simp] theorem tick_lastByteSeen (db : Database) (id : Int) :
    db.tick.lastByteSeen id = db.lastByteSeen id := rfl

@[simp] theorem tick_rowsOf (db : Database) (id : Int) :
    db.tick.rowsOf id = db.rowsOf id := rfl

theorem GetLastByteSeenForArtifact_snd (db : Database) (id : Int) :
    (db.GetLastByteSeenForArtifact id).2 = db.tick := by
  have h := nextFault_snd db
  unfold GetLastByteSeenForArtifact
  rcases hn : db.nextFault with ⟨f, db1⟩
  rw [hn] at h
  cases f <;> simpa using h

theorem GetLastByteSeenForArtifact_of_healthy {db : Database} (h : db.healthy) (id : Int) :
    db.GetLastByteSeenForArtifact id = (.ok (db.lastByteSeen id), db.tick) := by
  simp [GetLastByteSeenForArtifact, nextFault_of_healthy h]

theorem UpdateArtifact_of_healthy {db : Database} (h : db.healthy) (a : Artifact) :
    db.UpdateArtifact a = (none, db.tick.setArtifact a) := by
  simp [UpdateArtifact, nextFault_of_healthy h]

theorem InsertLogChunk_of_healthy {db : Database} (h : db.healthy) (c : LogChunk) :
    db.InsertLogChunk c = (none, db.stamp c, db.tick.addChunk c) := by
  simp [InsertLogChunk, nextFault_of_healthy h, stamp]

theorem setArtifact_healthy {db : Database} (h : db.healthy) (a : Artifact) :
    (db.setArtifact a).healthy := h

theorem addChunk_healthy {db : Database} (h : db.healthy) (c : LogChunk) :
    (db.addChunk c).healthy := h

@[simp] theorem setArtifact_logChunks (db : Database) (a : Artifact) :
    (db.setArtifact a).logChunks = db.logChunks := rfl

@[simp] theorem setArtifact_buckets (db : Database) (a : Artifact) :
    (db.setArtifact a).buckets = db.buckets := rfl

@[simp] theorem setArtifact_artifacts (db : Database) (a : Artifact) :
    (db.setArtifact a).artifacts =
      db.artifacts.map (fun r => if r.Id = a.Id then a else r) := rfl

@[simp] theorem addChunk_logChunks (db : Database) (c : LogChunk) :
    (db.addChunk c).logChunks = db.logChunks ++ [db.stamp c] := rfl

@[simp] theorem addChunk_buckets (db : Database) (c : LogChunk) :
    (db.addChunk c).buckets = db.buckets := rfl

@[simp] theorem addChunk_artifacts (db : Database) (c : LogChunk) :
    (db.addChunk c).artifacts = db.artifacts := rfl

@[simp] theorem stamp_tick (db : Database) (c : LogChunk) : db.tick.stamp c = db.stamp c := rfl

@[simp] theorem stamp_setArtifact (db : Database) (a : Artifact) (c : LogChunk) :
    (db.setArtifact a).stamp c = db.stamp c := rfl

theorem ListLogChunksInArtifact_of_healthy {db : Database} (h : db.healthy) (id : Int) :
    db.ListLogChunksInArtifact id = (.ok (db.chunksOf id), db.tick) := by
  simp [ListLogChunksInArtifact, nextFault_of_healthy h]

end Database

/-- In-range sums are not changed by the `int64` wrap. -/
theorem add64_of_inInt64 {a b : Int} (h : inInt64 (a + b)) : add64 a b = a + b := by
  unfold inInt64 at h
  unfold add64 wrap64
  omega

/-! ## Chunk append path: rejection and acceptance -/

/-- C1. `AppendLogChunk` answers 400 when, in this order, the artifact is not
`APPENDING`, or the chunk size is not positive, or the content is empty, or the
content length differs from the size, or the offset differs from the append cursor;
the first failing check decides the error, and a rejected call leaves the artifact
and the chunk as they were and changes no row of the store. -/
theorem C1_append_rejects_with_400 (db : Database) (artifact : Artifact)
    (logChunk : LogChunk) :
    (artifact.State ≠ .APPENDING →
      AppendLogChunk db artifact logChunk =
        { err := some ⟨400, Sprintf "Unexpected artifact state: %s" [artifact.State.String]⟩,
          artifact := artifact, logChunk := logChunk, db := db }) ∧
    (artifact.State = .APPENDING → logChunk.Size ≤ 0 →
      AppendLogChunk db artifact logChunk =
        { err := some ⟨400, Sprintf "Invalid chunk size %d" [toString logChunk.Size]⟩,
          artifact := artifact, logChunk := logChunk, db := db }) ∧
    (artifact.State = .APPENDING → 0 < logChunk.Size → logChunk.Content = "" →
      AppendLogChunk db artifact logChunk =
        { err := some ⟨400, "Empty content string"⟩,
          artifact := artifact, logChunk := logChunk, db := db }) ∧
    (artifact.State = .APPENDING → 0 < logChunk.Size → logChunk.Content ≠ "" →
      len logChunk.Content ≠ logChunk.Size →
      AppendLogChunk db artifact logChunk =
        { err := some ⟨400, "Content length does not match indicated size"⟩,
          artifact := artifact, logChunk := logChunk, db := db }) ∧
    (artifact.State = .APPENDING → 0 < logChunk.Size → logChunk.Content ≠ "" →
      len logChunk.Content = logChunk.Size →
      ∀ (cursor : Int) (db1 : Database),
        db.GetLastByteSeenForArtifact artifact.Id = (.ok cursor, db1) →
        logChunk.ByteOffset ≠ cursor →
        AppendLogChunk db artifact logChunk =
          { err := some ⟨400, Sprintf
              "Overlapping ranges detected, expected offset: %d, actual offset: %d"
              [toString cursor, toString logChunk.ByteOffset]⟩,
            artifact := artifact, logChunk := logChunk, db := db1 } ∧
        db1.artifacts = db.artifacts ∧ db1.logChunks = db.logChunks ∧
        db1.buckets = db.buckets) := by
  refine ⟨?_, ?_, ?_, ?_, ?_⟩
  · intro h
    simp [AppendLogChunk, h, NewHttpError, StatusBadRequest]
  · intro h1 h2
    simp [AppendLogChunk, h1, h2, NewHttpError, StatusBadRequest]
  · intro h1 h2 h3
    simp [AppendLogChunk, h1, not_le.mpr h2, h3, NewHttpError, StatusBadRequest]
  · intro h1 h2 h3 h4
    simp [AppendLogChunk, h1, not_le.mpr h2, h3, h4, NewHttpError, StatusBadRequest]
  · intro h1 h2 h3 h4 cursor db1 hget hne
    have hdb : db1 = db.tick := by
      have := Database.GetLastByteSeenForArtifact_snd db artifact.Id
      rw [hget] at this
      exact this
    refine ⟨?_, ?_, ?_, ?_⟩
    · simp [AppendLogChunk, h1, not_le.mpr h2, h3, h4, hget, Ne.symm hne, NewHttpError,
        StatusBadRequest]
    · simp [hdb]
    · simp [hdb]
    · simp [hdb]


/-- Scenario S4 as an instance of C1: after `"abc"`, the chunk at offset 5 is refused
with 400 and nothing changes. -/
theorem C1_append_rejects_with_400_witness :
    AppendLogChunk exStoreAbc exLog exChunkGap =
        { err := some ⟨400, Sprintf
            "Overlapping ranges detected, expected offset: %d, actual offset: %d"
            [toString (3 : Int), toString exChunkGap.ByteOffset]⟩,
          artifact := exLog, logChunk := exChunkGap, db := exStoreAbc } ∧
      exStoreAbc.artifacts = exStoreAbc.artifacts ∧
      exStoreAbc.logChunks = exStoreAbc.logChunks ∧
      exStoreAbc.buckets = exStoreAbc.buckets :=
  (C1_append_rejects_with_400 exStoreAbc exLog exChunkGap).2.2.2.2
    (by decide) (by decide) (by decide) (by decide) 3 exStoreAbc rfl (by decide)

/-- The outcome of an accepted append that grows the artifact. -/
theorem AppendLogChunk_grow {db : Database} {a : Artifact} {c : LogChunk}
    (hstate : a.State = .APPENDING) (hsize : 0 < c.Size) (hcontent : c.Content ≠ "")
    (hlen : len c.Content = c.Size) (hoff : c.ByteOffset = db.lastByteSeen a.Id)
    (hdb : db.healthy) (hgrow : a.Size < add64 c.ByteOffset c.Size) :
    AppendLogChunk db a c =
      { err := none, artifact := { a with Size := add64 c.ByteOffset c.Size },
        logChunk := db.stamp { c with ArtifactId := a.Id },
        db := ((db.tick.tick.setArtifact
          { a with Size := add64 c.ByteOffset c.Size }).tick).addChunk
            { c with ArtifactId := a.Id } } := by
  have h1 := Database.tick_healthy hdb
  have h2 := Database.tick_healthy h1
  obtain ⟨aid, bid, nm, sz, dl, dc, st, url⟩ := a
  simp only at hstate hgrow hoff
  subst hstate
  have hget := Database.GetLastByteSeenForArtifact_of_healthy hdb aid
  have hu := Database.UpdateArtifact_of_healthy h1
    (⟨aid, bid, nm, add64 c.ByteOffset c.Size, dl, dc, .APPENDING, url⟩ : Artifact)
  have hi := Database.InsertLogChunk_of_healthy
    (Database.setArtifact_healthy h2
      (⟨aid, bid, nm, add64 c.ByteOffset c.Size, dl, dc, .APPENDING, url⟩ : Artifact))
    { c with ArtifactId := aid }
  simp [AppendLogChunk, not_le.mpr hsize, hcontent, hlen, hget, ← hoff, hgrow, hu, hi]

/-- The outcome of an accepted append that does not grow the artifact. -/
theorem AppendLogChunk_keep {db : Database} {a : Artifact} {c : LogChunk}
    (hstate : a.State = .APPENDING) (hsize : 0 < c.Size) (hcontent : c.Content ≠ "")
    (hlen : len c.Content = c.Size) (hoff : c.ByteOffset = db.lastByteSeen a.Id)
    (hdb : db.healthy) (hgrow : ¬ a.Size < add64 c.ByteOffset c.Size) :
    AppendLogChunk db a c =
      { err := none, artifact := a,
        logChunk := db.stamp { c with ArtifactId := a.Id },
        db := db.tick.tick.addChunk { c with ArtifactId := a.Id } } := by
  have h1 := Database.tick_healthy hdb
  obtain ⟨aid, bid, nm, sz, dl, dc, st, url⟩ := a
  simp only at hstate hgrow hoff
  subst hstate
  have hget := Database.GetLastByteSeenForArtifact_of_healthy hdb aid
  have hi := Database.InsertLogChunk_of_healthy h1 { c with ArtifactId := aid }
  simp [AppendLogChunk, not_le.mpr hsize, hcontent, hlen, hget, ← hoff, hgrow, hi]

/-- C2. An `APPENDING` artifact and a chunk that pass every validation, on a store
whose operations succeed: `AppendLogChunk` returns no error, inserts exactly that
chunk with `ArtifactId` bound to the artifact, leaves `Artifact.Size` at
`max(old Size, ByteOffset + Size)` (the sum being the `int64` one, which is the exact
sum whenever that is in range), persists the artifact exactly when the size grew,
and keeps the state `APPENDING`. -/
theorem C2_append_accepts (db : Database) (artifact : Artifact) (logChunk : LogChunk)
    (hstate : artifact.State = .APPENDING) (hsize : 0 < logChunk.Size)
    (hcontent : logChunk.Content ≠ "") (hlen : len logChunk.Content = logChunk.Size)
    (hoff : logChunk.ByteOffset = db.lastByteSeen artifact.Id) (hdb : db.healthy) :
    (AppendLogChunk db artifact logChunk).err = none ∧
    (AppendLogChunk db artifact logChunk).logChunk =
      db.stamp { logChunk with ArtifactId := artifact.Id } ∧
    (AppendLogChunk db artifact logChunk).db.logChunks =
      db.logChunks ++ [db.stamp { logChunk with ArtifactId := artifact.Id }] ∧
    (AppendLogChunk db artifact logChunk).artifact =
      { artifact with
        Size := max artifact.Size (add64 logChunk.ByteOffset logChunk.Size) } ∧
    (AppendLogChunk db artifact logChunk).artifact.State = .APPENDING ∧
    (artifact.Size < add64 logChunk.ByteOffset logChunk.Size →
      (AppendLogChunk db artifact logChunk).db.artifacts =
        db.artifacts.map (fun r =>
          if r.Id = artifact.Id then (AppendLogChunk db artifact logChunk).artifact
          else r)) ∧
    (¬ artifact.Size < add64 logChunk.ByteOffset logChunk.Size →
      (AppendLogChunk db artifact logChunk).db.artifacts = db.artifacts) ∧
    (AppendLogChunk db artifact logChunk).db.buckets = db.buckets ∧
    (inInt64 (logChunk.ByteOffset + logChunk.Size) →
      add64 logChunk.ByteOffset logChunk.Size = logChunk.ByteOffset + logChunk.Size) := by
  by_cases hgrow : artifact.Size < add64 logChunk.ByteOffset logChunk.Size
  · rw [AppendLogChunk_grow hstate hsize hcontent hlen hoff hdb hgrow]
    simp [hstate, hgrow, max_eq_right hgrow.le]
    exact fun h => add64_of_inInt64 h
  · rw [AppendLogChunk_keep hstate hsize hcontent hlen hoff hdb hgrow]
    simp [hstate, hgrow, max_eq_left (not_lt.mp hgrow)]
    refine ⟨?_, fun h => add64_of_inInt64 h⟩
    cases artifact
    simp_all

/-- The C2 scenario: `"de"` at offset 3 after `"abc"` is accepted. -/
theorem C2_append_accepts_witness :
    (AppendLogChunk exStoreAbc exLog exChunkDe).err = none ∧
    (AppendLogChunk exStoreAbc exLog exChunkDe).artifact.State = .APPENDING :=
  have h := C2_append_accepts exStoreAbc exLog exChunkDe rfl (by decide) (by decide)
    (by decide) (by decide) (by decide)
  ⟨h.1, h.2.2.2.2.1⟩

/-! ## Contiguity of the accepted chunks -/

theorem le_foldl_max (l : List Int) (init : Int) :
    init ≤ l.foldl max init ∧ ∀ x ∈ l, x ≤ l.foldl max init := by
  induction l generalizing init with
  | nil => simp
  | cons y l ih =>
    simp only [List.foldl_cons, List.mem_cons]
    obtain ⟨h1, h2⟩ := ih (max init y)
    refine ⟨le_trans (le_max_left _ _) h1, ?_⟩
    intro x hx
    rcases hx with rfl | hx
    · exact le_trans (le_max_right _ _) h1
    · exact h2 x hx

theorem freshId_gt (ids : List Int) : ∀ x ∈ ids, x < Database.freshId ids := by
  intro x hx
  have := (le_foldl_max ids 0).2 x hx
  unfold Database.freshId
  omega

theorem totalSize_append (F G : List LogChunk) :
    totalSize (F ++ G) = totalSize F + totalSize G := by
  simp [totalSize]

theorem gapFree_append (s : Int) (F : List LogChunk) (c : LogChunk) :
    gapFree s (F ++ [c]) ↔ gapFree s F ∧ c.ByteOffset = s + totalSize F := by
  induction F generalizing s with
  | nil => simp [gapFree, totalSize]
  | cons d F ih =>
    have hcons : gapFree s (d :: F ++ [c]) ↔
        d.ByteOffset = s ∧ gapFree (d.ByteOffset + d.Size) (F ++ [c]) := Iff.rfl
    have hcons2 : gapFree s (d :: F) ↔
        d.ByteOffset = s ∧ gapFree (d.ByteOffset + d.Size) F := Iff.rfl
    rw [hcons, hcons2, ih]
    simp only [totalSize, List.map_cons, List.sum_cons]
    constructor
    · rintro ⟨h1, h2, h3⟩
      exact ⟨⟨h1, h2⟩, by omega⟩
    · rintro ⟨⟨h1, h2⟩, h3⟩
      exact ⟨h1, h2, by omega⟩

theorem gapFree_lower {s : Int} {F : List LogChunk} (hg : gapFree s F)
    (hpos : ∀ c ∈ F, 0 < c.Size) : ∀ d ∈ F, s ≤ d.ByteOffset := by
  induction F generalizing s with
  | nil => simp
  | cons c F ih =>
    obtain ⟨h1, h2⟩ := hg
    intro d hd
    rcases List.mem_cons.mp hd with rfl | hd
    · omega
    · have hc := hpos c (by simp)
      have := ih h2 (fun x hx => hpos x (List.mem_cons_of_mem _ hx)) d hd
      omega

theorem gapFree_pairwise {s : Int} {F : List LogChunk} (hg : gapFree s F)
    (hpos : ∀ c ∈ F, 0 < c.Size) :
    F.Pairwise (fun c d => c.ByteOffset + c.Size ≤ d.ByteOffset) := by
  induction F generalizing s with
  | nil => simp
  | cons c F ih =>
    obtain ⟨_, h2⟩ := hg
    have hpos2 : ∀ x ∈ F, 0 < x.Size := fun x hx => hpos x (List.mem_cons_of_mem _ hx)
    exact List.Pairwise.cons (fun d hd => gapFree_lower h2 hpos2 d hd) (ih h2 hpos2)

theorem gapFree_sorted {s : Int} {F : List LogChunk} (hg : gapFree s F)
    (hpos : ∀ c ∈ F, 0 < c.Size) :
    F.Sorted (fun c d => c.ByteOffset ≤ d.ByteOffset) := by
  have hp := gapFree_pairwise hg hpos
  refine List.Pairwise.imp_of_mem ?_ hp
  intro c d hc _ h
  have := hpos c hc
  omega

theorem totalSize_nonneg {F : List LogChunk} (hpos : ∀ c ∈ F, 0 < c.Size) :
    0 ≤ totalSize F := by
  induction F with
  | nil => simp [totalSize]
  | cons c F ih =>
    have hc := hpos c (by simp)
    have := ih (fun x hx => hpos x (List.mem_cons_of_mem _ hx))
    simp only [totalSize, List.map_cons, List.sum_cons] at *
    omega

theorem totalBytes_eq_totalSize {F : List LogChunk}
    (hl : ∀ c ∈ F, len c.Content = c.Size) : totalBytes F = totalSize F := by
  induction F with
  | nil => rfl
  | cons c F ih =>
    have hc := hl c (by simp)
    have := ih (fun x hx => hl x (List.mem_cons_of_mem _ hx))
    simp only [totalSize, totalBytes, List.map_cons, List.sum_cons] at *
    omega

namespace AppendInv

variable {a : Artifact} {db : Database}

/-- Under the invariant the listing of an artifact's chunks is the insertion order. -/
theorem chunksOf_eq (h : AppendInv a db) :
    db.chunksOf a.Id = db.logChunks.filter (fun c => c.ArtifactId = a.Id) :=
  List.Sorted.insertionSort_eq (gapFree_sorted h.gap h.pos)

theorem size_nonneg (h : AppendInv a db) : 0 ≤ a.Size := by
  rw [h.size]; exact totalSize_nonneg h.pos

/-- Under the invariant the append cursor is `Artifact.Size`. -/
theorem lastByteSeen_eq (h : AppendInv a db) (hr : a.Size < 2 ^ 63) :
    db.lastByteSeen a.Id = a.Size := by
  unfold Database.lastByteSeen
  rw [h.chunksOf_eq]
  have hg := h.gap
  have hs := h.size
  have hn := h.size_nonneg
  rcases List.eq_nil_or_concat (db.logChunks.filter (fun c => c.ArtifactId = a.Id)) with
    hnil | ⟨F, c, hF⟩
  · rw [hnil] at hs ⊢
    simpa [totalSize] using hs.symm
  · rw [List.concat_eq_append] at hF
    rw [hF] at hg hs ⊢
    rw [gapFree_append] at hg
    rw [totalSize_append] at hs
    have hlast : (F ++ [c]).getLast? = some c := by simp
    rw [hlast]
    have hc : totalSize [c] = c.Size := by simp [totalSize]
    have hsum : c.ByteOffset + c.Size = a.Size := by
      rw [hc] at hs
      omega
    show add64 c.ByteOffset c.Size = a.Size
    rw [add64_of_inInt64 (by unfold inInt64; omega)]
    exact hsum

end AppendInv

theorem len_nonneg (s : String) : 0 ≤ len s := by
  unfold len; omega

theorem filter_setArtifact (l : List Artifact) (a : Artifact) :
    (l.map (fun r => if r.Id = a.Id then a else r)).filter (fun r => r.Id = a.Id) =
      (l.filter (fun r => r.Id = a.Id)).map (fun _ => a) := by
  induction l with
  | nil => rfl
  | cons r l ih =>
    by_cases hr : r.Id = a.Id
    · simp [hr, ih]
    · simp [hr, ih]

theorem Database.rowsOf_setArtifact (db : Database) (a : Artifact) :
    (db.setArtifact a).rowsOf a.Id = (db.rowsOf a.Id).map (fun _ => a) :=
  filter_setArtifact db.artifacts a

namespace AppendInv

variable {a : Artifact} {db : Database}

/-- A served call that writes nothing keeps the invariant. -/
theorem inv_tick (h : AppendInv a db) : AppendInv a db.tick :=
  { healthy := Database.tick_healthy h.healthy, state := h.state, gap := h.gap,
    pos := h.pos, lens := h.lens, size := h.size, row := h.row }

/-- One `AppendLogChunk` call, accepted or not, keeps the invariant, keeps the
artifact id, and grows `Artifact.Size` by at most the bytes of the chunk. -/
theorem inv_step (h : AppendInv a db) (c : LogChunk) (hb : a.Size + len c.Content < 2 ^ 63) :
    AppendInv (AppendLogChunk db a c).artifact (AppendLogChunk db a c).db ∧
    (AppendLogChunk db a c).artifact.Id = a.Id ∧
    (AppendLogChunk db a c).artifact.Size ≤ a.Size + len c.Content := by
  have hl := len_nonneg c.Content
  have hst := h.state
  by_cases hsize : c.Size ≤ 0
  · have e1 : (AppendLogChunk db a c).artifact = a := by
      simp [AppendLogChunk, hst, hsize, ne_eq, not_true_eq_false, if_false, if_true]
    have e2 : (AppendLogChunk db a c).db = db := by
      simp [AppendLogChunk, hst, hsize, ne_eq, not_true_eq_false, if_false, if_true]
    rw [e1, e2]
    exact ⟨h, rfl, by omega⟩
  by_cases hcontent : c.Content = ""
  · have e1 : (AppendLogChunk db a c).artifact = a := by
      simp [AppendLogChunk, hst, hsize, hcontent, ne_eq, not_true_eq_false, if_false,
        if_true]
    have e2 : (AppendLogChunk db a c).db = db := by
      simp [AppendLogChunk, hst, hsize, hcontent, ne_eq, not_true_eq_false, if_false,
        if_true]
    rw [e1, e2]
    exact ⟨h, rfl, by omega⟩
  by_cases hlen : len c.Content = c.Size
  swap
  · have e1 : (AppendLogChunk db a c).artifact = a := by
      simp [AppendLogChunk, hst, hsize, hcontent, hlen, ne_eq, not_true_eq_false,
        not_false_eq_true, if_false, if_true]
    have e2 : (AppendLogChunk db a c).db = db := by
      simp [AppendLogChunk, hst, hsize, hcontent, hlen, ne_eq, not_true_eq_false,
        not_false_eq_true, if_false, if_true]
    rw [e1, e2]
    exact ⟨h, rfl, by omega⟩
  have hget := Database.GetLastByteSeenForArtifact_of_healthy h.healthy a.Id
  have hcur := h.lastByteSeen_eq (by omega)
  by_cases hoff : c.ByteOffset = db.lastByteSeen a.Id
  swap
  · have e1 : (AppendLogChunk db a c).artifact = a := by
      simp [AppendLogChunk, hst, hsize, hcontent, hlen, hget, Ne.symm hoff, ne_eq,
        not_true_eq_false, not_false_eq_true, if_false, if_true]
    have e2 : (AppendLogChunk db a c).db = db.tick := by
      simp [AppendLogChunk, hst, hsize, hcontent, hlen, hget, Ne.symm hoff, ne_eq,
        not_true_eq_false, not_false_eq_true, if_false, if_true]
    rw [e1, e2]
    exact ⟨h.inv_tick, rfl, by omega⟩
  have hsz := h.size_nonneg
  have hadd : add64 c.ByteOffset c.Size = a.Size + c.Size := by
    rw [add64_of_inInt64 (by unfold inInt64; omega)]
    omega
  have hgrow : a.Size < add64 c.ByteOffset c.Size := by omega
  rw [AppendLogChunk_grow hst (not_le.mp hsize) hcontent hlen hoff h.healthy hgrow]
  refine ⟨?_, rfl, by simp only; omega⟩
  have hfilter : List.filter (fun x => decide (x.ArtifactId = a.Id))
      (db.logChunks ++ [db.stamp { c with ArtifactId := a.Id }]) =
      List.filter (fun x => decide (x.ArtifactId = a.Id)) db.logChunks ++
        [db.stamp { c with ArtifactId := a.Id }] := by
    simp [List.filter_append, Database.stamp]
  refine
    { healthy := ?_, state := hst, gap := ?_, pos := ?_, lens := ?_, size := ?_, row := ?_ }
  · exact Database.addChunk_healthy (Database.tick_healthy (Database.setArtifact_healthy
      (Database.tick_healthy (Database.tick_healthy h.healthy)) _)) _
  · show gapFree 0 (List.filter (fun x => decide (x.ArtifactId = a.Id))
      (db.logChunks ++ [db.stamp { c with ArtifactId := a.Id }]))
    rw [hfilter, gapFree_append]
    refine ⟨h.gap, ?_⟩
    have := h.size
    show c.ByteOffset = _
    omega
  · show ∀ x ∈ List.filter (fun x => decide (x.ArtifactId = a.Id))
      (db.logChunks ++ [db.stamp { c with ArtifactId := a.Id }]), 0 < x.Size
    rw [hfilter]
    intro x hx
    rcases List.mem_append.mp hx with hx | hx
    · exact h.pos x hx
    · rw [List.mem_singleton.mp hx]
      exact not_le.mp hsize
  · show ∀ x ∈ List.filter (fun x => decide (x.ArtifactId = a.Id))
      (db.logChunks ++ [db.stamp { c with ArtifactId := a.Id }]), len x.Content = x.Size
    rw [hfilter]
    intro x hx
    rcases List.mem_append.mp hx with hx | hx
    · exact h.lens x hx
    · rw [List.mem_singleton.mp hx]
      exact hlen
  · show add64 c.ByteOffset c.Size = totalSize (List.filter
      (fun x => decide (x.ArtifactId = a.Id))
      (db.logChunks ++ [db.stamp { c with ArtifactId := a.Id }]))
    rw [hfilter, totalSize_append, hadd, ← h.size]
    simp [totalSize, Database.stamp]
  · show (db.tick.tick.setArtifact { a with Size := add64 c.ByteOffset c.Size }).rowsOf a.Id
      = _
    have := Database.rowsOf_setArtifact db.tick.tick
      { a with Size := add64 c.ByteOffset c.Size }
    simp only [Database.tick_rowsOf] at this
    rw [this, h.row]
    rfl

/-- A whole run of appends keeps the invariant and the artifact id, provided the
bytes offered fit the `int64` range. -/
theorem inv_run (cs : List LogChunk) :
    ∀ {a : Artifact} {db : Database}, AppendInv a db →
      a.Size + totalBytes cs < 2 ^ 63 →
      AppendInv (appendAll db a cs).1 (appendAll db a cs).2 ∧
        (appendAll db a cs).1.Id = a.Id ∧
        (appendAll db a cs).1.Size ≤ a.Size + totalBytes cs := by
  induction cs with
  | nil => intro a db h _; exact ⟨h, rfl, by simp [appendAll, totalBytes]⟩
  | cons c cs ih =>
    intro a db h hb
    have hcs : 0 ≤ totalBytes cs := by
      unfold totalBytes
      apply List.sum_nonneg
      intro x hx
      obtain ⟨y, _, rfl⟩ := List.mem_map.mp hx
      exact len_nonneg _
    have hb2 : totalBytes (c :: cs) = len c.Content + totalBytes cs := by
      simp [totalBytes]
    obtain ⟨h1, h2, h3⟩ := h.inv_step c (by omega)
    obtain ⟨h4, h5, h6⟩ := ih h1 (by omega)
    refine ⟨h4, h5.trans h2, ?_⟩
    show (appendAll (AppendLogChunk db a c).db (AppendLogChunk db a c).artifact cs).1.Size ≤ _
    omega

end AppendInv

theorem Database.InsertArtifact_of_healthy {db : Database} (h : db.healthy) (a : Artifact) :
    db.InsertArtifact a = (none, db.stampArtifact a, db.tick.addArtifact a) := by
  simp [Database.InsertArtifact, Database.nextFault_of_healthy h, Database.stampArtifact]

theorem Database.rowsOf_addArtifact (db : Database) (a : Artifact) :
    (db.addArtifact a).rowsOf (db.stampArtifact a).Id = [db.stampArtifact a] := by
  have hnone : db.artifacts.filter (fun r => r.Id = (db.stampArtifact a).Id) = [] := by
    rw [List.filter_eq_nil_iff]
    intro r hr
    have := freshId_gt (db.artifacts.map (fun r => r.Id)) r.Id (List.mem_map_of_mem _ hr)
    simp only [Database.stampArtifact, decide_eq_true_eq]
    omega
  simp [Database.rowsOf, Database.addArtifact, List.filter_append, hnone]

/-- What a successful chunked `CreateArtifact` on a serving store leaves behind. -/
theorem CreateArtifact_chunked {now : Nat} {req : CreateArtifactReq} {bucket : Bucket}
    {db db0 : Database} {a : Artifact} (hreq : req.Chunked = true) (hdb : db.healthy)
    (hc : CreateArtifact now req bucket db = (.ok a, db0)) :
    a.State = .APPENDING ∧ a.Size = 0 ∧ db0.healthy ∧ db0.rowsOf a.Id = [a] ∧
      db0.logChunks = db.logChunks := by
  have h1 := Database.tick_healthy hdb
  unfold CreateArtifact at hc
  split at hc
  · simp at hc
  split at hc
  · simp at hc
  simp only [Database.GetArtifactByName, Database.nextFault_of_healthy hdb] at hc
  split at hc
  · simp at hc
  · rename_i e db1 hget
    have hdb1 : db1 = db.tick := by
      split at hget
      · simp at hget
      · simp at hget
        exact hget.2.symm
    subst hdb1
    simp only [hreq, if_true, Database.InsertArtifact_of_healthy h1] at hc
    simp only [Prod.mk.injEq, Except.ok.injEq] at hc
    obtain ⟨ha, hd⟩ := hc
    subst ha hd
    refine ⟨rfl, rfl, ?_, ?_, rfl⟩
    · exact Database.tick_healthy h1
    · exact Database.rowsOf_addArtifact db.tick.tick _

/-- The invariant holds after a chunked creation followed by any run of appends. -/
theorem appendAll_inv {now : Nat} {req : CreateArtifactReq} {bucket : Bucket}
    {db db0 : Database} {a : Artifact} (cs : List LogChunk)
    (hreq : req.Chunked = true) (hdb : db.healthy)
    (hcreate : CreateArtifact now req bucket db = (.ok a, db0))
    (hnone : db0.chunksOf a.Id = [])
    (hbytes : totalBytes cs < 2 ^ 63) :
    AppendInv (appendAll db0 a cs).1 (appendAll db0 a cs).2 ∧
      (appendAll db0 a cs).1.Id = a.Id ∧ (appendAll db0 a cs).1.Size < 2 ^ 63 := by
  obtain ⟨hs, hz, hh, hrow, _⟩ := CreateArtifact_chunked hreq hdb hcreate
  have hempty : db0.logChunks.filter (fun c => c.ArtifactId = a.Id) = [] := by
    have := congrArg List.length hnone
    simp only [Database.chunksOf, List.length_insertionSort, List.length_nil] at this
    exact List.length_eq_zero.mp this
  have hinv : AppendInv a db0 :=
    { healthy := hh, state := hs, gap := by rw [hempty]; trivial,
      pos := by rw [hempty]; simp, lens := by rw [hempty]; simp,
      size := by rw [hempty, hz]; rfl, row := hrow }
  obtain ⟨hfin, hid, hle⟩ := hinv.inv_run cs (by omega)
  exact ⟨hfin, hid, by omega⟩

/-- C3. From a chunked artifact as `CreateArtifact` returns it (state `APPENDING`,
size 0, no chunks), after any run of `AppendLogChunk` calls with arbitrary chunks on
a store whose operations succeed (the bytes offered fitting the `int64` range), the
stored chunks listed by `ByteOffset` start at 0, each begins where the previous one
ends, none overlaps another, every size is positive, and `Artifact.Size` equals the
sum of the chunk sizes and the append cursor `GetLastByteSeenForArtifact`; the
artifact is still `APPENDING` and is the persisted row. -/
theorem C3_chunks_cover_artifact (now : Nat) (req : CreateArtifactReq) (bucket : Bucket)
    (db db0 : Database) (a : Artifact) (cs : List LogChunk)
    (hreq : req.Chunked = true) (hdb : db.healthy)
    (hcreate : CreateArtifact now req bucket db = (.ok a, db0))
    (hnone : db0.chunksOf a.Id = [])
    (hbytes : totalBytes cs < 2 ^ 63) :
    gapFree 0 ((appendAll db0 a cs).2.chunksOf a.Id) ∧
    ((appendAll db0 a cs).2.chunksOf a.Id).Pairwise
      (fun c d => c.ByteOffset + c.Size ≤ d.ByteOffset) ∧
    (∀ c ∈ (appendAll db0 a cs).2.chunksOf a.Id, 0 < c.Size ∧ len c.Content = c.Size) ∧
    (appendAll db0 a cs).1.Size = totalSize ((appendAll db0 a cs).2.chunksOf a.Id) ∧
    ((appendAll db0 a cs).2.GetLastByteSeenForArtifact a.Id).1 =
      .ok (appendAll db0 a cs).1.Size ∧
    (appendAll db0 a cs).1.State = .APPENDING ∧
    (appendAll db0 a cs).1.Id = a.Id ∧
    (appendAll db0 a cs).2.rowsOf a.Id = [(appendAll db0 a cs).1] := by
  obtain ⟨hfin, hid, hbound⟩ := appendAll_inv cs hreq hdb hcreate hnone hbytes
  have hlist := hfin.chunksOf_eq
  have hsize := hfin.size
  have hcur := hfin.lastByteSeen_eq hbound
  rw [hid] at hlist hcur
  have hrow2 := hfin.row
  rw [hid] at hrow2
  rw [hlist]
  have hgap := hfin.gap
  have hpos := hfin.pos
  have hlens := hfin.lens
  rw [hid] at hgap hpos hlens hsize
  refine ⟨hgap, gapFree_pairwise hgap hpos, fun c hc => ⟨hpos c hc, hlens c hc⟩, hsize, ?_,
    hfin.state, hid, hrow2⟩
  rw [Database.GetLastByteSeenForArtifact_of_healthy hfin.healthy, hcur]

/-- Scenarios S3 and S4 as an instance of C3: `"abc"`, a refused chunk at offset 5 and
`"de"` leave the chunks of `"log"` laid end to end from 0 and `Size` equal to their
total. -/
theorem C3_chunks_cover_artifact_witness :
    exCreateLog.Chunked = true ∧ exStoreEmpty.healthy ∧
    exStoreNew.chunksOf exLogNew.Id = [] ∧ totalBytes exRun < 2 ^ 63 ∧
    gapFree 0 ((appendAll exStoreNew exLogNew exRun).2.chunksOf exLogNew.Id) ∧
    (appendAll exStoreNew exLogNew exRun).1.Size =
      totalSize ((appendAll exStoreNew exLogNew exRun).2.chunksOf exLogNew.Id) :=
  have h := C3_chunks_cover_artifact 0 exCreateLog exBucket exStoreEmpty exStoreNew
    exLogNew exRun rfl (by decide) rfl (by decide) (by decide)
  ⟨rfl, by decide, by decide, by decide, h.1, h.2.2.2.1⟩

/-! ## Merge pipeline -/

@[simp] theorem Database.setArtifact_chunksOf (db : Database) (a : Artifact) (id : Int) :
    (db.setArtifact a).chunksOf id = db.chunksOf id := rfl

/-- The producer loop writes the concatenation of the chunk contents, in order. -/
theorem pipeWrites_eq_join (l : List LogChunk) :
    pipeWrites l = String.join (l.map (fun c => c.Content)) := by
  unfold pipeWrites String.join
  rw [List.foldl_map]

/-- Every `PutReader` call is logged with its arguments. -/
theorem S3Bucket.PutReader_calls (b : S3Bucket) (path data : String) (length : Int)
    (contType perm : String) :
    (b.PutReader path data length contType perm).2.calls =
      b.calls ++ [{ path := path, data := data, length := length, contType := contType,
                    perm := perm }] := by
  unfold S3Bucket.PutReader
  split
  · rfl
  · split <;> rfl
  · split <;> rfl

/-- A successful `PutReader` read exactly the declared number of bytes and stored
them under the key. -/
theorem S3Bucket.PutReader_ok {b : S3Bucket} {path data : String} {length : Int}
    {contType perm : String}
    (h : (b.PutReader path data length contType perm).1 = none) :
    len data = length ∧
      (b.PutReader path data length contType perm).2.GetReader path = .ok data := by
  unfold S3Bucket.PutReader at h ⊢
  split at h
  · simp at h
  · split at h
    · rename_i hl
      simp [hl, S3Bucket.GetReader]
    · simp at h
  · split at h
    · rename_i hl
      simp [hl, S3Bucket.GetReader]
    · simp at h

/-- A successful `PutReader` read every byte of its stream. -/
theorem S3Bucket.PutReader_ok_taken {b : S3Bucket} {path data : String} {length : Int}
    {contType perm : String}
    (h : (b.PutReader path data length contType perm).1 = none) :
    ¬ b.taken length < len data := by
  unfold S3Bucket.PutReader at h
  unfold S3Bucket.taken
  split at h
  · simp at h
  · split at h
    · rename_i hf hl
      simp [hl, hf]
    · simp at h
  · split at h
    · rename_i hf hl
      simp [hl, hf]
    · simp at h

/-- Closing an `APPENDING` artifact persists `APPEND_COMPLETE` and hands over to the
merge. -/
theorem CloseArtifact_appending {a : Artifact} {db : Database} (s3 : S3Bucket)
    (flag : Bool) (hstate : a.State = .APPENDING) (hdb : db.healthy) :
    CloseArtifact a db s3 flag =
      MergeLogChunks { a with State := .APPEND_COMPLETE }
        (db.tick.setArtifact { a with State := .APPEND_COMPLETE }) s3 := by
  obtain ⟨aid, bid, nm, sz, dl, dc, st, url⟩ := a
  simp only at hstate
  subst hstate
  have hu := Database.UpdateArtifact_of_healthy hdb
    (⟨aid, bid, nm, sz, dl, dc, .APPEND_COMPLETE, url⟩ : Artifact)
  simp [CloseArtifact, hu]

/-- The merge of an empty artifact. -/
theorem MergeLogChunks_empty {a : Artifact} {db : Database} (s3 : S3Bucket)
    (hstate : a.State = .APPEND_COMPLETE) (hsize : a.Size = 0) (hdb : db.healthy) :
    MergeLogChunks a db s3 =
      { err := none, artifact := { a with State := .CLOSED_WITHOUT_DATA, S3URL := "" },
        db := db.tick.setArtifact { a with State := .CLOSED_WITHOUT_DATA, S3URL := "" },
        s3 := s3 } := by
  obtain ⟨aid, bid, nm, sz, dl, dc, st, url⟩ := a
  simp only at hstate hsize
  subst hstate hsize
  have hu := Database.UpdateArtifact_of_healthy hdb
    (⟨aid, bid, nm, 0, dl, dc, .CLOSED_WITHOUT_DATA, ""⟩ : Artifact)
  simp [MergeLogChunks, hu]

/-- The merge of a non-empty artifact whose upload succeeds. -/
theorem MergeLogChunks_upload_ok {a : Artifact} {db : Database} {s3 : S3Bucket}
    (hstate : a.State = .APPEND_COMPLETE) (hsize : a.Size ≠ 0) (hdb : db.healthy)
    (hup : (s3.PutReader a.DefaultS3URL (pipeWrites (db.chunksOf a.Id)) a.Size
      "binary/octet-stream" PublicRead).1 = none) :
    MergeLogChunks a db s3 =
      { err := none, artifact := { a with State := .UPLOADED, S3URL := a.DefaultS3URL },
        db := (db.tick.setArtifact { a with State := .UPLOADING }).tick.tick.setArtifact
          { a with State := .UPLOADED, S3URL := a.DefaultS3URL },
        s3 := (s3.PutReader a.DefaultS3URL (pipeWrites (db.chunksOf a.Id)) a.Size
          "binary/octet-stream" PublicRead).2 } := by
  obtain ⟨aid, bid, nm, sz, dl, dc, st, url⟩ := a
  simp only at hstate hsize
  subst hstate
  have h1 := Database.tick_healthy hdb
  have hu := Database.UpdateArtifact_of_healthy hdb
    (⟨aid, bid, nm, sz, dl, dc, .UPLOADING, url⟩ : Artifact)
  have hl := Database.ListLogChunksInArtifact_of_healthy
    (Database.setArtifact_healthy h1 (⟨aid, bid, nm, sz, dl, dc, .UPLOADING, url⟩ : Artifact))
    aid
  have hu2 := Database.UpdateArtifact_of_healthy
    (Database.tick_healthy (Database.setArtifact_healthy h1
      (⟨aid, bid, nm, sz, dl, dc, .UPLOADING, url⟩ : Artifact)))
    (⟨aid, bid, nm, sz, dl, dc, .UPLOADED,
      Artifact.DefaultS3URL ⟨aid, bid, nm, sz, dl, dc, .APPEND_COMPLETE, url⟩⟩ : Artifact)
  rcases hp : s3.PutReader (Artifact.DefaultS3URL ⟨aid, bid, nm, sz, dl, dc, .APPEND_COMPLETE, url⟩)
    (pipeWrites (db.chunksOf aid)) sz "binary/octet-stream" PublicRead with ⟨e, s3b⟩
  have hread := S3Bucket.PutReader_ok_taken hup
  simp only at hup hread
  rw [hp] at hup
  simp only at hup
  subst hup
  have hkey : Artifact.DefaultS3URL ⟨aid, bid, nm, sz, dl, dc, .UPLOADING, url⟩ =
      Artifact.DefaultS3URL ⟨aid, bid, nm, sz, dl, dc, .APPEND_COMPLETE, url⟩ := rfl
  simp [MergeLogChunks, hsize, hu, hl, hkey, hp, hu2, hread]

/-- The merge of a non-empty artifact whose upload fails after it has read every
byte the producer writes: the error is returned. -/
theorem MergeLogChunks_upload_fail {a : Artifact} {db : Database} {s3 : S3Bucket}
    {e : String}
    (hstate : a.State = .APPEND_COMPLETE) (hsize : a.Size ≠ 0) (hdb : db.healthy)
    (hread : len (pipeWrites (db.chunksOf a.Id)) ≤ s3.taken a.Size)
    (hup : (s3.PutReader a.DefaultS3URL (pipeWrites (db.chunksOf a.Id)) a.Size
      "binary/octet-stream" PublicRead).1 = some e) :
    MergeLogChunks a db s3 =
      { err := some (Errorf "Error uploading to S3: %s" [e]),
        artifact := { a with State := .UPLOADING },
        db := (db.tick.setArtifact { a with State := .UPLOADING }).tick,
        s3 := (s3.PutReader a.DefaultS3URL (pipeWrites (db.chunksOf a.Id)) a.Size
          "binary/octet-stream" PublicRead).2 } := by
  obtain ⟨aid, bid, nm, sz, dl, dc, st, url⟩ := a
  simp only at hstate hsize
  subst hstate
  have h1 := Database.tick_healthy hdb
  have hu := Database.UpdateArtifact_of_healthy hdb
    (⟨aid, bid, nm, sz, dl, dc, .UPLOADING, url⟩ : Artifact)
  have hl := Database.ListLogChunksInArtifact_of_healthy
    (Database.setArtifact_healthy h1 (⟨aid, bid, nm, sz, dl, dc, .UPLOADING, url⟩ : Artifact))
    aid
  rcases hp : s3.PutReader (Artifact.DefaultS3URL ⟨aid, bid, nm, sz, dl, dc, .APPEND_COMPLETE, url⟩)
    (pipeWrites (db.chunksOf aid)) sz "binary/octet-stream" PublicRead with ⟨e2, s3b⟩
  simp only at hup hread
  rw [hp] at hup
  simp only at hup
  subst hup
  have hkey : Artifact.DefaultS3URL ⟨aid, bid, nm, sz, dl, dc, .UPLOADING, url⟩ =
      Artifact.DefaultS3URL ⟨aid, bid, nm, sz, dl, dc, .APPEND_COMPLETE, url⟩ := rfl
  simp [MergeLogChunks, hsize, hu, hl, hkey, hp, not_lt.mpr hread]

/-- The merge of a non-empty artifact whose upload stops reading before the producer
has written every byte: the call never returns, and the artifact stays persisted as
`UPLOADING`. -/
theorem MergeLogChunks_upload_blocks {a : Artifact} {db : Database} {s3 : S3Bucket}
    (hstate : a.State = .APPEND_COMPLETE) (hsize : a.Size ≠ 0) (hdb : db.healthy)
    (hread : s3.taken a.Size < len (pipeWrites (db.chunksOf a.Id))) :
    MergeLogChunks a db s3 =
      { err := (s3.PutReader a.DefaultS3URL (pipeWrites (db.chunksOf a.Id)) a.Size
          "binary/octet-stream" PublicRead).1.map
            (fun err => Errorf "Error uploading to S3: %s" [err]),
        artifact := { a with State := .UPLOADING },
        db := (db.tick.setArtifact { a with State := .UPLOADING }).tick,
        s3 := (s3.PutReader a.DefaultS3URL (pipeWrites (db.chunksOf a.Id)) a.Size
          "binary/octet-stream" PublicRead).2,
        blocked := true } := by
  obtain ⟨aid, bid, nm, sz, dl, dc, st, url⟩ := a
  simp only at hstate hsize
  subst hstate
  have h1 := Database.tick_healthy hdb
  have hu := Database.UpdateArtifact_of_healthy hdb
    (⟨aid, bid, nm, sz, dl, dc, .UPLOADING, url⟩ : Artifact)
  have hl := Database.ListLogChunksInArtifact_of_healthy
    (Database.setArtifact_healthy h1 (⟨aid, bid, nm, sz, dl, dc, .UPLOADING, url⟩ : Artifact))
    aid
  simp only at hread
  have hkey : Artifact.DefaultS3URL ⟨aid, bid, nm, sz, dl, dc, .UPLOADING, url⟩ =
      Artifact.DefaultS3URL ⟨aid, bid, nm, sz, dl, dc, .APPEND_COMPLETE, url⟩ := rfl
  simp [MergeLogChunks, hsize, hu, hl, hkey, hread]

theorem Database.rowsOf_setArtifact_of_id (db : Database) {a : Artifact} {id : Int}
    (h : a.Id = id) : (db.setArtifact a).rowsOf id = (db.rowsOf id).map (fun _ => a) := by
  subst h
  exact Database.rowsOf_setArtifact db a

theorem len_append (s t : String) : len (s ++ t) = len s + len t := by
  cases s; cases t
  simp [len, String.utf8ByteSize, String.append]

theorem len_foldl_content (l : List LogChunk) (acc : String) :
    len (l.foldl (fun w c => w ++ c.Content) acc) = len acc + totalBytes l := by
  induction l generalizing acc with
  | nil => simp [totalBytes]
  | cons c l ih =>
    simp only [List.foldl_cons, ih, len_append, totalBytes, List.map_cons, List.sum_cons]
    omega

/-- The producer writes as many bytes as the chunk contents hold. -/
theorem len_pipeWrites (l : List LogChunk) : len (pipeWrites l) = totalBytes l := by
  unfold pipeWrites
  rw [len_foldl_content]
  have h0 : len "" = 0 := rfl
  omega

/-- C4. Closing an `APPENDING` artifact of positive size, persisted on a store whose
operations succeed, with a successful upload: `CloseArtifact` returns no error, the
object store receives one `PutReader` call whose key is `DefaultS3URL(artifact)` and
whose stream is the concatenation of the chunk contents in ascending `ByteOffset`
order, the object is stored under that key, and the persisted artifact ends
`UPLOADED` with `S3URL` equal to the key. -/
theorem C4_close_uploads_concatenation (a : Artifact) (db : Database) (s3 : S3Bucket)
    (flag : Bool) (hstate : a.State = .APPENDING) (hsize : 0 < a.Size) (hdb : db.healthy)
    (hrow : db.rowsOf a.Id = [a])
    (hup : (s3.PutReader a.DefaultS3URL
      (String.join ((db.chunksOf a.Id).map (fun c => c.Content))) a.Size
      "binary/octet-stream" PublicRead).1 = none) :
    (CloseArtifact a db s3 flag).err = none ∧
    (CloseArtifact a db s3 flag).s3.calls = s3.calls ++
      [{ path := a.DefaultS3URL,
         data := String.join ((db.chunksOf a.Id).map (fun c => c.Content)),
         length := a.Size, contType := "binary/octet-stream", perm := PublicRead }] ∧
    (CloseArtifact a db s3 flag).s3.GetReader a.DefaultS3URL =
      .ok (String.join ((db.chunksOf a.Id).map (fun c => c.Content))) ∧
    (CloseArtifact a db s3 flag).artifact =
      { a with State := .UPLOADED, S3URL := a.DefaultS3URL } ∧
    (CloseArtifact a db s3 flag).db.rowsOf a.Id =
      [{ a with State := .UPLOADED, S3URL := a.DefaultS3URL }] := by
  have hup2 : (s3.PutReader (Artifact.DefaultS3URL { a with State := .APPEND_COMPLETE })
      (pipeWrites ((db.tick.setArtifact { a with State := .APPEND_COMPLETE }).chunksOf a.Id))
      a.Size "binary/octet-stream" PublicRead).1 = none := by
    rw [pipeWrites_eq_join]; exact hup
  rw [CloseArtifact_appending s3 flag hstate hdb,
    MergeLogChunks_upload_ok (a := { a with State := .APPEND_COMPLETE }) rfl
      (ne_of_gt hsize)
      (Database.setArtifact_healthy (Database.tick_healthy hdb) _) hup2]
  have hok := S3Bucket.PutReader_ok hup
  refine ⟨rfl, ?_, ?_, rfl, ?_⟩
  · simp only [Database.setArtifact_chunksOf, Database.tick_chunksOf, pipeWrites_eq_join]
    exact S3Bucket.PutReader_calls _ _ _ _ _ _
  · simp only [Database.setArtifact_chunksOf, Database.tick_chunksOf, pipeWrites_eq_join]
    exact hok.2
  · simp only
    rw [Database.rowsOf_setArtifact_of_id _ rfl, Database.tick_rowsOf, Database.tick_rowsOf,
      Database.rowsOf_setArtifact_of_id _ rfl, Database.tick_rowsOf,
      Database.rowsOf_setArtifact_of_id _ rfl, Database.tick_rowsOf, hrow]
    rfl

/-- Scenario S3 as an instance of C4: closing `"log"` uploads `"abcde"`. -/
theorem C4_close_uploads_concatenation_witness :
    (CloseArtifact exLogFull exStoreFull exS3 true).err = none ∧
    (CloseArtifact exLogFull exStoreFull exS3 true).s3.GetReader "/B/log/1" = .ok "abcde" ∧
    (CloseArtifact exLogFull exStoreFull exS3 true).db.rowsOf 1 = [exLogUploaded] :=
  have h := C4_close_uploads_concatenation exLogFull exStoreFull exS3 true rfl (by decide)
    (by decide) (by decide) (by decide)
  ⟨h.1, h.2.2.1, h.2.2.2.2⟩

/-! ## Artifact close -/

/-- C6. Closing an `APPENDING` artifact of size 0, persisted on a store whose
operations succeed: `CloseArtifact` returns no error, the object store is untouched
(no call is made), the persisted artifact ends `CLOSED_WITHOUT_DATA` with an empty
`S3URL`, and the first of the two store writes persisted `APPEND_COMPLETE`. -/
theorem C6_close_empty_appending (a : Artifact) (db : Database) (s3 : S3Bucket)
    (flag : Bool) (hstate : a.State = .APPENDING) (hsize : a.Size = 0) (hdb : db.healthy)
    (hrow : db.rowsOf a.Id = [a]) :
    (CloseArtifact a db s3 flag).err = none ∧
    (CloseArtifact a db s3 flag).s3 = s3 ∧
    (CloseArtifact a db s3 flag).artifact =
      { a with State := .CLOSED_WITHOUT_DATA, S3URL := "" } ∧
    (CloseArtifact a db s3 flag).db.rowsOf a.Id =
      [{ a with State := .CLOSED_WITHOUT_DATA, S3URL := "" }] ∧
    (db.UpdateArtifact { a with State := .APPEND_COMPLETE }).1 = none ∧
    (db.UpdateArtifact { a with State := .APPEND_COMPLETE }).2.rowsOf a.Id =
      [{ a with State := .APPEND_COMPLETE }] ∧
    (CloseArtifact a db s3 flag).db =
      ((db.UpdateArtifact { a with State := .APPEND_COMPLETE }).2.UpdateArtifact
        { a with State := .CLOSED_WITHOUT_DATA, S3URL := "" }).2 := by
  have hh := Database.setArtifact_healthy (Database.tick_healthy hdb)
    { a with State := .APPEND_COMPLETE }
  rw [CloseArtifact_appending s3 flag hstate hdb,
    MergeLogChunks_empty (a := { a with State := .APPEND_COMPLETE }) s3 rfl hsize hh,
    Database.UpdateArtifact_of_healthy hdb, Database.UpdateArtifact_of_healthy hh]
  refine ⟨rfl, rfl, rfl, ?_, rfl, ?_, rfl⟩
  · simp only
    rw [Database.rowsOf_setArtifact_of_id _ rfl, Database.tick_rowsOf,
      Database.rowsOf_setArtifact_of_id _ rfl, Database.tick_rowsOf, hrow]
    rfl
  · simp only
    rw [Database.rowsOf_setArtifact_of_id _ rfl, Database.tick_rowsOf, hrow]
    rfl

/-- Scenario S6 as an instance of C6: `"log"` closed before any append. -/
theorem C6_close_empty_appending_witness :
    (CloseArtifact exLogNew exStoreNew exS3 true).err = none ∧
    (CloseArtifact exLogNew exStoreNew exS3 true).s3 = exS3 ∧
    (CloseArtifact exLogNew exStoreNew exS3 true).artifact =
      { exLogNew with State := .CLOSED_WITHOUT_DATA, S3URL := "" } :=
  have h := C6_close_empty_appending exLogNew exStoreNew exS3 true rfl rfl (by decide)
    (by decide)
  ⟨h.1, h.2.1, h.2.2.1⟩

/-- C7, as the code has it.  Closing an artifact in state `UPLOADING`,
`CLOSED_WITHOUT_DATA` or `ERROR` fails: `CloseArtifact` returns an error and
`FinalizeArtifact` answers 400 with an error envelope, the artifact, the store and
the object store staying as they were.  Closing an `APPEND_COMPLETE` artifact
succeeds (`FinalizeArtifact` answers 200), again changing nothing. -/
theorem C7_close_without_transition (a : Artifact) (db : Database) (s3 : S3Bucket)
    (flag : Bool) (r : Render) :
    (a.State = .UPLOADING ∨ a.State = .CLOSED_WITHOUT_DATA ∨ a.State = .ERROR →
      CloseArtifact a db s3 flag =
        { err := some (Errorf "Unexpected artifact state: %s" [a.State.String]),
          artifact := a, db := db, s3 := s3 } ∧
      FinalizeArtifact r db s3 (some a) =
        { r := r ++ [⟨400, .error (Sprintf "%s"
            [Errorf "Unexpected artifact state: %s" [a.State.String]])⟩],
          artifact := some a, db := db, s3 := s3 }) ∧
    (a.State = .APPEND_COMPLETE →
      CloseArtifact a db s3 flag = { err := none, artifact := a, db := db, s3 := s3 } ∧
      FinalizeArtifact r db s3 (some a) =
        { r := r ++ [⟨200, .empty⟩], artifact := some a, db := db, s3 := s3 }) := by
  constructor
  · intro h
    rcases h with h | h | h <;>
      simp [FinalizeArtifact, CloseArtifact, h, Render.JSON, StatusBadRequest]
  · intro h
    simp [FinalizeArtifact, CloseArtifact, h, Render.JSON, StatusOK]

/-- An instance of the amended C7: closing the failed artifact answers 400 and
changes nothing. -/
theorem C7_close_without_transition_witness :
    CloseArtifact exBinError exStoreError exS3 true =
        { err := some (Errorf "Unexpected artifact state: %s" [exBinError.State.String]),
          artifact := exBinError, db := exStoreError, s3 := exS3 } ∧
      FinalizeArtifact [] exStoreError exS3 (some exBinError) =
        { r := [] ++ [⟨400, .error (Sprintf "%s"
            [Errorf "Unexpected artifact state: %s" [exBinError.State.String]])⟩],
          artifact := some exBinError, db := exStoreError, s3 := exS3 } :=
  (C7_close_without_transition exBinError exStoreError exS3 true []).1
    (Or.inr (Or.inr rfl))

/-- C7 as stated fails on `APPEND_COMPLETE`: the state has no close transition in the
state table, yet closing `"log"` in that state returns no error and
`FinalizeArtifact` answers 200, not a client error. -/
theorem C7_counterexample_append_complete :
    exLogComplete.State = .APPEND_COMPLETE ∧
    (CloseArtifact exLogComplete exStoreComplete exS3 true).err = none ∧
    (FinalizeArtifact [] exStoreComplete exS3 (some exLogComplete)).r =
      [⟨200, .empty⟩] := by
  decide

/-- C8 at the failing input.  For an artifact in state `ERROR` or
`CLOSED_WITHOUT_DATA` no case of the switch of `PostArtifact` matches: the handler
writes no response at all (neither a 400 nor an error envelope), leaving the
artifact, the store and the object store as they were. -/
theorem C8_post_error_state_renders_nothing :
    PostArtifact exDecode [] exRequest exStoreError exS3 (some exBinError) =
      { r := [], artifact := some exBinError, db := exStoreError, s3 := exS3 } ∧
    PostArtifact exDecode [] exRequest exStoreClosed exS3 (some exBinClosed) =
      { r := [], artifact := some exBinClosed, db := exStoreClosed, s3 := exS3 } := by
  decide

/-- The cases the switch of `PostArtifact` does handle among the states that accept
no body: `UPLOADING`, `UPLOADED` and `APPEND_COMPLETE` are answered with 400 and an
error envelope, nothing else changing. -/
theorem PostArtifact_handled_states (decode : String → Option LogChunk) (r : Render)
    (req : Request) (db : Database) (s3 : S3Bucket) (a : Artifact) :
    (a.State = .UPLOADING → PostArtifact decode r req db s3 (some a) =
      { r := r ++ [⟨400, .error (Sprintf "Error: artifact is currently being updated" [])⟩],
        artifact := some a, db := db, s3 := s3 }) ∧
    (a.State = .UPLOADED → PostArtifact decode r req db s3 (some a) =
      { r := r ++ [⟨400, .error (Sprintf "Error: artifact already uploaded" [])⟩],
        artifact := some a, db := db, s3 := s3 }) ∧
    (a.State = .APPEND_COMPLETE → PostArtifact decode r req db s3 (some a) =
      { r := r ++ [⟨400, .error
          (Sprintf "Error: artifact is closed for further appends" [])⟩],
        artifact := some a, db := db, s3 := s3 }) := by
  refine ⟨?_, ?_, ?_⟩ <;> intro h <;>
    simp [PostArtifact, h, JsonErrorf, Render.JSON, StatusBadRequest]

/-- C9. Closing an `UPLOADED` artifact succeeds and changes nothing: the artifact
(state, `S3URL`, `Size`), the store and the object store are as before, so closing
twice is closing once. -/
theorem C9_close_uploaded_idempotent (a : Artifact) (db : Database) (s3 : S3Bucket)
    (flag flag2 : Bool) (hstate : a.State = .UPLOADED) :
    CloseArtifact a db s3 flag = { err := none, artifact := a, db := db, s3 := s3 } ∧
    CloseArtifact (CloseArtifact a db s3 flag).artifact (CloseArtifact a db s3 flag).db
      (CloseArtifact a db s3 flag).s3 flag2 = CloseArtifact a db s3 flag := by
  have h : ∀ f, CloseArtifact a db s3 f = { err := none, artifact := a, db := db, s3 := s3 } := by
    intro f
    simp [CloseArtifact, hstate]
  exact ⟨h flag, by rw [h flag, h flag2]⟩

/-- An instance of C9: the merged `"log"` closed again. -/
theorem C9_close_uploaded_idempotent_witness :
    CloseArtifact exLogUploaded exStoreUploaded exS3 true =
      { err := none, artifact := exLogUploaded, db := exStoreUploaded, s3 := exS3 } :=
  (C9_close_uploaded_idempotent exLogUploaded exStoreUploaded exS3 true false rfl).1

/-- Merging an `APPEND_COMPLETE` artifact of positive size, persisted on a store
whose operations succeed, when the upload fails with `e` after it has read every byte
the producer writes: `MergeLogChunks` returns the upload error (wrapped as "Error
uploading to S3: e"), the persisted artifact is left `UPLOADING` (neither `ERROR` nor
`UPLOADED`) and its `S3URL` is the one it had: the merge sets none. -/
theorem MergeLogChunks_upload_failure_after_read (a : Artifact) (db : Database)
    (s3 : S3Bucket) (e : String) (hstate : a.State = .APPEND_COMPLETE) (hsize : 0 < a.Size)
    (hdb : db.healthy) (hrow : db.rowsOf a.Id = [a])
    (hread : len (pipeWrites (db.chunksOf a.Id)) ≤ s3.taken a.Size)
    (hup : (s3.PutReader a.DefaultS3URL (pipeWrites (db.chunksOf a.Id)) a.Size
      "binary/octet-stream" PublicRead).1 = some e) :
    (MergeLogChunks a db s3).blocked = false ∧
    (MergeLogChunks a db s3).err = some (Errorf "Error uploading to S3: %s" [e]) ∧
    (MergeLogChunks a db s3).artifact = { a with State := .UPLOADING } ∧
    (MergeLogChunks a db s3).db.rowsOf a.Id = [{ a with State := .UPLOADING }] ∧
    (∀ row ∈ (MergeLogChunks a db s3).db.rowsOf a.Id,
      row.State = .UPLOADING ∧ row.State ≠ .ERROR ∧ row.State ≠ .UPLOADED ∧
        row.S3URL = a.S3URL) := by
  rw [MergeLogChunks_upload_fail hstate (ne_of_gt hsize) hdb hread hup]
  have hrows : ((db.tick.setArtifact { a with State := .UPLOADING }).tick).rowsOf a.Id =
      [{ a with State := .UPLOADING }] := by
    rw [Database.tick_rowsOf, Database.rowsOf_setArtifact_of_id _ rfl, Database.tick_rowsOf,
      hrow]
    rfl
  refine ⟨rfl, rfl, rfl, hrows, ?_⟩
  intro row hmem
  simp only at hmem
  rw [hrows] at hmem
  rw [List.mem_singleton.mp hmem]
  simp

/-- The object store answers 503 after it has read the five bytes of `"log"`: the
merge returns the error and `"log"` stays persisted as `UPLOADING`. -/
theorem MergeLogChunks_upload_failure_after_read_example :
    (MergeLogChunks exLogComplete exStoreComplete exS3Down).blocked = false ∧
    (MergeLogChunks exLogComplete exStoreComplete exS3Down).err =
      some (Errorf "Error uploading to S3: %s" ["503"]) ∧
    (MergeLogChunks exLogComplete exStoreComplete exS3Down).db.rowsOf exLogComplete.Id =
      [{ exLogComplete with State := .UPLOADING }] :=
  have h := MergeLogChunks_upload_failure_after_read exLogComplete exStoreComplete exS3Down
    "503" rfl (by decide) (by decide) (by decide) (by decide) (by decide)
  ⟨h.1, h.2.1, h.2.2.2.1⟩

/-- Merging an `APPEND_COMPLETE` artifact of positive size, persisted on a store whose
operations succeed, when the upload stops reading before the producer has written
every byte: `MergeLogChunks` never returns, whatever the result of the upload, and
the persisted artifact stays `UPLOADING` with the `S3URL` it had. -/
theorem MergeLogChunks_never_returns (a : Artifact) (db : Database) (s3 : S3Bucket)
    (hstate : a.State = .APPEND_COMPLETE) (hsize : 0 < a.Size)
    (hdb : db.healthy) (hrow : db.rowsOf a.Id = [a])
    (hread : s3.taken a.Size < len (pipeWrites (db.chunksOf a.Id))) :
    (MergeLogChunks a db s3).blocked = true ∧
    (MergeLogChunks a db s3).artifact = { a with State := .UPLOADING } ∧
    (MergeLogChunks a db s3).db.rowsOf a.Id = [{ a with State := .UPLOADING }] := by
  rw [MergeLogChunks_upload_blocks hstate (ne_of_gt hsize) hdb hread]
  refine ⟨rfl, rfl, ?_⟩
  simp only
  rw [Database.tick_rowsOf, Database.rowsOf_setArtifact_of_id _ rfl, Database.tick_rowsOf,
    hrow]
  rfl

/-- C10, at the failing input. `"log"` is `APPEND_COMPLETE` with `Size` 5 and chunks
`"abc"`, `"de"`, and the object store refuses the connection, so that `PutReader`
fails with nothing read: `MergeLogChunks` does not return the upload error, it never
returns (the producer waits in `w.Write`, the goroutine in its send on `errChan`);
`PutReader` was called once and did fail, and `"log"` stays persisted as `UPLOADING`
with no `S3URL`. -/
theorem C10_merge_never_returns_on_refused_upload :
    exLogComplete.State = .APPEND_COMPLETE ∧ 0 < exLogComplete.Size ∧
    exStoreComplete.healthy ∧
    (exS3Refusing.PutReader exLogComplete.DefaultS3URL
      (pipeWrites (exStoreComplete.chunksOf exLogComplete.Id)) exLogComplete.Size
      "binary/octet-stream" PublicRead).1 = some "connection refused" ∧
    (MergeLogChunks exLogComplete exStoreComplete exS3Refusing).blocked = true ∧
    (MergeLogChunks exLogComplete exStoreComplete exS3Refusing).s3.calls =
      [{ path := "/B/log/1", data := "abcde", length := 5,
         contType := "binary/octet-stream", perm := PublicRead }] ∧
    (MergeLogChunks exLogComplete exStoreComplete exS3Refusing).db.rowsOf exLogComplete.Id =
      [{ exLogComplete with State := .UPLOADING, S3URL := "" }] := by
  refine ⟨rfl, by decide, by decide, by decide, by decide, by decide, by decide⟩

/-! ## PUT upload path -/

/-- C11. `PutArtifact` returns an error and leaves the artifact, the store and the
object store exactly as they were (no store write, no object-store call, state
unchanged) when the artifact is not `WAITING_FOR_UPLOAD`, or the `Content-Length` is
absent, or it does not parse as a base-10 `int64`, or its value differs from
`Artifact.Size`; and `PostArtifact` answers a `WAITING_FOR_UPLOAD` artifact whose
`Content-Length` differs from its size with 400, the artifact staying
`WAITING_FOR_UPLOAD` and nothing else changing. -/
theorem C11_put_rejects (artifact : Artifact) (db : Database) (bucket : S3Bucket)
    (req : PutArtifactReq) (decode : String → Option LogChunk) (r : Render)
    (hreq : Request) :
    (artifact.State ≠ .WAITING_FOR_UPLOAD →
      PutArtifact artifact db bucket req =
        { err := some (Errorf "Expected artifact to be in state WAITING_FOR_UPLOAD: %s"
            [artifact.State.String]),
          artifact := artifact, db := db, s3 := bucket }) ∧
    (artifact.State = .WAITING_FOR_UPLOAD → req.ContentLength = "" →
      PutArtifact artifact db bucket req =
        { err := some (Errorf "Content-Length not specified" []),
          artifact := artifact, db := db, s3 := bucket }) ∧
    (artifact.State = .WAITING_FOR_UPLOAD → req.ContentLength ≠ "" →
      ParseInt req.ContentLength = none →
      PutArtifact artifact db bucket req =
        { err := some (Errorf "Invalid Content-Length specified" []),
          artifact := artifact, db := db, s3 := bucket }) ∧
    (artifact.State = .WAITING_FOR_UPLOAD → req.ContentLength ≠ "" →
      ∀ fileSize : Int, ParseInt req.ContentLength = some fileSize →
      fileSize ≠ artifact.Size →
      PutArtifact artifact db bucket req =
        { err := some (Errorf "Content length %d does not match expected file size %d"
            [toString fileSize, toString artifact.Size]),
          artifact := artifact, db := db, s3 := bucket }) ∧
    (artifact.State = .WAITING_FOR_UPLOAD →
      ∀ contentLength : Int, ParseInt (hreq.HeaderGet "Content-Length") = some contentLength →
      contentLength ≠ artifact.Size →
      PostArtifact decode r hreq db bucket (some artifact) =
        { r := r ++ [⟨400, .error
            (Sprintf "Error: Content-Length does not match artifact size" [])⟩],
          artifact := some artifact, db := db, s3 := bucket }) := by
  refine ⟨?_, ?_, ?_, ?_, ?_⟩
  · intro h
    simp [PutArtifact, h]
  · intro h1 h2
    simp [PutArtifact, h1, h2]
  · intro h1 h2 h3
    simp [PutArtifact, h1, h2, h3]
  · intro h1 h2 n h3 h4
    simp [PutArtifact, h1, h2, h3, h4]
  · intro h1 n h2 h3
    simp [PostArtifact, h1, h2, h3, JsonErrorf, Render.JSON, StatusBadRequest]

/-- Scenario S2 as an instance of C11: `Content-Length: 4` for the five-byte
artifact `"a.bin"` is refused by `PutArtifact` and answered with 400 by
`PostArtifact`, the artifact staying `WAITING_FOR_UPLOAD`. -/
theorem C11_put_rejects_witness :
    PutArtifact exBin exStoreBin exS3 exPutShort =
        { err := some (Errorf "Content length %d does not match expected file size %d"
            [toString (4 : Int), toString exBin.Size]),
          artifact := exBin, db := exStoreBin, s3 := exS3 } ∧
    PostArtifact exDecode [] exRequestShort exStoreBin exS3 (some exBin) =
        { r := [] ++ [⟨400, .error
            (Sprintf "Error: Content-Length does not match artifact size" [])⟩],
          artifact := some exBin, db := exStoreBin, s3 := exS3 } ∧
    exBin.State = .WAITING_FOR_UPLOAD :=
  have h := C11_put_rejects exBin exStoreBin exS3 exPutShort exDecode [] exRequestShort
  ⟨h.2.2.2.1 rfl (by decide) 4 (by decide) (by decide),
   h.2.2.2.2 rfl 4 (by decide) (by decide), rfl⟩

/-- The outcome of `PutArtifact` on a request it accepts, on a store that serves
every call, by the result of the upload. -/
theorem PutArtifact_accepted {a : Artifact} {db : Database} (s3 : S3Bucket)
    {req : PutArtifactReq} (hstate : a.State = .WAITING_FOR_UPLOAD)
    (hcl : req.ContentLength ≠ "") (hparse : ParseInt req.ContentLength = some a.Size)
    (hdb : db.healthy) :
    (∀ e, (s3.PutReader a.DefaultS3URL req.Body a.Size "binary/octet-stream"
        PublicRead).1 = some e →
      PutArtifact a db s3 req =
        { err := some (Errorf "Error uploading to S3: %s" [e]),
          artifact := { a with State := .ERROR },
          db := (db.tick.setArtifact { a with State := .UPLOADING }).tick.setArtifact
            { a with State := .ERROR },
          s3 := (s3.PutReader a.DefaultS3URL req.Body a.Size "binary/octet-stream"
            PublicRead).2 }) ∧
    ((s3.PutReader a.DefaultS3URL req.Body a.Size "binary/octet-stream"
        PublicRead).1 = none →
      PutArtifact a db s3 req =
        { err := none,
          artifact := { a with State := .UPLOADED, S3URL := a.DefaultS3URL },
          db := (db.tick.setArtifact { a with State := .UPLOADING }).tick.setArtifact
            { a with State := .UPLOADED, S3URL := a.DefaultS3URL },
          s3 := (s3.PutReader a.DefaultS3URL req.Body a.Size "binary/octet-stream"
            PublicRead).2 }) := by
  obtain ⟨aid, bid, nm, sz, dl, dc, st, url⟩ := a
  simp only at hstate hparse
  subst hstate
  have h1 := Database.setArtifact_healthy (Database.tick_healthy hdb)
    (⟨aid, bid, nm, sz, dl, dc, .UPLOADING, url⟩ : Artifact)
  have hu := Database.UpdateArtifact_of_healthy hdb
    (⟨aid, bid, nm, sz, dl, dc, .UPLOADING, url⟩ : Artifact)
  have hkey : Artifact.DefaultS3URL ⟨aid, bid, nm, sz, dl, dc, .UPLOADING, url⟩ =
      Artifact.DefaultS3URL ⟨aid, bid, nm, sz, dl, dc, .WAITING_FOR_UPLOAD, url⟩ := rfl
  rcases hp : s3.PutReader
    (Artifact.DefaultS3URL ⟨aid, bid, nm, sz, dl, dc, .WAITING_FOR_UPLOAD, url⟩)
    req.Body sz "binary/octet-stream" PublicRead with ⟨res, s3b⟩
  constructor
  · intro e he
    simp only at he
    subst he
    have hu2 := Database.UpdateArtifact_of_healthy h1
      (⟨aid, bid, nm, sz, dl, dc, .ERROR, url⟩ : Artifact)
    simp [PutArtifact, hcl, hparse, hu, hkey, hp, hu2]
  · intro he
    simp only at he
    subst he
    have hu2 := Database.UpdateArtifact_of_healthy h1
      (⟨aid, bid, nm, sz, dl, dc, .UPLOADED,
        Artifact.DefaultS3URL ⟨aid, bid, nm, sz, dl, dc, .WAITING_FOR_UPLOAD, url⟩⟩ :
        Artifact)
    simp [PutArtifact, hcl, hparse, hu, hkey, hp, hu2]

/-- C12. A `WAITING_FOR_UPLOAD` artifact, persisted on a store whose operations
succeed, and a request whose `Content-Length` equals `Artifact.Size`: `PutArtifact`
first persists `UPLOADING`, then calls the object store once, with the key
`DefaultS3URL(artifact)` and the declared length `Artifact.Size`.  If that call
succeeds no error is returned and the persisted artifact ends `UPLOADED` with `S3URL`
equal to the key; if it fails with `e` the error is returned (wrapped as "Error
uploading to S3: e") and the persisted artifact ends `ERROR` with the `S3URL` it had,
none being set. -/
theorem C12_put_uploads (a : Artifact) (db : Database) (s3 : S3Bucket)
    (req : PutArtifactReq) (hstate : a.State = .WAITING_FOR_UPLOAD)
    (hparse : ParseInt req.ContentLength = some a.Size) (hdb : db.healthy)
    (hrow : db.rowsOf a.Id = [a]) :
    (db.UpdateArtifact { a with State := .UPLOADING }).1 = none ∧
    (db.UpdateArtifact { a with State := .UPLOADING }).2.rowsOf a.Id =
      [{ a with State := .UPLOADING }] ∧
    (PutArtifact a db s3 req).s3 =
      (s3.PutReader a.DefaultS3URL req.Body a.Size "binary/octet-stream" PublicRead).2 ∧
    (PutArtifact a db s3 req).s3.calls = s3.calls ++
      [{ path := a.DefaultS3URL, data := req.Body, length := a.Size,
         contType := "binary/octet-stream", perm := PublicRead }] ∧
    ((s3.PutReader a.DefaultS3URL req.Body a.Size "binary/octet-stream"
        PublicRead).1 = none →
      (PutArtifact a db s3 req).err = none ∧
      (PutArtifact a db s3 req).artifact =
        { a with State := .UPLOADED, S3URL := a.DefaultS3URL } ∧
      (PutArtifact a db s3 req).db =
        ((db.UpdateArtifact { a with State := .UPLOADING }).2.UpdateArtifact
          { a with State := .UPLOADED, S3URL := a.DefaultS3URL }).2 ∧
      (PutArtifact a db s3 req).db.rowsOf a.Id =
        [{ a with State := .UPLOADED, S3URL := a.DefaultS3URL }]) ∧
    (∀ e, (s3.PutReader a.DefaultS3URL req.Body a.Size "binary/octet-stream"
        PublicRead).1 = some e →
      (PutArtifact a db s3 req).err = some (Errorf "Error uploading to S3: %s" [e]) ∧
      (PutArtifact a db s3 req).artifact = { a with State := .ERROR } ∧
      (PutArtifact a db s3 req).db =
        ((db.UpdateArtifact { a with State := .UPLOADING }).2.UpdateArtifact
          { a with State := .ERROR }).2 ∧
      (PutArtifact a db s3 req).db.rowsOf a.Id = [{ a with State := .ERROR }]) := by
  have hcl : req.ContentLength ≠ "" := by
    intro h
    rw [h] at hparse
    have hnone : ParseInt "" = none := by decide
    rw [hnone] at hparse
    exact Option.noConfusion hparse
  obtain ⟨hfail, hok⟩ := PutArtifact_accepted s3 hstate hcl hparse hdb
  have h1 := Database.setArtifact_healthy (Database.tick_healthy hdb)
    { a with State := .UPLOADING }
  have hrowU : (db.tick.setArtifact { a with State := .UPLOADING }).rowsOf a.Id =
      [{ a with State := .UPLOADING }] := by
    rw [Database.rowsOf_setArtifact_of_id _ rfl, Database.tick_rowsOf, hrow]
    rfl
  have hrowF : ∀ fin : Artifact, fin.Id = a.Id →
      ((db.tick.setArtifact { a with State := .UPLOADING }).tick.setArtifact fin).rowsOf a.Id
        = [fin] := by
    intro fin hfin
    rw [Database.rowsOf_setArtifact_of_id _ hfin, Database.tick_rowsOf, hrowU]
    rfl
  rw [Database.UpdateArtifact_of_healthy hdb, Database.UpdateArtifact_of_healthy h1,
    Database.UpdateArtifact_of_healthy h1]
  refine ⟨rfl, hrowU, ?_, ?_, ?_, ?_⟩
  · rcases hp : (s3.PutReader a.DefaultS3URL req.Body a.Size "binary/octet-stream"
        PublicRead).1 with _ | e
    · rw [hok hp]
    · rw [hfail e hp]
  · rcases hp : (s3.PutReader a.DefaultS3URL req.Body a.Size "binary/octet-stream"
        PublicRead).1 with _ | e
    · rw [hok hp]
      exact S3Bucket.PutReader_calls _ _ _ _ _ _
    · rw [hfail e hp]
      exact S3Bucket.PutReader_calls _ _ _ _ _ _
  · intro hp
    rw [hok hp]
    exact ⟨rfl, rfl, rfl, hrowF _ rfl⟩
  · intro e hp
    rw [hfail e hp]
    exact ⟨rfl, rfl, rfl, hrowF _ rfl⟩

/-- Scenario S1 as an instance of C12: `"hello"` with `Content-Length: 5` is uploaded
and `"a.bin"` ends `UPLOADED`; with the object store down it ends `ERROR`. -/
theorem C12_put_uploads_witness :
    ((PutArtifact exBin exStoreBin exS3 exPut).err = none ∧
      (PutArtifact exBin exStoreBin exS3 exPut).db.rowsOf exBin.Id =
        [{ exBin with State := .UPLOADED, S3URL := exBin.DefaultS3URL }]) ∧
    ((PutArtifact exBin exStoreBin exS3Down exPut).err =
        some (Errorf "Error uploading to S3: %s" ["503"]) ∧
      (PutArtifact exBin exStoreBin exS3Down exPut).db.rowsOf exBin.Id =
        [{ exBin with State := .ERROR }]) :=
  have hu := (C12_put_uploads exBin exStoreBin exS3 exPut rfl (by decide) (by decide)
    (by decide)).2.2.2.2.1 (by decide)
  have hd := (C12_put_uploads exBin exStoreBin exS3Down exPut rfl (by decide) (by decide)
    (by decide)).2.2.2.2.2 "503" (by decide)
  ⟨⟨hu.1, hu.2.2.2⟩, ⟨hd.1, hd.2.2.2⟩⟩

/-! ## Artifact creation -/

theorem Database.nextFault_cases (db : Database) :
    (∃ e, db.nextFault = (some e, db.tick)) ∨ db.nextFault = (none, db.tick) := by
  have h := Database.nextFault_snd db
  rcases hn : db.nextFault with ⟨f, db1⟩
  rw [hn] at h
  simp only at h
  subst h
  cases f with
  | none => exact Or.inr rfl
  | some e => exact Or.inl ⟨e, rfl⟩

theorem Database.GetArtifactByName_snd (db : Database) (bucketId name : String) :
    (db.GetArtifactByName bucketId name).2 = db.tick := by
  unfold Database.GetArtifactByName
  rcases Database.nextFault_cases db with ⟨e, h⟩ | h
  · rw [h]
  · rw [h]
    simp only
    split <;> rfl

theorem Database.InsertArtifact_cases (db : Database) (a : Artifact) :
    (∃ e, db.InsertArtifact a = (some e, a, db.tick)) ∨
      db.InsertArtifact a = (none, db.tick.stampArtifact a, db.tick.addArtifact a) := by
  unfold Database.InsertArtifact
  rcases Database.nextFault_cases db with ⟨e, h⟩ | h
  · exact Or.inl ⟨e, by rw [h]⟩
  · exact Or.inr (by rw [h])

/-- C13. The artifact that an accepted `CreateArtifact` call returns is the row it
inserted, and it has `Name = req.Name`, `BucketId = bucket.Id`, `DeadlineMins = 30`
when the request gave 0 and the requested value otherwise, and either (chunked) state
`APPENDING` with `Size` 0 whatever `req.Size` was, or (not chunked) state
`WAITING_FOR_UPLOAD` with `Size = req.Size`. -/
theorem C13_created_artifact (now : Nat) (req : CreateArtifactReq) (bucket : Bucket)
    (db db1 : Database) (a : Artifact)
    (hc : CreateArtifact now req bucket db = (.ok a, db1)) :
    a.Name = req.Name ∧ a.BucketId = bucket.Id ∧
    (req.DeadlineMins = 0 → a.DeadlineMins = 30) ∧
    (req.DeadlineMins ≠ 0 → a.DeadlineMins = req.DeadlineMins) ∧
    (req.Chunked = true → a.State = .APPENDING ∧ a.Size = 0) ∧
    (req.Chunked = false → a.State = .WAITING_FOR_UPLOAD ∧ a.Size = req.Size) ∧
    db1.artifacts = db.artifacts ++ [a] := by
  unfold CreateArtifact at hc
  split at hc
  · simp at hc
  split at hc
  · simp at hc
  have hsnd := Database.GetArtifactByName_snd db bucket.Id req.Name
  rcases hg : db.GetArtifactByName bucket.Id req.Name with ⟨res, dbx⟩
  rw [hg] at hsnd hc
  simp only at hsnd
  subst hsnd
  cases res with
  | ok found => simp at hc
  | error e =>
    simp only at hc
    by_cases hch : req.Chunked = true
    · simp only [hch, if_true] at hc
      rcases Database.InsertArtifact_cases db.tick
          { Id := 0, BucketId := bucket.Id, Name := req.Name, Size := 0,
            DeadlineMins := if req.DeadlineMins = 0 then DEFAULT_DEADLINE
              else req.DeadlineMins,
            DateCreated := now, State := .APPENDING, S3URL := "" } with ⟨e2, hi⟩ | hi
      · rw [hi] at hc
        simp at hc
      · rw [hi] at hc
        simp only [Prod.mk.injEq, Except.ok.injEq] at hc
        obtain ⟨ha, hd⟩ := hc
        subst ha hd
        refine ⟨rfl, rfl, ?_, ?_, fun _ => ⟨rfl, rfl⟩, ?_, rfl⟩
        · intro h0
          simp [Database.stampArtifact, h0, DEFAULT_DEADLINE]
        · intro h0
          simp [Database.stampArtifact, h0]
        · intro hf
          rw [hch] at hf
          exact Bool.noConfusion hf
    · have hf : req.Chunked = false := by simpa using hch
      simp only [hf, Bool.false_eq_true, if_false] at hc
      by_cases hz : req.Size = 0
      · simp [hz] at hc
      · simp only [hz, if_false] at hc
        rcases Database.InsertArtifact_cases db.tick
            { Id := 0, BucketId := bucket.Id, Name := req.Name, Size := req.Size,
              DeadlineMins := if req.DeadlineMins = 0 then DEFAULT_DEADLINE
                else req.DeadlineMins,
              DateCreated := now, State := .WAITING_FOR_UPLOAD, S3URL := "" } with
            ⟨e2, hi⟩ | hi
        · rw [hi] at hc
          simp at hc
        · rw [hi] at hc
          simp only [Prod.mk.injEq, Except.ok.injEq] at hc
          obtain ⟨ha, hd⟩ := hc
          subst ha hd
          refine ⟨rfl, rfl, ?_, ?_, fun h => absurd h hch, fun _ => ⟨rfl, rfl⟩, rfl⟩
          · intro h0
            simp [Database.stampArtifact, h0, DEFAULT_DEADLINE]
          · intro h0
            simp [Database.stampArtifact, h0]

/-- The creation of `"log"` as an instance of C13: chunked, deadline defaulted. -/
theorem C13_created_artifact_witness :
    exLogNew.Name = exCreateLog.Name ∧ exLogNew.DeadlineMins = 30 ∧
    exLogNew.State = .APPENDING ∧ exLogNew.Size = 0 ∧
    exStoreNew.artifacts = exStoreEmpty.artifacts ++ [exLogNew] :=
  have h := C13_created_artifact 0 exCreateLog exBucket exStoreEmpty exStoreNew exLogNew rfl
  ⟨h.1, h.2.2.1 rfl, (h.2.2.2.2.1 rfl).1, (h.2.2.2.2.1 rfl).2, h.2.2.2.2.2.2⟩

theorem len_eq_zero_iff (s : String) : len s = 0 ↔ s = "" := by
  obtain ⟨cs⟩ := s
  cases cs with
  | nil => exact ⟨fun _ => rfl, fun _ => rfl⟩
  | cons c cs =>
    constructor
    · intro h
      have hp := c.utf8Size_pos
      simp [len, String.utf8ByteSize, String.utf8Len_cons] at h
      omega
    · intro h
      exact absurd (congrArg String.data h) (by simp)

theorem Database.GetArtifactByName_found {db : Database} (h : db.healthy)
    {bucketId name : String} {found : Artifact}
    (hf : db.artifacts.find? (fun a => a.BucketId = bucketId ∧ a.Name = name) = some found) :
    db.GetArtifactByName bucketId name = (.ok found, db.tick) := by
  simp only [Database.GetArtifactByName, Database.nextFault_of_healthy h,
    Database.tick_artifacts, hf]

theorem Database.GetArtifactByName_missing {db : Database} (h : db.healthy)
    {bucketId name : String}
    (hf : db.artifacts.find? (fun a => a.BucketId = bucketId ∧ a.Name = name) = none) :
    db.GetArtifactByName bucketId name =
      (.error { msg := "Entity not found", notFound := true }, db.tick) := by
  simp only [Database.GetArtifactByName, Database.nextFault_of_healthy h,
    Database.tick_artifacts, hf]

/-- On a store that serves every call, `CreateArtifact` either leaves the artifact
rows as they were or appends one row of the requested bucket and name, none of that
bucket and name having been there. -/
theorem CreateArtifact_rows (now : Nat) (req : CreateArtifactReq) (bucket : Bucket)
    {db : Database} (hdb : db.healthy) :
    (CreateArtifact now req bucket db).2.healthy ∧
    ((CreateArtifact now req bucket db).2.artifacts = db.artifacts ∨
      ∃ a : Artifact, a.BucketId = bucket.Id ∧ a.Name = req.Name ∧
        (∀ r ∈ db.artifacts, ¬ (r.BucketId = bucket.Id ∧ r.Name = req.Name)) ∧
        (CreateArtifact now req bucket db).2.artifacts = db.artifacts ++ [a]) := by
  have h1 := Database.tick_healthy hdb
  have h2 := Database.tick_healthy h1
  unfold CreateArtifact
  split
  · exact ⟨hdb, Or.inl rfl⟩
  split
  · exact ⟨hdb, Or.inl rfl⟩
  rcases hf : db.artifacts.find? (fun a => a.BucketId = bucket.Id ∧ a.Name = req.Name) with
    _ | found
  · have hnone : ∀ r ∈ db.artifacts, ¬ (r.BucketId = bucket.Id ∧ r.Name = req.Name) := by
      intro r hr
      have := List.find?_eq_none.mp hf r hr
      simpa using this
    rw [Database.GetArtifactByName_missing hdb hf]
    simp only
    split
    · rw [Database.InsertArtifact_of_healthy h1]
      exact ⟨Database.tick_healthy h1, Or.inr ⟨_, rfl, rfl, hnone, rfl⟩⟩
    · split
      · exact ⟨h1, Or.inl rfl⟩
      · rw [Database.InsertArtifact_of_healthy h1]
        exact ⟨Database.tick_healthy h1, Or.inr ⟨_, rfl, rfl, hnone, rfl⟩⟩
  · rw [Database.GetArtifactByName_found hdb hf]
    exact ⟨h1, Or.inl rfl⟩

/-- A run of `CreateArtifact` calls on a serving store keeps `(BucketId, Name)`
unique among the stored artifacts. -/
theorem createAll_uniqueNames (calls : List (Nat × CreateArtifactReq × Bucket)) :
    ∀ {db : Database}, db.healthy → uniqueNames db → uniqueNames (createAll db calls) := by
  induction calls with
  | nil => intro db _ hu; exact hu
  | cons call rest ih =>
    intro db hdb hu
    obtain ⟨hh, hrows⟩ := CreateArtifact_rows call.1 call.2.1 call.2.2 hdb
    apply ih hh
    rcases hrows with hsame | ⟨a, hb, hn, hfresh, happ⟩
    · unfold uniqueNames
      rw [hsame]
      exact hu
    · unfold uniqueNames
      rw [happ, List.pairwise_append]
      refine ⟨hu, List.pairwise_singleton _ _, ?_⟩
      intro x hx y hy
      rw [List.mem_singleton.mp hy, hb, hn]
      exact hfresh x hx

/-- What `CreateArtifact` does refuse: it returns an error and inserts nothing (no row
of the store changes) when `req.Name` is empty, or the bucket is not `OPEN`, or the
store's lookup by `(BucketId, Name)` finds an artifact, as it does, when served,
whenever such a row is stored; and any run of `CreateArtifact` calls on a store that
serves its calls keeps `(BucketId, Name)` unique among the stored artifacts. -/
theorem CreateArtifact_rejects (now : Nat) (req : CreateArtifactReq) (bucket : Bucket)
    (db : Database) :
    (req.Name = "" →
      CreateArtifact now req bucket db =
        (.error (Errorf "Artifact Name not provided, state = %s" [bucket.State.String]),
          db)) ∧
    (req.Name ≠ "" → bucket.State ≠ .OPEN →
      CreateArtifact now req bucket db =
        (.error (Errorf "Bucket is already closed" []), db)) ∧
    (req.Name ≠ "" → bucket.State = .OPEN →
      ∀ (found : Artifact) (db1 : Database),
        db.GetArtifactByName bucket.Id req.Name = (.ok found, db1) →
        CreateArtifact now req bucket db =
          (.error (Errorf "Artifact already exists" []), db1) ∧
        db1.artifacts = db.artifacts ∧ db1.logChunks = db.logChunks ∧
        db1.buckets = db.buckets) ∧
    (db.nextFault.1 = none →
      ∀ row ∈ db.artifacts, row.BucketId = bucket.Id → row.Name = req.Name →
        ∃ found, db.GetArtifactByName bucket.Id req.Name = (.ok found, db.tick)) ∧
    (db.healthy → uniqueNames db →
      ∀ calls : List (Nat × CreateArtifactReq × Bucket),
        uniqueNames (createAll db calls)) := by
  refine ⟨?_, ?_, ?_, ?_, ?_⟩
  · intro h
    have : len req.Name = 0 := (len_eq_zero_iff _).mpr h
    simp [CreateArtifact, this]
  · intro h1 h2
    have : ¬ len req.Name = 0 := fun h => h1 ((len_eq_zero_iff _).mp h)
    simp [CreateArtifact, this, h2]
  · intro h1 h2 found db1 hg
    have : ¬ len req.Name = 0 := fun h => h1 ((len_eq_zero_iff _).mp h)
    have hsnd := Database.GetArtifactByName_snd db bucket.Id req.Name
    rw [hg] at hsnd
    simp only at hsnd
    subst hsnd
    refine ⟨?_, rfl, rfl, rfl⟩
    simp [CreateArtifact, this, h2, hg]
  · intro hserved row hrow hb hn
    have hnf : db.nextFault = (none, db.tick) := by
      rcases Database.nextFault_cases db with ⟨e, h⟩ | h
      · rw [h] at hserved
        exact Option.noConfusion hserved
      · exact h
    rcases hf : db.artifacts.find? (fun a => a.BucketId = bucket.Id ∧ a.Name = req.Name)
      with _ | found
    · have := List.find?_eq_none.mp hf row hrow
      simp [hb, hn] at this
    · exact ⟨found, by
        simp only [Database.GetArtifactByName, hnf, Database.tick_artifacts, hf]⟩
  · intro hdb hu calls
    exact createAll_uniqueNames calls hdb hu

/-- Scenario S8: `"a.bin"` exists in bucket `"B"`, so on a store that serves its calls
a second creation is refused and the store is untouched; and two creations of the
same name leave the names unique. -/
theorem CreateArtifact_rejects_example :
    (CreateArtifact 0 exCreateBin exBucket exStoreBin =
        (.error (Errorf "Artifact already exists" []), exStoreBin) ∧
      exStoreBin.artifacts = exStoreBin.artifacts ∧
      exStoreBin.logChunks = exStoreBin.logChunks ∧
      exStoreBin.buckets = exStoreBin.buckets) ∧
    uniqueNames (createAll exStoreEmpty
      [(0, exCreateBin, exBucket), (1, exCreateBin, exBucket)]) :=
  have h := CreateArtifact_rejects 0 exCreateBin exBucket exStoreBin
  have h2 := CreateArtifact_rejects 0 exCreateBin exBucket exStoreEmpty
  ⟨h.2.2.1 (by decide) rfl exBin exStoreBin rfl,
   h2.2.2.2.2 (by decide) (by decide) _⟩

/-- C14, at the failing input. `"a.bin"` is stored in the open bucket `"B"`, and the
lookup by name fails on a lost connection, an error that is not "entity not found":
`CreateArtifact` reads every error of the lookup as "no such artifact", returns the
new artifact instead of an error and inserts a second row `("B", "a.bin")`, so that
the names, unique before, no longer are.  `CreateBucket`, on the same failure of its
lookup, tests `EntityNotFound`, answers 500 and inserts nothing. -/
theorem C14_create_inserts_duplicate_after_failed_lookup :
    exCreateBin.Name ≠ "" ∧ exBucket.State = .OPEN ∧
    exStoreBinLookupDown.artifacts = [exBin] ∧
    exBin.BucketId = exBucket.Id ∧ exBin.Name = exCreateBin.Name ∧
    uniqueNames exStoreBinLookupDown ∧
    (exStoreBinLookupDown.GetArtifactByName exBucket.Id exCreateBin.Name).1 =
      .error exStoreDown ∧
    exStoreDown.EntityNotFound = false ∧
    CreateArtifact 0 exCreateBin exBucket exStoreBinLookupDown =
      (.ok exBinAgain, { exStoreBin with artifacts := [exBin, exBinAgain] }) ∧
    exBinAgain.BucketId = exBin.BucketId ∧ exBinAgain.Name = exBin.Name ∧
    ¬ uniqueNames (CreateArtifact 0 exCreateBin exBucket exStoreBinLookupDown).2 ∧
    CreateBucket { exStoreEmpty with faults := [some exStoreDown] } exClock "B" "bob" =
      (.error { errCode := StatusInternalServerError, errStr := "connection lost" },
        exStoreEmpty) :=
  ⟨by decide, rfl, rfl, rfl, rfl, by decide, rfl, rfl, rfl, rfl, rfl, by decide, rfl⟩

/-- C15 at the failing input.  A non-chunked request with `Size = -1` on the open
bucket with a fresh name is accepted: `CreateArtifact` returns the artifact and
inserts it with the negative size, the only size it refuses being 0. -/
theorem C15_negative_size_is_accepted :
    CreateArtifact 0 exCreateNegative exBucket exStoreEmpty =
      (.ok exBinNegative, { exStoreEmpty with artifacts := [exBinNegative] }) ∧
    exBinNegative.Size < 0 ∧
    (CreateArtifact 0 { exCreateNegative with Size := 0 } exBucket exStoreEmpty).1 =
      .error (Errorf "Cannot create a new upload artifact without size." []) :=
  ⟨rfl, by decide, rfl⟩

/-- C16 at the failing input.  Creating `"a.bin"` twice in the open bucket `"B"`:
the first call is answered with 200, the second with 500 and the error envelope, as
is every other refusal of `CreateArtifact` (here: a closed bucket). -/
theorem C16_duplicate_create_answers_500 :
    HandleCreateArtifact exDecodeCreateBin 0 [] exRequest exStoreEmpty (some exBucket) =
      { r := [⟨200, .artifact exBinFirst⟩], db := exStoreBinFirst } ∧
    HandleCreateArtifact exDecodeCreateBin 0 [] exRequest exStoreBinFirst (some exBucket) =
      { r := [⟨500, .error "Artifact already exists"⟩], db := exStoreBinFirst } ∧
    HandleCreateArtifact exDecodeCreateBin 0 [] exRequest exStoreEmpty
        (some exBucketClosed) =
      { r := [⟨500, .error "Bucket is already closed"⟩], db := exStoreEmpty } := by
  decide

/-- Whatever error `CreateArtifact` returns, `HandleCreateArtifact` renders it with
status 500 after whatever the decoding step wrote. -/
theorem HandleCreateArtifact_error_status
    (decode : String → Option String × CreateArtifactReq) (now : Nat) (r : Render)
    (req : Request) (db db1 : Database) (b : Bucket) (err : String)
    (h : CreateArtifact now (decode req.Body).2 b db = (.error err, db1)) :
    ∃ r1, (HandleCreateArtifact decode now r req db (some b)).r =
      r1 ++ [⟨500, .error (Sprintf err [])⟩] := by
  simp only [HandleCreateArtifact, h, JsonErrorf, Render.JSON, StatusInternalServerError]
  exact ⟨_, rfl⟩

/-! ## Bucket creation -/

theorem Database.GetBucket_snd (db : Database) (id : String) :
    (db.GetBucket id).2 = db.tick := by
  unfold Database.GetBucket
  rcases Database.nextFault_cases db with ⟨e, h⟩ | h
  · rw [h]
  · rw [h]
    simp only
    split <;> rfl

theorem Database.GetBucket_found {db : Database} (h : db.nextFault.1 = none) {id : String}
    {found : Bucket} (hf : db.buckets.find? (fun b => b.Id = id) = some found) :
    db.GetBucket id = (.ok found, db.tick) := by
  have hnf : db.nextFault = (none, db.tick) := by
    rcases Database.nextFault_cases db with ⟨e, he⟩ | he
    · rw [he] at h
      exact Option.noConfusion h
    · exact he
  simp only [Database.GetBucket, hnf, Database.tick_buckets, hf]

theorem Database.GetBucket_missing {db : Database} (h : db.healthy) {id : String}
    (hf : db.buckets.find? (fun b => b.Id = id) = none) :
    db.GetBucket id = (.error { msg := "Entity not found", notFound := true }, db.tick) := by
  simp only [Database.GetBucket, Database.nextFault_of_healthy h, Database.tick_buckets, hf]

theorem Database.InsertBucket_snd_of_none {db db2 : Database} {b : Bucket}
    (h : db.InsertBucket b = (none, db2)) :
    db2.buckets = db.buckets ++ [b] ∧ db2.artifacts = db.artifacts ∧
      db2.logChunks = db.logChunks := by
  unfold Database.InsertBucket at h
  rcases Database.nextFault_cases db with ⟨e, hn⟩ | hn
  · rw [hn] at h
    simp at h
  · rw [hn] at h
    simp only [Prod.mk.injEq, true_and] at h
    subst h
    exact ⟨rfl, rfl, rfl⟩

theorem Database.InsertBucket_of_healthy {db : Database} (h : db.healthy) (b : Bucket) :
    db.InsertBucket b = (none, { db.tick with buckets := db.buckets ++ [b] }) := by
  simp [Database.InsertBucket, Database.nextFault_of_healthy h]

/-- On a store that serves every call, `CreateBucket` either leaves the bucket rows
as they were or appends one row of the requested id, none of that id having been
there. -/
theorem CreateBucket_rows (clk : Clock) (bucketId owner : String) {db : Database}
    (hdb : db.healthy) :
    (CreateBucket db clk bucketId owner).2.healthy ∧
    ((CreateBucket db clk bucketId owner).2.buckets = db.buckets ∨
      ∃ b : Bucket, b.Id = bucketId ∧ (∀ row ∈ db.buckets, row.Id ≠ bucketId) ∧
        (CreateBucket db clk bucketId owner).2.buckets = db.buckets ++ [b]) := by
  have h1 := Database.tick_healthy hdb
  unfold CreateBucket
  split
  · exact ⟨hdb, Or.inl rfl⟩
  split
  · exact ⟨hdb, Or.inl rfl⟩
  rcases hf : db.buckets.find? (fun b => b.Id = bucketId) with _ | found
  · have hnone : ∀ row ∈ db.buckets, row.Id ≠ bucketId := by
      intro row hrow
      have := List.find?_eq_none.mp hf row hrow
      simpa using this
    rw [Database.GetBucket_missing hdb hf]
    simp only [DatabaseError.EntityNotFound, Bool.not_true, Bool.false_eq_true, if_false]
    rw [Database.InsertBucket_of_healthy h1]
    exact ⟨Database.tick_healthy h1, Or.inr ⟨_, rfl, hnone, rfl⟩⟩
  · rw [Database.GetBucket_found (by rw [Database.nextFault_of_healthy hdb]) hf]
    exact ⟨h1, Or.inl rfl⟩

/-- A run of `CreateBucket` calls on a serving store keeps the bucket ids unique. -/
theorem createBuckets_uniqueIds (calls : List (Clock × String × String)) :
    ∀ {db : Database}, db.healthy → uniqueIds db → uniqueIds (createBuckets db calls) := by
  induction calls with
  | nil => intro db _ hu; exact hu
  | cons call rest ih =>
    intro db hdb hu
    obtain ⟨hh, hrows⟩ := CreateBucket_rows call.1 call.2.1 call.2.2 hdb
    apply ih hh
    rcases hrows with hsame | ⟨b, hb, hfresh, happ⟩
    · unfold uniqueIds
      rw [hsame]
      exact hu
    · unfold uniqueIds at hu ⊢
      rw [happ, List.map_append, List.nodup_append]
      refine ⟨hu, List.nodup_singleton _, ?_⟩
      intro x hx hy
      obtain ⟨row, hrow, rfl⟩ := List.mem_map.mp hx
      simp only [List.map_cons, List.map_nil, List.mem_singleton] at hy
      exact hfresh row hrow (hy.trans hb)

/-- C17. `CreateBucket` returns a 400 error and inserts nothing when `bucketId` is
empty, `owner` is empty, or the store's lookup finds a bucket with that `Id` (as it
does, when served, whenever such a row is stored); it returns a 500 error and inserts
nothing when the lookup fails with an error other than entity-not-found; and when the
lookup reports not-found and the insert succeeds it inserts and returns the bucket
with `Id = bucketId`, `Owner = owner`, `State = OPEN` and `DateCreated` the clock's
current time.  Any run of `CreateBucket` calls on a store that serves its calls keeps
the bucket ids unique. -/
theorem C17_create_bucket (db : Database) (clk : Clock) (bucketId owner : String) :
    (bucketId = "" →
      CreateBucket db clk bucketId owner =
        (.error ⟨400, "Bucket ID not provided"⟩, db)) ∧
    (bucketId ≠ "" → owner = "" →
      CreateBucket db clk bucketId owner =
        (.error ⟨400, "Bucket Owner not provided"⟩, db)) ∧
    (bucketId ≠ "" → owner ≠ "" →
      ∀ (found : Bucket) (db1 : Database), db.GetBucket bucketId = (.ok found, db1) →
        CreateBucket db clk bucketId owner = (.error ⟨400, "Entity exists"⟩, db1) ∧
        db1.buckets = db.buckets ∧ db1.artifacts = db.artifacts ∧
        db1.logChunks = db.logChunks) ∧
    (db.nextFault.1 = none → ∀ row ∈ db.buckets, row.Id = bucketId →
      ∃ found, db.GetBucket bucketId = (.ok found, db.tick)) ∧
    (bucketId ≠ "" → owner ≠ "" →
      ∀ (err : DatabaseError) (db1 : Database), db.GetBucket bucketId = (.error err, db1) →
        err.EntityNotFound = false →
        CreateBucket db clk bucketId owner = (.error ⟨500, err.Error⟩, db1) ∧
        db1.buckets = db.buckets ∧ db1.artifacts = db.artifacts ∧
        db1.logChunks = db.logChunks) ∧
    (bucketId ≠ "" → owner ≠ "" →
      ∀ (err : DatabaseError) (db1 db2 : Database),
        db.GetBucket bucketId = (.error err, db1) → err.EntityNotFound = true →
        db1.InsertBucket
          { Id := bucketId, Owner := owner, DateCreated := clk.Now, DateClosed := 0,
            State := .OPEN } = (none, db2) →
        CreateBucket db clk bucketId owner =
          (.ok { Id := bucketId, Owner := owner, DateCreated := clk.Now, DateClosed := 0,
                 State := .OPEN }, db2) ∧
        db2.buckets = db.buckets ++
          [{ Id := bucketId, Owner := owner, DateCreated := clk.Now, DateClosed := 0,
             State := .OPEN }]) ∧
    (db.healthy → uniqueIds db →
      ∀ calls : List (Clock × String × String), uniqueIds (createBuckets db calls)) := by
  have hsnd := Database.GetBucket_snd db bucketId
  refine ⟨?_, ?_, ?_, ?_, ?_, ?_, ?_⟩
  · intro h
    simp [CreateBucket, h, NewHttpError, StatusBadRequest]
  · intro h1 h2
    have : len owner = 0 := (len_eq_zero_iff _).mpr h2
    simp [CreateBucket, h1, this, NewHttpError, StatusBadRequest]
  · intro h1 h2 found db1 hg
    have : ¬ len owner = 0 := fun h => h2 ((len_eq_zero_iff _).mp h)
    rw [hg] at hsnd
    simp only at hsnd
    subst hsnd
    refine ⟨?_, rfl, rfl, rfl⟩
    simp [CreateBucket, h1, this, hg, NewHttpError, StatusBadRequest]
  · intro hserved row hrow hid
    rcases hf : db.buckets.find? (fun b => b.Id = bucketId) with _ | found
    · have := List.find?_eq_none.mp hf row hrow
      simp [hid] at this
    · exact ⟨found, Database.GetBucket_found hserved hf⟩
  · intro h1 h2 err db1 hg hnf
    have : ¬ len owner = 0 := fun h => h2 ((len_eq_zero_iff _).mp h)
    rw [hg] at hsnd
    simp only at hsnd
    subst hsnd
    refine ⟨?_, rfl, rfl, rfl⟩
    simp [CreateBucket, h1, this, hg, hnf, NewWrappedHttpError, StatusInternalServerError]
  · intro h1 h2 err db1 db2 hg hnf hins
    have : ¬ len owner = 0 := fun h => h2 ((len_eq_zero_iff _).mp h)
    rw [hg] at hsnd
    simp only at hsnd
    subst hsnd
    refine ⟨?_, (Database.InsertBucket_snd_of_none hins).1⟩
    simp [CreateBucket, h1, this, hg, hnf, hins]
  · intro hdb hu calls
    exact createBuckets_uniqueIds calls hdb hu

/-- Instances of C17: creating `"B"` again is refused with 400, creating `"C"` inserts
it as an open bucket stamped with the clock's time, and the ids stay unique. -/
theorem C17_create_bucket_witness :
    (CreateBucket exStoreEmpty exClock "B" "bob" =
        (.error ⟨400, "Entity exists"⟩, exStoreEmpty) ∧
      exStoreEmpty.buckets = exStoreEmpty.buckets ∧
      exStoreEmpty.artifacts = exStoreEmpty.artifacts ∧
      exStoreEmpty.logChunks = exStoreEmpty.logChunks) ∧
    (CreateBucket exStoreEmpty exClock "C" "bob" =
        (.ok { Id := "C", Owner := "bob", DateCreated := exClock.Now, DateClosed := 0,
               State := .OPEN },
          { exStoreEmpty with buckets := exStoreEmpty.buckets ++
            [{ Id := "C", Owner := "bob", DateCreated := 42, DateClosed := 0,
               State := .OPEN }] }) ∧
      ({ exStoreEmpty with buckets := exStoreEmpty.buckets ++
            [{ Id := "C", Owner := "bob", DateCreated := 42, DateClosed := 0,
               State := .OPEN }] } : Database).buckets = exStoreEmpty.buckets ++
        [{ Id := "C", Owner := "bob", DateCreated := exClock.Now, DateClosed := 0,
           State := .OPEN }]) ∧
    uniqueIds (createBuckets exStoreEmpty [(exClock, "C", "bob"), (exClock, "C", "eve")]) :=
  have hB := C17_create_bucket exStoreEmpty exClock "B" "bob"
  have hC := C17_create_bucket exStoreEmpty exClock "C" "bob"
  ⟨hB.2.2.1 (by decide) (by decide) exBucket exStoreEmpty rfl,
   hC.2.2.2.2.2.1 (by decide) (by decide) _ exStoreEmpty _ rfl rfl rfl,
   hC.2.2.2.2.2.2 (by decide) (by decide) _⟩

/-! ## Bucket close -/

theorem Database.UpdateArtifact_cases (db : Database) (a : Artifact) :
    (∃ e, db.UpdateArtifact a = (some e, db.tick)) ∨
      db.UpdateArtifact a = (none, db.tick.setArtifact a) := by
  unfold Database.UpdateArtifact
  rcases Database.nextFault_cases db with ⟨e, h⟩ | h
  · exact Or.inl ⟨e, by rw [h]⟩
  · exact Or.inr (by rw [h])

theorem Database.ListLogChunksInArtifact_cases (db : Database) (id : Int) :
    (∃ e, db.ListLogChunksInArtifact id = (.error e, db.tick)) ∨
      db.ListLogChunksInArtifact id = (.ok (db.chunksOf id), db.tick) := by
  unfold Database.ListLogChunksInArtifact
  rcases Database.nextFault_cases db with ⟨e, h⟩ | h
  · exact Or.inl ⟨e, by rw [h]⟩
  · exact Or.inr (by rw [h]; rfl)

theorem Database.UpdateBucket_cases (db : Database) (b : Bucket) :
    (∃ e, db.UpdateBucket b = (some e, db.tick)) ∨
      db.UpdateBucket b = (none, db.tick.setBucket b) := by
  unfold Database.UpdateBucket
  rcases Database.nextFault_cases db with ⟨e, h⟩ | h
  · exact Or.inl ⟨e, by rw [h]⟩
  · exact Or.inr (by rw [h]; rfl)

theorem Database.ListArtifactsInBucket_cases (db : Database) (bucketId : String) :
    (∃ e, db.ListArtifactsInBucket bucketId = (.error e, db.tick)) ∨
      db.ListArtifactsInBucket bucketId =
        (.ok (db.artifacts.filter (fun a => a.BucketId = bucketId)), db.tick) := by
  unfold Database.ListArtifactsInBucket
  rcases Database.nextFault_cases db with ⟨e, h⟩ | h
  · exact Or.inl ⟨e, by rw [h]⟩
  · exact Or.inr (by rw [h]; rfl)

/-- Two updates of the same artifact id leave what the second one wrote. -/
theorem replace_replace (l : List Artifact) (i : Int) (x y : Artifact) (hx : x.Id = i) :
    (l.map (fun r => if r.Id = i then x else r)).map (fun r => if r.Id = i then y else r) =
      l.map (fun r => if r.Id = i then y else r) := by
  rw [List.map_map]
  apply List.map_congr_left
  intro r _
  by_cases hr : r.Id = i
  · simp [hr, hx]
  · simp [hr]

/-- A merge that returns no error changed no bucket row and wrote a terminal state to
the rows of the artifact's id. -/
theorem MergeLogChunks_ok {a : Artifact} {db : Database} {s3 : S3Bucket}
    (hstate : a.State = .APPEND_COMPLETE) (h : (MergeLogChunks a db s3).err = none) :
    (MergeLogChunks a db s3).db.buckets = db.buckets ∧
    ∃ fin : Artifact, fin.State.terminal = true ∧ fin.Id = a.Id ∧
      (MergeLogChunks a db s3).db.artifacts =
        db.artifacts.map (fun r => if r.Id = a.Id then fin else r) := by
  obtain ⟨aid, bid, nm, sz, dl, dc, st, url⟩ := a
  simp only at hstate
  subst hstate
  by_cases hsz : sz = 0
  · subst hsz
    rcases Database.UpdateArtifact_cases db
        (⟨aid, bid, nm, 0, dl, dc, .CLOSED_WITHOUT_DATA, ""⟩ : Artifact) with ⟨e, hu⟩ | hu
    · simp [MergeLogChunks, hu] at h
    · simp only [MergeLogChunks, hu, if_true]
      exact ⟨rfl, ⟨aid, bid, nm, 0, dl, dc, .CLOSED_WITHOUT_DATA, ""⟩, rfl, rfl, rfl⟩
  · rcases Database.UpdateArtifact_cases db
        (⟨aid, bid, nm, sz, dl, dc, .UPLOADING, url⟩ : Artifact) with ⟨e, hu⟩ | hu
    · simp [MergeLogChunks, hsz, hu, DatabaseError.Error] at h
    rcases Database.ListLogChunksInArtifact_cases
        (db.tick.setArtifact (⟨aid, bid, nm, sz, dl, dc, .UPLOADING, url⟩ : Artifact)) aid
      with ⟨e, hl⟩ | hl
    · simp [MergeLogChunks, hsz, hu, hl, DatabaseError.Error] at h
    rcases hp : s3.PutReader
        (Artifact.DefaultS3URL ⟨aid, bid, nm, sz, dl, dc, .UPLOADING, url⟩)
        (pipeWrites (db.chunksOf aid))
        sz "binary/octet-stream" PublicRead with ⟨res, s3b⟩
    cases res with
    | some e =>
      by_cases hread : s3.taken sz < len (pipeWrites (db.chunksOf aid))
      · simp [MergeLogChunks, hsz, hu, hl, hp, hread] at h
      · simp [MergeLogChunks, hsz, hu, hl, hp, hread] at h
    | none =>
      have hread : ¬ s3.taken sz < len (pipeWrites (db.chunksOf aid)) :=
        S3Bucket.PutReader_ok_taken (by rw [hp])
      rcases Database.UpdateArtifact_cases
          (db.tick.setArtifact (⟨aid, bid, nm, sz, dl, dc, .UPLOADING, url⟩ : Artifact)).tick
          (⟨aid, bid, nm, sz, dl, dc, .UPLOADED,
            Artifact.DefaultS3URL ⟨aid, bid, nm, sz, dl, dc, .UPLOADING, url⟩⟩ : Artifact)
        with ⟨e, hu2⟩ | hu2
      · simp [MergeLogChunks, hsz, hu, hl, hp, hu2, hread, DatabaseError.Error] at h
      · simp only [MergeLogChunks, hsz, hu, hl, Database.setArtifact_chunksOf,
          Database.tick_chunksOf, hp, hu2, hread, if_false]
        refine ⟨rfl, ⟨aid, bid, nm, sz, dl, dc, .UPLOADED,
          Artifact.DefaultS3URL ⟨aid, bid, nm, sz, dl, dc, .UPLOADING, url⟩⟩, rfl, rfl, ?_⟩
        simp only [Database.setArtifact_artifacts, Database.tick_artifacts]
        exact replace_replace _ _ _ _ rfl

/-- A merge whose result is no error has returned: an upload that succeeds has read
every byte of its stream. -/
theorem MergeLogChunks_ok_returns {a : Artifact} {db : Database} {s3 : S3Bucket}
    (h : (MergeLogChunks a db s3).err = none) : (MergeLogChunks a db s3).blocked = false := by
  obtain ⟨aid, bid, nm, sz, dl, dc, st, url⟩ := a
  cases st with
  | UPLOADED => rfl
  | UPLOADING => rfl
  | CLOSED_WITHOUT_DATA => rfl
  | ERROR => rfl
  | WAITING_FOR_UPLOAD => rfl
  | APPENDING => rfl
  | APPEND_COMPLETE =>
    by_cases hsz : sz = 0
    · subst hsz
      simp [MergeLogChunks]
    · rcases Database.UpdateArtifact_cases db
          (⟨aid, bid, nm, sz, dl, dc, .UPLOADING, url⟩ : Artifact) with ⟨e, hu⟩ | hu
      · simp [MergeLogChunks, hsz, hu]
      rcases Database.ListLogChunksInArtifact_cases
          (db.tick.setArtifact (⟨aid, bid, nm, sz, dl, dc, .UPLOADING, url⟩ : Artifact)) aid
        with ⟨e, hl⟩ | hl
      · simp [MergeLogChunks, hsz, hu, hl]
      rcases hp : s3.PutReader
          (Artifact.DefaultS3URL ⟨aid, bid, nm, sz, dl, dc, .UPLOADING, url⟩)
          (pipeWrites (db.chunksOf aid))
          sz "binary/octet-stream" PublicRead with ⟨res, s3b⟩
      cases res with
      | some e =>
        by_cases hread : s3.taken sz < len (pipeWrites (db.chunksOf aid))
        · simp [MergeLogChunks, hsz, hu, hl, hp, hread] at h
        · simp [MergeLogChunks, hsz, hu, hl, hp, hread]
      | none =>
        have hread : ¬ s3.taken sz < len (pipeWrites (db.chunksOf aid)) :=
          S3Bucket.PutReader_ok_taken (by rw [hp])
        rcases Database.UpdateArtifact_cases
            (db.tick.setArtifact (⟨aid, bid, nm, sz, dl, dc, .UPLOADING, url⟩ : Artifact)).tick
            (⟨aid, bid, nm, sz, dl, dc, .UPLOADED,
              Artifact.DefaultS3URL ⟨aid, bid, nm, sz, dl, dc, .UPLOADING, url⟩⟩ : Artifact)
          with ⟨e, hu2⟩ | hu2
        · simp [MergeLogChunks, hsz, hu, hl, hp, hu2, hread]
        · simp [MergeLogChunks, hsz, hu, hl, hp, hu2, hread]

/-- A close whose result is no error has returned. -/
theorem CloseArtifact_ok_returns {a : Artifact} {db : Database} {s3 : S3Bucket}
    {flag : Bool} (h : (CloseArtifact a db s3 flag).err = none) :
    (CloseArtifact a db s3 flag).blocked = false := by
  obtain ⟨aid, bid, nm, sz, dl, dc, st, url⟩ := a
  cases st with
  | UPLOADED => rfl
  | APPEND_COMPLETE => rfl
  | UPLOADING => rfl
  | CLOSED_WITHOUT_DATA => rfl
  | ERROR => rfl
  | WAITING_FOR_UPLOAD =>
    rcases Database.UpdateArtifact_cases db
        (⟨aid, bid, nm, sz, dl, dc, .CLOSED_WITHOUT_DATA, url⟩ : Artifact) with ⟨e, hu⟩ | hu
    · simp [CloseArtifact, hu]
    · simp [CloseArtifact, hu]
  | APPENDING =>
    rcases Database.UpdateArtifact_cases db
        (⟨aid, bid, nm, sz, dl, dc, .APPEND_COMPLETE, url⟩ : Artifact) with ⟨e, hu⟩ | hu
    · simp [CloseArtifact, hu]
    · simp only [CloseArtifact, hu] at h ⊢
      exact MergeLogChunks_ok_returns h

/-- A close that returns no error changed no bucket row, and either wrote nothing,
the artifact being in a terminal state already, or wrote a terminal state to the
rows of the artifact's id. -/
theorem CloseArtifact_ok {a : Artifact} {db : Database} {s3 : S3Bucket} {flag : Bool}
    (h : (CloseArtifact a db s3 flag).err = none) :
    (CloseArtifact a db s3 flag).db.buckets = db.buckets ∧
    ((a.State.terminal = true ∧ (CloseArtifact a db s3 flag).db.artifacts = db.artifacts) ∨
      ∃ fin : Artifact, fin.State.terminal = true ∧
        (CloseArtifact a db s3 flag).db.artifacts =
          db.artifacts.map (fun r => if r.Id = a.Id then fin else r)) := by
  obtain ⟨aid, bid, nm, sz, dl, dc, st, url⟩ := a
  cases st with
  | UPLOADED => exact ⟨rfl, Or.inl ⟨rfl, rfl⟩⟩
  | APPEND_COMPLETE => exact ⟨rfl, Or.inl ⟨rfl, rfl⟩⟩
  | UPLOADING => simp [CloseArtifact] at h
  | CLOSED_WITHOUT_DATA => simp [CloseArtifact] at h
  | ERROR => simp [CloseArtifact] at h
  | WAITING_FOR_UPLOAD =>
    rcases Database.UpdateArtifact_cases db
        (⟨aid, bid, nm, sz, dl, dc, .CLOSED_WITHOUT_DATA, url⟩ : Artifact) with ⟨e, hu⟩ | hu
    · simp [CloseArtifact, hu] at h
    · simp only [CloseArtifact, hu]
      exact ⟨rfl, Or.inr ⟨⟨aid, bid, nm, sz, dl, dc, .CLOSED_WITHOUT_DATA, url⟩, rfl, rfl⟩⟩
  | APPENDING =>
    rcases Database.UpdateArtifact_cases db
        (⟨aid, bid, nm, sz, dl, dc, .APPEND_COMPLETE, url⟩ : Artifact) with ⟨e, hu⟩ | hu
    · simp [CloseArtifact, hu] at h
    · simp only [CloseArtifact, hu] at h ⊢
      obtain ⟨hb, fin, hfin, _, hrows⟩ := MergeLogChunks_ok rfl h
      refine ⟨hb, Or.inr ⟨fin, hfin, ?_⟩⟩
      rw [hrows]
      simp only [Database.setArtifact_artifacts, Database.tick_artifacts]
      exact replace_replace _ _ _ _ rfl

/-- The loop of `CloseBucket`, when it ends without error, changed no bucket row and
leaves in a terminal state every artifact row of a bucket all of whose non-terminal
rows were in the list. -/
theorem closeArtifacts_ok (B : String) (l : List Artifact) :
    ∀ {db : Database} {s3 : S3Bucket}, (closeArtifacts l db s3).1 = none →
      (∀ r ∈ db.artifacts, r.BucketId = B → r.State.terminal = true ∨ r ∈ l) →
      (closeArtifacts l db s3).2.1.buckets = db.buckets ∧
      ∀ r ∈ (closeArtifacts l db s3).2.1.artifacts, r.BucketId = B →
        r.State.terminal = true := by
  induction l with
  | nil =>
    intro db s3 _ hinv
    refine ⟨rfl, ?_⟩
    intro r hr hb
    rcases hinv r hr hb with ht | hm
    · exact ht
    · simp at hm
  | cons a rest ih =>
    intro db s3 hok hinv
    rcases herr : (CloseArtifact a db s3 false).err with _ | e
    · have hstep : closeArtifacts (a :: rest) db s3 =
          closeArtifacts rest (CloseArtifact a db s3 false).db
            (CloseArtifact a db s3 false).s3 := by
        simp [closeArtifacts, herr, CloseArtifact_ok_returns herr]
      rw [hstep] at hok ⊢
      obtain ⟨hb, hrows⟩ := CloseArtifact_ok herr
      have hinv2 : ∀ r ∈ (CloseArtifact a db s3 false).db.artifacts, r.BucketId = B →
          r.State.terminal = true ∨ r ∈ rest := by
        intro r hr hrb
        rcases hrows with ⟨hat, hsame⟩ | ⟨fin, hfin, hmap⟩
        · rw [hsame] at hr
          rcases hinv r hr hrb with ht | hm
          · exact Or.inl ht
          · rcases List.mem_cons.mp hm with rfl | hm2
            · exact Or.inl hat
            · exact Or.inr hm2
        · rw [hmap] at hr
          obtain ⟨r0, hr0, hre⟩ := List.mem_map.mp hr
          by_cases hid : r0.Id = a.Id
          · simp only [hid, if_true] at hre
            rw [← hre]
            exact Or.inl hfin
          · simp only [hid, if_false] at hre
            subst hre
            rcases hinv r0 hr0 hrb with ht | hm
            · exact Or.inl ht
            · rcases List.mem_cons.mp hm with rfl | hm2
              · exact absurd rfl hid
              · exact Or.inr hm2
      obtain ⟨hb2, hall⟩ := ih hok hinv2
      exact ⟨hb2.trans hb, hall⟩
    · have hstep : (closeArtifacts (a :: rest) db s3).1 = some e := by
        by_cases hbl : (CloseArtifact a db s3 false).blocked = true
        · simp [closeArtifacts, herr, hbl]
        · simp [closeArtifacts, herr, hbl]
      rw [hstep] at hok
      exact Option.noConfusion hok

theorem terminal_cases {s : ArtifactState} (h : s.terminal = true) :
    s = .UPLOADED ∨ s = .APPEND_COMPLETE ∨ s = .CLOSED_WITHOUT_DATA ∨ s = .ERROR := by
  cases s <;> simp [ArtifactState.terminal] at h ⊢

/-- What a `CloseBucket` call that returns no error leaves behind: the closed bucket,
in memory and in the rows of its id, and terminal states in every artifact row of
the bucket. -/
theorem CloseBucket_ok (bucket : Bucket) (db : Database)
    (s3 : S3Bucket) (clk : Clock) (hopen : bucket.State = .OPEN)
    (hok : (CloseBucket bucket db s3 clk).err = none) :
    (CloseBucket bucket db s3 clk).bucket =
      { bucket with State := .CLOSED, DateClosed := clk.Now } ∧
    (∀ row ∈ (CloseBucket bucket db s3 clk).db.buckets, row.Id = bucket.Id →
      row = { bucket with State := .CLOSED, DateClosed := clk.Now }) ∧
    ((∃ row ∈ db.buckets, row.Id = bucket.Id) →
      { bucket with State := .CLOSED, DateClosed := clk.Now } ∈
        (CloseBucket bucket db s3 clk).db.buckets) ∧
    (∀ a ∈ (CloseBucket bucket db s3 clk).db.artifacts, a.BucketId = bucket.Id →
      a.State = .UPLOADED ∨ a.State = .APPEND_COMPLETE ∨
        a.State = .CLOSED_WITHOUT_DATA ∨ a.State = .ERROR) := by
  obtain ⟨bid, own, dcr, dcl, st⟩ := bucket
  simp only at hopen
  subst hopen
  rcases Database.UpdateBucket_cases db
      (⟨bid, own, dcr, clk.Now, .CLOSED⟩ : Bucket) with ⟨e, hu⟩ | hu
  · simp [CloseBucket, hu] at hok
  rcases Database.ListArtifactsInBucket_cases
      (db.tick.setBucket (⟨bid, own, dcr, clk.Now, .CLOSED⟩ : Bucket)) bid with ⟨e, hl⟩ | hl
  · simp [CloseBucket, hu, hl] at hok
  simp only [CloseBucket, hu, hl, ne_eq, not_true_eq_false, if_false] at hok ⊢
  obtain ⟨hb, hall⟩ := closeArtifacts_ok bid _ hok (by
    intro r hr hrb
    exact Or.inr (List.mem_filter.mpr ⟨hr, by simpa using hrb⟩))
  refine ⟨trivial, ?_, ?_, ?_⟩
  · intro row hrow hid
    rw [hb] at hrow
    obtain ⟨r0, _, hre⟩ := List.mem_map.mp hrow
    by_cases h0 : r0.Id = bid
    · simp only [h0, if_true] at hre
      exact hre.symm
    · simp only [h0, if_false] at hre
      subst hre
      exact absurd hid h0
  · rintro ⟨row, hrow, hid⟩
    rw [hb]
    exact List.mem_map.mpr ⟨row, hrow, by simp [hid]⟩
  · intro a ha hab
    exact terminal_cases (hall a ha hab)

/-- C18. For an `OPEN` bucket and any store contents, when `CloseBucket` returns no
error the bucket is `CLOSED` with `DateClosed` the clock's current time, in memory
and in every persisted row of its id (one exists whenever one existed before), and
every persisted artifact of the bucket is in a terminal state: `UPLOADED`,
`APPEND_COMPLETE`, `CLOSED_WITHOUT_DATA` or `ERROR`. -/
theorem C18_close_bucket_leaves_terminal (bucket : Bucket) (db : Database)
    (s3 : S3Bucket) (clk : Clock) (hopen : bucket.State = .OPEN)
    (hok : (CloseBucket bucket db s3 clk).err = none) :
    (CloseBucket bucket db s3 clk).bucket =
      { bucket with State := .CLOSED, DateClosed := clk.Now } ∧
    (∀ row ∈ (CloseBucket bucket db s3 clk).db.buckets, row.Id = bucket.Id →
      row = { bucket with State := .CLOSED, DateClosed := clk.Now }) ∧
    ((∃ row ∈ db.buckets, row.Id = bucket.Id) →
      { bucket with State := .CLOSED, DateClosed := clk.Now } ∈
        (CloseBucket bucket db s3 clk).db.buckets) ∧
    (∀ a ∈ (CloseBucket bucket db s3 clk).db.artifacts, a.BucketId = bucket.Id →
      a.State = .UPLOADED ∨ a.State = .APPEND_COMPLETE ∨
        a.State = .CLOSED_WITHOUT_DATA ∨ a.State = .ERROR) :=
  CloseBucket_ok bucket db s3 clk hopen hok

/-- Scenario S7 as an instance of C18: closing bucket `"B"` merges `"log"` (content
`"z"`) to `UPLOADED` and closes the never-uploaded `"a.bin"` without data. -/
theorem C18_close_bucket_leaves_terminal_witness :
    (CloseBucket exBucket exStoreS7 exS3 exClock).err = none ∧
    (CloseBucket exBucket exStoreS7 exS3 exClock).db.buckets =
      [{ exBucket with State := .CLOSED, DateClosed := 42 }] ∧
    (CloseBucket exBucket exStoreS7 exS3 exClock).db.artifacts =
      [{ exLogZ with State := .UPLOADED, S3URL := "/B/log/1" },
       { exBin with State := .CLOSED_WITHOUT_DATA }] ∧
    (CloseBucket exBucket exStoreS7 exS3 exClock).s3.GetReader "/B/log/1" = .ok "z" ∧
    (∀ a ∈ (CloseBucket exBucket exStoreS7 exS3 exClock).db.artifacts,
      a.BucketId = exBucket.Id →
      a.State = .UPLOADED ∨ a.State = .APPEND_COMPLETE ∨
        a.State = .CLOSED_WITHOUT_DATA ∨ a.State = .ERROR) :=
  ⟨by decide, by decide, by decide, rfl,
   (C18_close_bucket_leaves_terminal exBucket exStoreS7 exS3 exClock rfl (by decide)).2.2.2⟩

theorem Database.UpdateBucket_of_healthy {db : Database} (h : db.healthy) (b : Bucket) :
    db.UpdateBucket b = (none, db.tick.setBucket b) := by
  rcases Database.UpdateBucket_cases db b with ⟨e, hu⟩ | hu
  · have hn := Database.nextFault_of_healthy h
    simp [Database.UpdateBucket, hn] at hu
  · exact hu

theorem Database.ListArtifactsInBucket_of_healthy {db : Database} (h : db.healthy)
    (bucketId : String) :
    db.ListArtifactsInBucket bucketId =
      (.ok (db.artifacts.filter (fun a => a.BucketId = bucketId)), db.tick) := by
  rcases Database.ListArtifactsInBucket_cases db bucketId with ⟨e, hu⟩ | hu
  · have hn := Database.nextFault_of_healthy h
    simp [Database.ListArtifactsInBucket, hn] at hu
  · exact hu

theorem Database.setBucket_healthy {db : Database} (h : db.healthy) (b : Bucket) :
    (db.setBucket b).healthy := h

/-- The loop of `CloseBucket` over artifacts that are all `UPLOADED` or
`APPEND_COMPLETE` returns no error and writes nothing. -/
theorem closeArtifacts_noop (l : List Artifact) (db : Database) (s3 : S3Bucket)
    (h : ∀ a ∈ l, a.State = .UPLOADED ∨ a.State = .APPEND_COMPLETE) :
    closeArtifacts l db s3 = (none, db, s3, false) := by
  induction l with
  | nil => rfl
  | cons a rest ih =>
    have ha := h a (by simp)
    have hclose : CloseArtifact a db s3 false =
        { err := none, artifact := a, db := db, s3 := s3 } := by
      rcases ha with ha | ha <;> simp [CloseArtifact, ha]
    simp only [closeArtifacts, hclose, Bool.false_eq_true, if_false]
    exact ih (fun x hx => h x (List.mem_cons_of_mem _ hx))

/-- For an `OPEN` bucket all of whose artifacts are already `UPLOADED` or
`APPEND_COMPLETE`, with store operations succeeding, `CloseBucket` returns success:
the cascade does not fail on such an artifact and writes nothing for it, neither to
the artifact rows nor to the object store. -/
theorem CloseBucket_over_shipped_artifacts (bucket : Bucket) (db : Database)
    (s3 : S3Bucket) (clk : Clock) (hopen : bucket.State = .OPEN) (hdb : db.healthy)
    (hall : ∀ a ∈ db.artifacts, a.BucketId = bucket.Id →
      a.State = .UPLOADED ∨ a.State = .APPEND_COMPLETE) :
    (CloseBucket bucket db s3 clk).err = none ∧
    (CloseBucket bucket db s3 clk).db.artifacts = db.artifacts ∧
    (CloseBucket bucket db s3 clk).s3 = s3 := by
  obtain ⟨bid, own, dcr, dcl, st⟩ := bucket
  simp only at hopen hall
  subst hopen
  have h1 := Database.setBucket_healthy (Database.tick_healthy hdb)
    (⟨bid, own, dcr, clk.Now, .CLOSED⟩ : Bucket)
  have hu := Database.UpdateBucket_of_healthy hdb (⟨bid, own, dcr, clk.Now, .CLOSED⟩ : Bucket)
  have hl := Database.ListArtifactsInBucket_of_healthy h1 bid
  have hloop := closeArtifacts_noop
    ((db.tick.setBucket (⟨bid, own, dcr, clk.Now, .CLOSED⟩ : Bucket)).artifacts.filter
      (fun a => a.BucketId = bid))
    (db.tick.setBucket (⟨bid, own, dcr, clk.Now, .CLOSED⟩ : Bucket)).tick s3 (by
      intro a ha
      obtain ⟨hmem, hb⟩ := List.mem_filter.mp ha
      exact hall a hmem (by simpa using hb))
  simp only [CloseBucket, hu, hl, hloop, ne_eq, not_true_eq_false, if_false]
  exact ⟨trivial, rfl, trivial⟩

/-- Bucket `"B"` holding an `UPLOADED` and an `APPEND_COMPLETE` artifact closes
without error. -/
theorem CloseBucket_over_shipped_artifacts_example :
    (CloseBucket exBucket exStoreAllUploaded exS3 exClock).err = none ∧
    (CloseBucket exBucket exStoreAllUploaded exS3 exClock).db.artifacts =
      exStoreAllUploaded.artifacts ∧
    (CloseBucket exBucket exStoreAllUploaded exS3 exClock).s3 = exS3 :=
  CloseBucket_over_shipped_artifacts exBucket exStoreAllUploaded exS3 exClock rfl
    (by decide) (by decide)

/-- C19, at the failing input. The open bucket `"B"` holds `"a.bin"`, closed without
data, and the appending `"log"`, on a store that serves every call: `CloseBucket`
does not return success, it returns the error `CloseArtifact` gives for the artifact
that is closed already (the `failIfAlreadyClosed = false` it passes is never read),
and it returns: by then the bucket is persisted `CLOSED`, and `"log"`, never reached
by the loop, stays `APPENDING`. -/
theorem C19_close_bucket_fails_on_closed_artifact :
    exBucket.State = .OPEN ∧ exStoreClosedThenLog.healthy ∧
    exStoreClosedThenLog.artifacts = [exBinClosed, exLogZ] ∧
    exBinClosed.State = .CLOSED_WITHOUT_DATA ∧ exBinClosed.State.terminal = true ∧
    (CloseArtifact exBinClosed exStoreClosedThenLog exS3 false).err =
      some "Unexpected artifact state: CLOSED_WITHOUT_DATA" ∧
    (CloseBucket exBucket exStoreClosedThenLog exS3 exClock).blocked = false ∧
    (CloseBucket exBucket exStoreClosedThenLog exS3 exClock).err =
      some "Unexpected artifact state: CLOSED_WITHOUT_DATA" ∧
    (CloseBucket exBucket exStoreClosedThenLog exS3 exClock).db.buckets =
      [{ exBucket with State := .CLOSED, DateClosed := 42 }] ∧
    (CloseBucket exBucket exStoreClosedThenLog exS3 exClock).db.artifacts =
      [exBinClosed, exLogZ] ∧
    exLogZ.State = .APPENDING ∧
    (CloseBucket exBucket exStoreClosedThenLog exS3 exClock).s3 = exS3 := by
  decide

/-- The same on `ERROR`: the open bucket `"B"` holds one artifact, in the terminal
state `ERROR`, the store serves every call, and `CloseBucket` returns the error of
`CloseArtifact`, the bucket itself being persisted `CLOSED` by then. -/
theorem CloseBucket_fails_on_error_artifact :
    exBucket.State = .OPEN ∧ exStoreError.healthy ∧
    (∀ a ∈ exStoreError.artifacts, a.BucketId = exBucket.Id → a.State.terminal = true) ∧
    (CloseBucket exBucket exStoreError exS3 exClock).err =
      some "Unexpected artifact state: ERROR" ∧
    (CloseBucket exBucket exStoreError exS3 exClock).db.buckets =
      [{ exBucket with State := .CLOSED, DateClosed := 42 }] := by
  decide

/-- C20. For a bucket that is not `OPEN`, `CloseBucket` returns an error and leaves
the bucket (its `State` and `DateClosed`), the store and the object store exactly as
they were: nothing is written and no artifact is closed.  Hence after a successful
`CloseBucket` a second one fails, on the bucket as the first call left it and on
every persisted row of its id. -/
theorem C20_close_bucket_not_open (bucket : Bucket) (db : Database) (s3 : S3Bucket)
    (clk : Clock) :
    (bucket.State ≠ .OPEN →
      CloseBucket bucket db s3 clk =
        { err := some (Errorf "Bucket is already closed" []), bucket := bucket, db := db,
          s3 := s3 }) ∧
    ((CloseBucket bucket db s3 clk).err = none →
      ∀ (db2 : Database) (s32 : S3Bucket) (clk2 : Clock),
        CloseBucket (CloseBucket bucket db s3 clk).bucket db2 s32 clk2 =
          { err := some (Errorf "Bucket is already closed" []),
            bucket := (CloseBucket bucket db s3 clk).bucket, db := db2, s3 := s32 } ∧
        ∀ row ∈ (CloseBucket bucket db s3 clk).db.buckets, row.Id = bucket.Id →
          CloseBucket row db2 s32 clk2 =
            { err := some (Errorf "Bucket is already closed" []), bucket := row,
              db := db2, s3 := s32 }) := by
  have hrej : ∀ (b : Bucket) (d : Database) (s : S3Bucket) (c : Clock),
      b.State ≠ .OPEN →
      CloseBucket b d s c =
        { err := some (Errorf "Bucket is already closed" []), bucket := b, db := d,
          s3 := s } := by
    intro b d s c h
    simp [CloseBucket, h]
  refine ⟨hrej bucket db s3 clk, ?_⟩
  intro hok db2 s32 clk2
  by_cases hopen : bucket.State = .OPEN
  · obtain ⟨hb, hrows, _, _⟩ := CloseBucket_ok bucket db s3 clk hopen hok
    refine ⟨hrej _ _ _ _ (by rw [hb]; simp), ?_⟩
    intro row hrow hid
    exact hrej _ _ _ _ (by rw [hrows row hrow hid]; simp)
  · rw [hrej bucket db s3 clk hopen] at hok
    exact Option.noConfusion hok

/-- Instances of C20: the closed bucket `"B"` is refused with nothing changed, and
after the close of scenario S7 a second close is refused. -/
theorem C20_close_bucket_not_open_witness :
    CloseBucket exBucketClosed exStoreS7 exS3 exClock =
      { err := some (Errorf "Bucket is already closed" []), bucket := exBucketClosed,
        db := exStoreS7, s3 := exS3 } ∧
    CloseBucket (CloseBucket exBucket exStoreS7 exS3 exClock).bucket
        (CloseBucket exBucket exStoreS7 exS3 exClock).db
        (CloseBucket exBucket exStoreS7 exS3 exClock).s3 exClock =
      { err := some (Errorf "Bucket is already closed" []),
        bucket := (CloseBucket exBucket exStoreS7 exS3 exClock).bucket,
        db := (CloseBucket exBucket exStoreS7 exS3 exClock).db,
        s3 := (CloseBucket exBucket exStoreS7 exS3 exClock).s3 } :=
  have h := C20_close_bucket_not_open exBucket exStoreS7 exS3 exClock
  ⟨(C20_close_bucket_not_open exBucketClosed exStoreS7 exS3 exClock).1 (by decide),
   (h.2 (by decide) _ _ exClock).1⟩

/-! ## Test server: the expectation queue -/

theorem TestServer.expect_reqChain (ts : TestServer) (e : Expectation) :
    (ts.expect e).reqChain = ts.reqChain ++ [e.entry] := by
  cases e <;> rfl

theorem TestServer.expectAll_reqChain (es : List Expectation) :
    ∀ ts : TestServer, (ts.expectAll es).reqChain = ts.reqChain ++ es.map Expectation.entry := by
  induction es with
  | nil => intro ts; simp [TestServer.expectAll]
  | cons e es ih =>
    intro ts
    have h := ih (ts.expect e)
    simp only [TestServer.expectAll, List.foldl_cons] at h ⊢
    rw [h, TestServer.expect_reqChain]
    simp

/-- After `k` pops the queue holds what was behind its first `k` entries. -/
theorem TestServer.popAll_reqChain (k : Nat) :
    ∀ ts : TestServer, (TestServer.popAll k ts).2.reqChain = ts.reqChain.drop k := by
  induction k with
  | zero => intro ts; rfl
  | succ k ih =>
    intro ts
    obtain ⟨q⟩ := ts
    cases q with
    | nil =>
      have h := ih ⟨[]⟩
      simp only [TestServer.popAll, TestServer.popNextReq]
      rw [h]
      simp
    | cons r q =>
      have h := ih ⟨q⟩
      simp only [TestServer.popAll, TestServer.popNextReq]
      rw [h]
      simp

/-- As many pops as the queue has entries return the entries, front first, each with
`ok = true`. -/
theorem TestServer.popAll_entries (q : List request) :
    (TestServer.popAll q.length ⟨q⟩).1 = q.map (fun r => (r, true)) := by
  induction q with
  | nil => rfl
  | cons r q ih =>
    simp only [List.length_cons, TestServer.popAll, TestServer.popNextReq, List.map_cons]
    rw [ih]

theorem asRegistered_entry (es : List Expectation) :
    List.Forall₂ asRegistered es (es.map (fun e => (e.entry, true))) := by
  induction es with
  | nil => exact List.Forall₂.nil
  | cons e es ih =>
    refine List.Forall₂.cons ?_ ih
    cases e <;> simp [asRegistered, Expectation.entry]

theorem TestServer.CloseAndAssertExpectations_eq_none (ts : TestServer) :
    ts.CloseAndAssertExpectations = none ↔ ts.reqChain = [] := by
  obtain ⟨q⟩ := ts
  cases q <;> simp [TestServer.CloseAndAssertExpectations]

/-- C21. The expectation queue of the test server is first-in first-out.  For every
sequence of registrations made through `ExpectAndRespond` / `ExpectAndHang` on a
fresh server, as many `popNextReq` calls as there are registrations return them in
registration order, each with `ok = true` and the registered fields (`shouldHang`
true exactly for `ExpectAndHang`); one more pop returns `ok = false` and leaves the
server as it is; and after `k` pops the queue is empty, and
`CloseAndAssertExpectations` raises no failure, exactly when all registrations have
been consumed. -/
theorem C21_expectation_queue_is_fifo (es : List Expectation) :
    List.Forall₂ asRegistered es
      ((NewTestServer.expectAll es).popAll es.length).1 ∧
    ((NewTestServer.expectAll es).popAll es.length).1.length = es.length ∧
    ((NewTestServer.expectAll es).popAll es.length).2.popNextReq.2.1 = false ∧
    ((NewTestServer.expectAll es).popAll es.length).2.popNextReq.2.2 =
      ((NewTestServer.expectAll es).popAll es.length).2 ∧
    (∀ k : Nat, ((NewTestServer.expectAll es).popAll k).2.reqChain = [] ↔ es.length ≤ k) ∧
    (∀ k : Nat, ((NewTestServer.expectAll es).popAll k).2.CloseAndAssertExpectations = none ↔
      es.length ≤ k) := by
  have hchain : (NewTestServer.expectAll es).reqChain = es.map Expectation.entry := by
    rw [TestServer.expectAll_reqChain]
    rfl
  have hts : NewTestServer.expectAll es = ⟨es.map Expectation.entry⟩ := by
    rcases h : NewTestServer.expectAll es with ⟨q⟩
    rw [h] at hchain
    simp only at hchain
    rw [hchain]
  have hpops : ((NewTestServer.expectAll es).popAll es.length).1 =
      es.map (fun e => (e.entry, true)) := by
    have h := TestServer.popAll_entries (es.map Expectation.entry)
    rw [List.length_map] at h
    rw [hts, h, List.map_map]
    rfl
  have hdrop : ∀ k : Nat, ((NewTestServer.expectAll es).popAll k).2.reqChain = [] ↔
      es.length ≤ k := by
    intro k
    rw [TestServer.popAll_reqChain, hchain, List.drop_eq_nil_iff, List.length_map]
  have hend : ((NewTestServer.expectAll es).popAll es.length).2 = ⟨[]⟩ := by
    have h := (hdrop es.length).mpr (Nat.le_refl _)
    rcases h2 : (NewTestServer.expectAll es).popAll es.length with ⟨l, ⟨q⟩⟩
    rw [h2] at h
    simp only at h
    rw [h]
  refine ⟨?_, ?_, ?_, ?_, hdrop, ?_⟩
  · rw [hpops]
    exact asRegistered_entry es
  · rw [hpops, List.length_map]
  · rw [hend]
    rfl
  · rw [hend]
    rfl
  · intro k
    rw [TestServer.CloseAndAssertExpectations_eq_none]
    exact hdrop k

/-- The registrations of three expectations as an instance of C21: three pops return
them in order, the hang in the middle, and the queue is empty then and not before. -/
theorem C21_expectation_queue_is_fifo_witness :
    ((NewTestServer.expectAll exExpectations).popAll 3).1 =
      [(⟨"GET", "/buckets", 200, "[]", false⟩, true),
       (⟨"POST", "/buckets", 0, "", true⟩, true),
       (⟨"GET", "/buckets/B", 404, "", false⟩, true)] ∧
    List.Forall₂ asRegistered exExpectations
      ((NewTestServer.expectAll exExpectations).popAll exExpectations.length).1 ∧
    (((NewTestServer.expectAll exExpectations).popAll 2).2.reqChain = [] ↔
      exExpectations.length ≤ 2) :=
  have h := C21_expectation_queue_is_fifo exExpectations
  ⟨by decide, h.1, h.2.2.2.2.1 2⟩

/-! ## Chunk append path: a failing insert -/

/-- The outcome of an append that grows the artifact when the store serves the cursor
lookup and the artifact update and then fails the chunk insert. -/
theorem AppendLogChunk_insert_fails {db : Database} {a : Artifact} {c : LogChunk}
    {e : DatabaseError} {rest : List (Option DatabaseError)}
    (hstate : a.State = .APPENDING) (hsize : 0 < c.Size) (hcontent : c.Content ≠ "")
    (hlen : len c.Content = c.Size) (hoff : c.ByteOffset = db.lastByteSeen a.Id)
    (hf : db.faults = none :: none :: some e :: rest)
    (hgrow : a.Size < add64 c.ByteOffset c.Size) :
    AppendLogChunk db a c =
      { err := some ⟨400, Sprintf "Error updating log chunk: %s" [e.Error]⟩,
        artifact := { a with Size := add64 c.ByteOffset c.Size },
        logChunk := { c with ArtifactId := a.Id },
        db := Database.setArtifact { db with faults := rest }
          { a with Size := add64 c.ByteOffset c.Size } } := by
  obtain ⟨bs, arts, chunks, f⟩ := db
  simp only at hf
  subst hf
  obtain ⟨aid, bid, nm, sz, dl, dc, st, url⟩ := a
  simp only at hstate hgrow hoff
  subst hstate
  have hoff2 : Database.lastByteSeen ⟨bs, arts, chunks, none :: some e :: rest⟩ aid =
      c.ByteOffset := hoff.symm
  simp [AppendLogChunk, not_le.mpr hsize, hcontent, hlen,
    Database.GetLastByteSeenForArtifact, Database.nextFault, hoff2, hgrow,
    Database.UpdateArtifact, Database.InsertLogChunk, Database.setArtifact, NewHttpError,
    StatusBadRequest]

/-- C22. `AppendLogChunk` is not atomic on store failure.  Take an `APPENDING`
artifact that is the persisted row of its id and whose `Size` equals the sum of its
stored chunk sizes and the append cursor, a valid chunk at the cursor, and a store
that serves the cursor lookup and `UpdateArtifact` and then fails `InsertLogChunk`:
`AppendLogChunk` returns a 400 error, no chunk is stored, and yet the persisted
`Artifact.Size` has been raised to `ByteOffset + Size`, which exceeds both the sum of
the stored chunk sizes and the append cursor. -/
theorem C22_append_not_atomic (db : Database) (a : Artifact) (c : LogChunk)
    (e : DatabaseError) (rest : List (Option DatabaseError))
    (hstate : a.State = .APPENDING) (hsize : 0 < c.Size) (hcontent : c.Content ≠ "")
    (hlen : len c.Content = c.Size) (hoff : c.ByteOffset = db.lastByteSeen a.Id)
    (hcur : a.Size = db.lastByteSeen a.Id) (hsum : a.Size = totalSize (db.chunksOf a.Id))
    (hrange : inInt64 (c.ByteOffset + c.Size)) (hrow : db.rowsOf a.Id = [a])
    (hf : db.faults = none :: none :: some e :: rest) :
    (AppendLogChunk db a c).err =
      some ⟨400, Sprintf "Error updating log chunk: %s" [e.Error]⟩ ∧
    (AppendLogChunk db a c).db.logChunks = db.logChunks ∧
    (AppendLogChunk db a c).db.rowsOf a.Id =
      [{ a with Size := c.ByteOffset + c.Size }] ∧
    (∀ row ∈ (AppendLogChunk db a c).db.rowsOf a.Id,
      totalSize ((AppendLogChunk db a c).db.chunksOf a.Id) < row.Size ∧
      (AppendLogChunk db a c).db.lastByteSeen a.Id < row.Size) := by
  have hadd := add64_of_inInt64 hrange
  have hgrow : a.Size < add64 c.ByteOffset c.Size := by
    rw [hadd]
    omega
  rw [AppendLogChunk_insert_fails hstate hsize hcontent hlen hoff hf hgrow, hadd]
  have hrows : (Database.setArtifact { db with faults := rest }
      { a with Size := c.ByteOffset + c.Size }).rowsOf a.Id =
      [{ a with Size := c.ByteOffset + c.Size }] := by
    rw [Database.rowsOf_setArtifact_of_id _ rfl]
    show (db.rowsOf a.Id).map _ = _
    rw [hrow]
    rfl
  refine ⟨rfl, rfl, hrows, ?_⟩
  intro row hmem
  simp only at hmem
  rw [hrows] at hmem
  rw [List.mem_singleton.mp hmem]
  constructor
  · show totalSize (db.chunksOf a.Id) < c.ByteOffset + c.Size
    omega
  · show db.lastByteSeen a.Id < c.ByteOffset + c.Size
    omega

/-- An instance of C22: the first chunk `"abc"` of `"log"` on a store that fails the
chunk insert is refused with 400, the artifact row nevertheless says `Size = 3` and
no chunk is stored. -/
theorem C22_append_not_atomic_witness :
    (AppendLogChunk exStoreFlaky exLogNew exChunkAbcIn).err =
      some ⟨400, Sprintf "Error updating log chunk: %s" [exStoreDown.Error]⟩ ∧
    (AppendLogChunk exStoreFlaky exLogNew exChunkAbcIn).db.logChunks = [] ∧
    (AppendLogChunk exStoreFlaky exLogNew exChunkAbcIn).db.rowsOf exLogNew.Id =
      [{ exLogNew with Size := 3 }] ∧
    (AppendLogChunk exStoreFlaky exLogNew exChunkAbcIn).db.lastByteSeen exLogNew.Id = 0 :=
  have h := C22_append_not_atomic exStoreFlaky exLogNew exChunkAbcIn exStoreDown []
    rfl (by decide) (by decide) (by decide) (by decide) (by decide) (by decide)
    (by decide) (by decide) rfl
  ⟨h.1, h.2.1, h.2.2.1, by decide⟩

/-! ## Size law on any store -/

theorem Database.InsertLogChunk_cases (db : Database) (c : LogChunk) :
    (∃ e, db.InsertLogChunk c = (some e, c, db.tick)) ∨
      db.InsertLogChunk c = (none, db.tick.stamp c, db.tick.addChunk c) := by
  unfold Database.InsertLogChunk
  rcases Database.nextFault_cases db with ⟨e, h⟩ | h
  · exact Or.inl ⟨e, by rw [h]⟩
  · exact Or.inr (by rw [h])

theorem Database.GetLastByteSeenForArtifact_cases (db : Database) (id : Int) :
    (∃ e, db.GetLastByteSeenForArtifact id = (.error e, db.tick)) ∨
      db.GetLastByteSeenForArtifact id = (.ok (db.tick.lastByteSeen id), db.tick) := by
  unfold Database.GetLastByteSeenForArtifact
  rcases Database.nextFault_cases db with ⟨e, h⟩ | h
  · exact Or.inl ⟨e, by rw [h]⟩
  · exact Or.inr (by rw [h])

/-- The listing of an artifact's chunks holds exactly its chunk rows. -/
theorem Database.mem_chunksOf (db : Database) (id : Int) (c : LogChunk) :
    c ∈ db.chunksOf id ↔ c ∈ db.logChunks ∧ c.ArtifactId = id := by
  unfold Database.chunksOf
  rw [(List.perm_insertionSort _ _).mem_iff, List.mem_filter]
  simp

/-- Whatever the store does, `AppendLogChunk` keeps the state and the id of the
artifact, and the chunk rows are as before or have gained the offered chunk, bound to
the artifact, whose content then is as long as its `Size`. -/
theorem AppendLogChunk_any (db : Database) (a : Artifact) (c : LogChunk) :
    (AppendLogChunk db a c).artifact.State = a.State ∧
    (AppendLogChunk db a c).artifact.Id = a.Id ∧
    ((AppendLogChunk db a c).db.logChunks = db.logChunks ∨
      (len c.Content = c.Size ∧
        ∃ x : LogChunk, x.ArtifactId = a.Id ∧ x.Content = c.Content ∧ x.Size = c.Size ∧
          (AppendLogChunk db a c).db.logChunks = db.logChunks ++ [x])) := by
  unfold AppendLogChunk
  by_cases h1 : a.State ≠ .APPENDING
  · rw [if_pos h1]
    exact ⟨rfl, rfl, Or.inl rfl⟩
  rw [if_neg h1]
  by_cases h2 : c.Size ≤ 0
  · rw [if_pos h2]
    exact ⟨rfl, rfl, Or.inl rfl⟩
  rw [if_neg h2]
  by_cases h3 : c.Content = ""
  · rw [if_pos h3]
    exact ⟨rfl, rfl, Or.inl rfl⟩
  rw [if_neg h3]
  by_cases h4 : len c.Content ≠ c.Size
  · rw [if_pos h4]
    exact ⟨rfl, rfl, Or.inl rfl⟩
  rw [if_neg h4]
  have hlen : len c.Content = c.Size := not_not.mp h4
  rcases Database.GetLastByteSeenForArtifact_cases db a.Id with ⟨e, hg⟩ | hg
  · rw [hg]
    exact ⟨rfl, rfl, Or.inl rfl⟩
  rw [hg]
  simp only []
  by_cases h5 : db.tick.lastByteSeen a.Id ≠ c.ByteOffset
  · rw [if_pos h5]
    exact ⟨rfl, rfl, Or.inl rfl⟩
  rw [if_neg h5]
  by_cases h6 : a.Size < add64 c.ByteOffset c.Size
  · rw [if_pos h6]
    rcases Database.UpdateArtifact_cases db.tick
        { a with Size := add64 c.ByteOffset c.Size } with ⟨e, hu⟩ | hu
    · rw [hu]
      exact ⟨rfl, rfl, Or.inl rfl⟩
    rw [hu]
    simp only []
    rcases Database.InsertLogChunk_cases
        (db.tick.tick.setArtifact { a with Size := add64 c.ByteOffset c.Size })
        { c with ArtifactId := a.Id } with ⟨e, hi⟩ | hi
    · rw [hi]
      exact ⟨rfl, rfl, Or.inl rfl⟩
    · rw [hi]
      exact ⟨rfl, rfl, Or.inr ⟨hlen,
        (db.tick.tick.setArtifact { a with Size := add64 c.ByteOffset c.Size }).tick.stamp
          { c with ArtifactId := a.Id }, rfl, rfl, rfl, rfl⟩⟩
  · rw [if_neg h6]
    rcases Database.InsertLogChunk_cases db.tick { c with ArtifactId := a.Id }
      with ⟨e, hi⟩ | hi
    · rw [hi]
      exact ⟨rfl, rfl, Or.inl rfl⟩
    · rw [hi]
      exact ⟨rfl, rfl, Or.inr ⟨hlen, db.tick.tick.stamp { c with ArtifactId := a.Id },
        rfl, rfl, rfl, rfl⟩⟩

/-- Whatever the store does, a run of appends keeps the state and the id of the
artifact, and leaves every chunk row of the artifact with a content as long as its
`Size`, if that was so before. -/
theorem appendAll_any (cs : List LogChunk) :
    ∀ (db : Database) (a : Artifact),
      (∀ c ∈ db.logChunks, c.ArtifactId = a.Id → len c.Content = c.Size) →
      (appendAll db a cs).1.State = a.State ∧ (appendAll db a cs).1.Id = a.Id ∧
      ∀ c ∈ (appendAll db a cs).2.logChunks, c.ArtifactId = a.Id →
        len c.Content = c.Size := by
  induction cs with
  | nil => intro db a h; exact ⟨rfl, rfl, h⟩
  | cons c cs ih =>
    intro db a h
    obtain ⟨hs, hid, hrows⟩ := AppendLogChunk_any db a c
    have hvalid : ∀ x ∈ (AppendLogChunk db a c).db.logChunks,
        x.ArtifactId = (AppendLogChunk db a c).artifact.Id → len x.Content = x.Size := by
      intro x hx hxa
      rw [hid] at hxa
      rcases hrows with hsame | ⟨hlen, y, _, hyc, hys, happ⟩
      · rw [hsame] at hx
        exact h x hx hxa
      · rw [happ] at hx
        rcases List.mem_append.mp hx with hx | hx
        · exact h x hx hxa
        · rw [List.mem_singleton.mp hx, hyc, hys]
          exact hlen
    obtain ⟨hs2, hid2, hv2⟩ := ih _ _ hvalid
    refine ⟨?_, ?_, ?_⟩
    · simp only [appendAll]; rw [hs2, hs]
    · simp only [appendAll]; rw [hid2, hid]
    · intro x hx hxa
      simp only [appendAll] at hx
      exact hv2 x hx (by rw [hid]; exact hxa)

/-- Whatever the store does, a chunked creation that is accepted returns an
`APPENDING` artifact. -/
theorem CreateArtifact_chunked_state {now : Nat} {req : CreateArtifactReq}
    {bucket : Bucket} {db db0 : Database} {a : Artifact} (hreq : req.Chunked = true)
    (hc : CreateArtifact now req bucket db = (.ok a, db0)) : a.State = .APPENDING := by
  unfold CreateArtifact at hc
  split at hc
  · simp at hc
  split at hc
  · simp at hc
  split at hc
  · simp at hc
  · rename_i e db1 hget
    simp only [hreq, if_true] at hc
    rcases Database.InsertArtifact_cases db1
        { Id := 0, BucketId := bucket.Id, Name := req.Name, Size := 0,
          DeadlineMins := if req.DeadlineMins = 0 then DEFAULT_DEADLINE else req.DeadlineMins,
          DateCreated := now, State := .APPENDING, S3URL := "" } with ⟨e2, hi⟩ | hi
    · rw [hi] at hc
      simp at hc
    · rw [hi] at hc
      simp only [Prod.mk.injEq, Except.ok.injEq] at hc
      rw [← hc.1]
      rfl

/-- Whatever the store and the object store do, the merge of an `APPEND_COMPLETE`
artifact makes at most one `PutReader` call, which declares the length
`Artifact.Size` over the stream of the listed chunks, and changes no chunk row; if it
leaves the artifact `UPLOADED`, the stream is stored under the key of the artifact
and is as long as declared. -/
theorem MergeLogChunks_calls {a : Artifact} {db : Database} (s3 : S3Bucket)
    (hstate : a.State = .APPEND_COMPLETE) :
    ∃ newCalls : List PutCall,
      (MergeLogChunks a db s3).s3.calls = s3.calls ++ newCalls ∧
      (∀ p ∈ newCalls, p.length = a.Size ∧ p.data = pipeWrites (db.chunksOf a.Id)) ∧
      (MergeLogChunks a db s3).db.logChunks = db.logChunks ∧
      ((MergeLogChunks a db s3).artifact.State = .UPLOADED →
        (MergeLogChunks a db s3).s3.GetReader a.DefaultS3URL =
          .ok (pipeWrites (db.chunksOf a.Id)) ∧
        len (pipeWrites (db.chunksOf a.Id)) = a.Size) := by
  obtain ⟨aid, bid, nm, sz, dl, dc, st, url⟩ := a
  simp only at hstate
  subst hstate
  by_cases hsz : sz = 0
  · subst hsz
    rcases Database.UpdateArtifact_cases db
        (⟨aid, bid, nm, 0, dl, dc, .CLOSED_WITHOUT_DATA, ""⟩ : Artifact) with ⟨e, hu⟩ | hu
    · simp only [MergeLogChunks, hu, if_true]
      exact ⟨[], by simp, by simp, rfl, by simp⟩
    · simp only [MergeLogChunks, hu, if_true]
      exact ⟨[], by simp, by simp, rfl, by simp⟩
  · rcases Database.UpdateArtifact_cases db
        (⟨aid, bid, nm, sz, dl, dc, .UPLOADING, url⟩ : Artifact) with ⟨e, hu⟩ | hu
    · simp only [MergeLogChunks, hsz, hu, if_false]
      exact ⟨[], by simp, by simp, rfl, by simp⟩
    rcases Database.ListLogChunksInArtifact_cases
        (db.tick.setArtifact (⟨aid, bid, nm, sz, dl, dc, .UPLOADING, url⟩ : Artifact)) aid
      with ⟨e, hl⟩ | hl
    · simp only [MergeLogChunks, hsz, hu, hl, if_false]
      exact ⟨[], by simp, by simp, rfl, by simp⟩
    have hcalls := S3Bucket.PutReader_calls s3
      (Artifact.DefaultS3URL ⟨aid, bid, nm, sz, dl, dc, .UPLOADING, url⟩)
      (pipeWrites (db.chunksOf aid)) sz "binary/octet-stream" PublicRead
    have hkey : Artifact.DefaultS3URL ⟨aid, bid, nm, sz, dl, dc, .APPEND_COMPLETE, url⟩ =
        Artifact.DefaultS3URL ⟨aid, bid, nm, sz, dl, dc, .UPLOADING, url⟩ := rfl
    have hany : ∀ (k : String), ∀ p ∈ [(⟨k, pipeWrites (db.chunksOf aid), sz,
        "binary/octet-stream", PublicRead⟩ : PutCall)],
        p.length = sz ∧ p.data = pipeWrites (db.chunksOf aid) := by
      intro k p hp
      rw [List.mem_singleton.mp hp]
      exact ⟨rfl, rfl⟩
    have hone := hany (Artifact.DefaultS3URL ⟨aid, bid, nm, sz, dl, dc, .UPLOADING, url⟩)
    rcases hp : s3.PutReader
        (Artifact.DefaultS3URL ⟨aid, bid, nm, sz, dl, dc, .UPLOADING, url⟩)
        (pipeWrites (db.chunksOf aid))
        sz "binary/octet-stream" PublicRead with ⟨res, s3b⟩
    rw [hp] at hcalls
    simp only at hcalls
    by_cases hread : s3.taken sz < len (pipeWrites (db.chunksOf aid))
    · simp only [MergeLogChunks, hsz, hu, hl, Database.setArtifact_chunksOf,
        Database.tick_chunksOf, hp, hread, if_true, if_false]
      exact ⟨_, hcalls, hone, rfl, by simp⟩
    cases res with
    | some e =>
      simp only [MergeLogChunks, hsz, hu, hl, Database.setArtifact_chunksOf,
        Database.tick_chunksOf, hp, hread, if_false]
      exact ⟨_, hcalls, hone, rfl, by simp⟩
    | none =>
      have hok := @S3Bucket.PutReader_ok s3
        (Artifact.DefaultS3URL ⟨aid, bid, nm, sz, dl, dc, .UPLOADING, url⟩)
        (pipeWrites (db.chunksOf aid)) sz "binary/octet-stream" PublicRead (by rw [hp])
      rw [hp] at hok
      simp only at hok
      rcases Database.UpdateArtifact_cases
          (db.tick.setArtifact (⟨aid, bid, nm, sz, dl, dc, .UPLOADING, url⟩ : Artifact)).tick
          (⟨aid, bid, nm, sz, dl, dc, .UPLOADED,
            Artifact.DefaultS3URL ⟨aid, bid, nm, sz, dl, dc, .UPLOADING, url⟩⟩ : Artifact)
        with ⟨e, hu2⟩ | hu2
      · simp only [MergeLogChunks, hsz, hu, hl, Database.setArtifact_chunksOf,
          Database.tick_chunksOf, hp, hu2, hread, if_false, hkey]
        exact ⟨_, hcalls, hone, rfl, fun _ => ⟨hok.2, hok.1⟩⟩
      · simp only [MergeLogChunks, hsz, hu, hl, Database.setArtifact_chunksOf,
          Database.tick_chunksOf, hp, hu2, hread, if_false, hkey]
        exact ⟨_, hcalls, hone, rfl, fun _ => ⟨hok.2, hok.1⟩⟩

/-- The same for the close of an `APPENDING` artifact, which hands over to the merge
once `APPEND_COMPLETE` is persisted. -/
theorem CloseArtifact_calls {a : Artifact} {db : Database} (s3 : S3Bucket) (flag : Bool)
    (hstate : a.State = .APPENDING) :
    ∃ newCalls : List PutCall,
      (CloseArtifact a db s3 flag).s3.calls = s3.calls ++ newCalls ∧
      (∀ p ∈ newCalls, p.length = a.Size ∧ p.data = pipeWrites (db.chunksOf a.Id)) ∧
      (CloseArtifact a db s3 flag).db.logChunks = db.logChunks ∧
      ((CloseArtifact a db s3 flag).artifact.State = .UPLOADED →
        (CloseArtifact a db s3 flag).s3.GetReader a.DefaultS3URL =
          .ok (pipeWrites (db.chunksOf a.Id)) ∧
        len (pipeWrites (db.chunksOf a.Id)) = a.Size) := by
  obtain ⟨aid, bid, nm, sz, dl, dc, st, url⟩ := a
  simp only at hstate
  subst hstate
  rcases Database.UpdateArtifact_cases db
      (⟨aid, bid, nm, sz, dl, dc, .APPEND_COMPLETE, url⟩ : Artifact) with ⟨e, hu⟩ | hu
  · simp only [CloseArtifact, hu]
    exact ⟨[], by simp, by simp, rfl, by simp⟩
  · simp only [CloseArtifact, hu]
    exact @MergeLogChunks_calls (⟨aid, bid, nm, sz, dl, dc, .APPEND_COMPLETE, url⟩ : Artifact)
      (db.tick.setArtifact (⟨aid, bid, nm, sz, dl, dc, .APPEND_COMPLETE, url⟩ : Artifact))
      s3 rfl

/-- C5, as the code has it. For a chunked artifact built by `CreateArtifact` and any
run of `AppendLogChunk` calls and then closed, whatever the store does: every
`PutReader` call the close makes declares the length `Artifact.Size`, and the bytes
the producer writes to the pipe are the contents of the persisted chunks of the
artifact, as many as the sum of their `Size`; with store operations succeeding (and
the bytes offered fitting the `int64` range) `Artifact.Size` is that sum, so that the
declared length, the sum of `Size` and the number of bytes written agree; and when
the artifact ends `UPLOADED`, the object stored under its key has exactly that many
bytes, which is the declared length. -/
theorem C5_declared_length_is_chunk_total (now : Nat) (req : CreateArtifactReq)
    (bucket : Bucket) (db db0 : Database) (a : Artifact) (cs : List LogChunk)
    (s3 : S3Bucket) (flag : Bool)
    (hreq : req.Chunked = true)
    (hcreate : CreateArtifact now req bucket db = (.ok a, db0))
    (hnone : db0.chunksOf a.Id = []) :
    ∃ newCalls : List PutCall,
      (CloseArtifact (appendAll db0 a cs).1 (appendAll db0 a cs).2 s3 flag).s3.calls =
        s3.calls ++ newCalls ∧
      (∀ p ∈ newCalls,
        p.length = (appendAll db0 a cs).1.Size ∧
        p.data = pipeWrites
          ((CloseArtifact (appendAll db0 a cs).1 (appendAll db0 a cs).2 s3 flag).db.chunksOf
            a.Id) ∧
        len p.data = totalSize
          ((CloseArtifact (appendAll db0 a cs).1 (appendAll db0 a cs).2 s3 flag).db.chunksOf
            a.Id)) ∧
      (db.healthy → totalBytes cs < 2 ^ 63 →
        (appendAll db0 a cs).1.Size = totalSize
          ((CloseArtifact (appendAll db0 a cs).1 (appendAll db0 a cs).2 s3 flag).db.chunksOf
            a.Id)) ∧
      ((CloseArtifact (appendAll db0 a cs).1 (appendAll db0 a cs).2 s3 flag).artifact.State
          = .UPLOADED →
        ∃ data,
          (CloseArtifact (appendAll db0 a cs).1 (appendAll db0 a cs).2 s3 flag).s3.GetReader
            (appendAll db0 a cs).1.DefaultS3URL = .ok data ∧
          len data = totalSize
            ((CloseArtifact (appendAll db0 a cs).1 (appendAll db0 a cs).2 s3
              flag).db.chunksOf a.Id) ∧
          len data = (appendAll db0 a cs).1.Size) := by
  have hstate0 := CreateArtifact_chunked_state hreq hcreate
  have hvalid0 : ∀ c ∈ db0.logChunks, c.ArtifactId = a.Id → len c.Content = c.Size := by
    intro c hc hca
    have hmem := (Database.mem_chunksOf db0 a.Id c).mpr ⟨hc, hca⟩
    rw [hnone] at hmem
    simp at hmem
  obtain ⟨hst, hid, hvalid⟩ := appendAll_any cs db0 a hvalid0
  have hhealthy : db.healthy → totalBytes cs < 2 ^ 63 →
      (appendAll db0 a cs).1.Size = totalSize ((appendAll db0 a cs).2.chunksOf a.Id) := by
    intro hdb hbytes
    obtain ⟨hfin, hid2, _⟩ := appendAll_inv cs hreq hdb hcreate hnone hbytes
    rw [← hid2, hfin.chunksOf_eq]
    exact hfin.size
  generalize (appendAll db0 a cs).1 = A at hst hid hhealthy ⊢
  generalize (appendAll db0 a cs).2 = D at hvalid hhealthy ⊢
  rw [hstate0] at hst
  obtain ⟨newCalls, hcalls, hall, hrows, hup⟩ := @CloseArtifact_calls A D s3 flag hst
  have hchunks : (CloseArtifact A D s3 flag).db.chunksOf a.Id = D.chunksOf a.Id := by
    unfold Database.chunksOf
    rw [hrows]
  have hby : totalBytes (D.chunksOf a.Id) = totalSize (D.chunksOf a.Id) :=
    totalBytes_eq_totalSize (fun c hc =>
      hvalid c ((Database.mem_chunksOf D a.Id c).mp hc).1
        ((Database.mem_chunksOf D a.Id c).mp hc).2)
  rw [hchunks]
  rw [hid] at hall hup
  refine ⟨newCalls, hcalls, ?_, hhealthy, ?_⟩
  · intro p hp
    obtain ⟨h1, h2⟩ := hall p hp
    exact ⟨h1, h2, by rw [h2, len_pipeWrites, hby]⟩
  · intro hu
    obtain ⟨hget, hlen⟩ := hup hu
    exact ⟨_, hget, by rw [len_pipeWrites, hby], hlen⟩

/-- Scenario S3 as an instance of C5: after the run of appends the close uploads,
declaring the five bytes the two chunks hold, and the stored object has five bytes. -/
theorem C5_declared_length_is_chunk_total_witness :
    exCreateLog.Chunked = true ∧
    CreateArtifact 0 exCreateLog exBucket exStoreEmpty = (.ok exLogNew, exStoreNew) ∧
    exStoreNew.chunksOf exLogNew.Id = [] ∧
    ∃ newCalls : List PutCall,
      (CloseArtifact (appendAll exStoreNew exLogNew exRun).1
        (appendAll exStoreNew exLogNew exRun).2 exS3 true).s3.calls = exS3.calls ++ newCalls ∧
      (∀ p ∈ newCalls, p.length = (appendAll exStoreNew exLogNew exRun).1.Size ∧
        len p.data = totalSize
          ((CloseArtifact (appendAll exStoreNew exLogNew exRun).1
            (appendAll exStoreNew exLogNew exRun).2 exS3 true).db.chunksOf exLogNew.Id)) ∧
      (appendAll exStoreNew exLogNew exRun).1.Size = totalSize
        ((CloseArtifact (appendAll exStoreNew exLogNew exRun).1
          (appendAll exStoreNew exLogNew exRun).2 exS3 true).db.chunksOf exLogNew.Id) :=
  have ⟨calls, h1, h2, h3, _⟩ := C5_declared_length_is_chunk_total 0 exCreateLog exBucket
    exStoreEmpty exStoreNew exLogNew exRun exS3 true rfl rfl (by decide)
  ⟨rfl, rfl, by decide, calls, h1, fun p hp => ⟨(h2 p hp).1, (h2 p hp).2.2⟩,
    h3 (by decide) (by decide)⟩

/-- C5 as stated fails when a store operation fails. `"log"` is created chunked, the
chunk `"abc"` is offered, and the store fails the insert of the chunk row after it
has served the update of the artifact: `Size` is 3 and no chunk is persisted.  The
close then declares the length 3 to `PutReader` over an empty stream: the declared
length is neither the sum of `Size` over the persisted chunks nor the number of bytes
written, both 0. -/
theorem C5_counterexample_failed_insert :
    exCreateLog.Chunked = true ∧
    CreateArtifact 0 exCreateLog exBucket exStoreEmptyFlaky = (.ok exLogNew, exStoreFlaky) ∧
    exStoreFlaky.chunksOf exLogNew.Id = [] ∧
    (appendAll exStoreFlaky exLogNew [exChunkAbcIn]).1.Size = 3 ∧
    (CloseArtifact (appendAll exStoreFlaky exLogNew [exChunkAbcIn]).1
      (appendAll exStoreFlaky exLogNew [exChunkAbcIn]).2 exS3 true).s3.calls =
        [{ path := "/B/log/1", data := "", length := 3,
           contType := "binary/octet-stream", perm := PublicRead }] ∧
    (CloseArtifact (appendAll exStoreFlaky exLogNew [exChunkAbcIn]).1
      (appendAll exStoreFlaky exLogNew [exChunkAbcIn]).2 exS3 true).db.chunksOf
        exLogNew.Id = [] ∧
    totalSize ((CloseArtifact (appendAll exStoreFlaky exLogNew [exChunkAbcIn]).1
      (appendAll exStoreFlaky exLogNew [exChunkAbcIn]).2 exS3 true).db.chunksOf
        exLogNew.Id) = 0 ∧
    len "" = 0 :=
  ⟨rfl, rfl, by decide, by decide, by decide, by decide, by decide, rfl⟩

end Artifacts
